import Mathlib

/-
  Verification development for the metrics-collection agent core
  (file src/checks/__init__.py of the repository).

  The embedding models the class `checks`: the plugin loader `getPlugins`
  and the per-cycle orchestrator `doChecks`.  Python values are modelled by
  the inductive `PyVal`; Python dictionaries by insertion-ordered
  association lists; raised exceptions by the `Except Exc` monad.  Each
  external probe call (Apache, disk, load, memory, MySQL, network, Nginx,
  processes, RabbitMQ, MongoDB, CouchDB, I O stats, CPU, Ganglia, Datadog,
  Cassandra, the hostname lookup, the event checks and the resource
  checks) is an outcome parameter of the environment: either a returned
  value or a raised exception, exactly as the orchestrator observes it.
-/

namespace DdAgent

/-- Model of the Python values that flow through the agent core. -/
inductive PyVal where
  | pyNone
  | pyBool (b : Bool)
  | pyInt (n : Int)
  | str (s : String)
  | list (vs : List PyVal)
  | dict (kvs : List (String × PyVal))

/-- A Python dictionary with string keys, as an insertion-ordered association list. -/
abbrev PyDict := List (String × PyVal)

/-- Model of the Python exceptions that matter to the agent core. -/
inductive Exc where
  | typeError
  | keyError (k : String)
  | socketError
  | attributeError
  | other (msg : String)

/-- Sequencing in the exception monad: the Python statement ordering. -/
def ebind {α β : Type} : Except Exc α → (α → Except Exc β) → Except Exc β
  | .error e, _ => .error e
  | .ok a, f => f a

/-- Dictionary member lookup, first binding wins (dictionaries hold no duplicate keys). -/
def dictLookup : PyDict → String → Option PyVal
  | [], _ => Option.none
  | (k, v) :: rest, key => if k = key then some v else dictLookup rest key

/-- Dictionary item assignment: overwrite in place, or append a new binding. -/
def dictSet : PyDict → String → PyVal → PyDict
  | [], key, val => [(key, val)]
  | (k, v) :: rest, key, val =>
      if k = key then (k, val) :: rest else (k, v) :: dictSet rest key val

/-- The Python expression d.update(e) for two dictionaries. -/
def dictUpdate (d e : PyDict) : PyDict :=
  e.foldl (fun acc p => dictSet acc p.1 p.2) d

/-- Boolean key-membership test on a dictionary. -/
def hasKeyB (d : PyDict) (k : String) : Bool :=
  (dictLookup d k).isSome

/-- The Python expression v[key]: only dictionaries are subscriptable by a
string; a missing key raises KeyError, any other value raises TypeError. -/
def pyGetItem : PyVal → String → Except Exc PyVal
  | .dict kvs, key =>
      match dictLookup kvs key with
      | some v => .ok v
      | Option.none => .error (.keyError key)
  | _, _ => .error .typeError

/-- The Python test v == False: True equals only the literal False and the
number zero (bool is a numeric type in Python). -/
def pyEqFalse : PyVal → Bool
  | .pyBool b => !b
  | .pyInt n => n == 0
  | _ => false

/-- The Python test v != False, as used for the optional probe results. -/
def pyNeFalse (v : PyVal) : Bool := !pyEqFalse v

/-- The Python test v == None: nothing but None itself equals None. -/
def pyEqNone : PyVal → Bool
  | .pyNone => true
  | _ => false

/-- The Python identity test v is False, on the literal False. -/
def isFalseLit : PyVal → Bool
  | .pyBool b => !b
  | _ => false

/-- The Python identity test v is None. -/
def isNoneLit : PyVal → Bool
  | .pyNone => true
  | _ => false

/-- Python truthiness of a value, as used by if statements in the source. -/
def pyTruthy : PyVal → Bool
  | .pyNone => false
  | .pyBool b => b
  | .pyInt n => n != 0
  | .str s => !s.isEmpty
  | .list vs => !vs.isEmpty
  | .dict kvs => !kvs.isEmpty

/- String literals used as dictionary keys by the source, as named constants. -/

namespace K

def collection_timestamp : String := "collection_timestamp"
def osKey : String := "os"
def agentKey : String := "agentKey"
def agentVersion : String := "agentVersion"
def diskUsage : String := "diskUsage"
def loadAvrg1 : String := "loadAvrg1"
def loadAvrg5 : String := "loadAvrg5"
def loadAvrg15 : String := "loadAvrg15"
def memPhysUsed : String := "memPhysUsed"
def memPhysFree : String := "memPhysFree"
def memSwapUsed : String := "memSwapUsed"
def memSwapFree : String := "memSwapFree"
def memCached : String := "memCached"
def networkTraffic : String := "networkTraffic"
def processes : String := "processes"
def apiKey : String := "apiKey"
def events : String := "events"
def resources : String := "resources"
def one : String := "1"
def five : String := "5"
def fifteen : String := "15"
def physUsed : String := "physUsed"
def physFree : String := "physFree"
def swapUsed : String := "swapUsed"
def swapFree : String := "swapFree"
def cached : String := "cached"
def ganglia : String := "ganglia"
def datadog : String := "datadog"
def cassandra : String := "cassandra"
def apacheReqPerSec : String := "apacheReqPerSec"
def apacheBusyWorkers : String := "apacheBusyWorkers"
def apacheIdleWorkers : String := "apacheIdleWorkers"
def reqPerSec : String := "reqPerSec"
def busyWorkers : String := "busyWorkers"
def idleWorkers : String := "idleWorkers"
def connections : String := "connections"
def createdTmpDiskTables : String := "createdTmpDiskTables"
def maxUsedConnections : String := "maxUsedConnections"
def openFiles : String := "openFiles"
def slowQueries : String := "slowQueries"
def tableLocksWaited : String := "tableLocksWaited"
def threadsConnected : String := "threadsConnected"
def secondsBehindMaster : String := "secondsBehindMaster"
def mysqlConnections : String := "mysqlConnections"
def mysqlCreatedTmpDiskTables : String := "mysqlCreatedTmpDiskTables"
def mysqlMaxUsedConnections : String := "mysqlMaxUsedConnections"
def mysqlOpenFiles : String := "mysqlOpenFiles"
def mysqlSlowQueries : String := "mysqlSlowQueries"
def mysqlTableLocksWaited : String := "mysqlTableLocksWaited"
def mysqlThreadsConnected : String := "mysqlThreadsConnected"
def mysqlSecondsBehindMaster : String := "mysqlSecondsBehindMaster"
def nginxConnections : String := "nginxConnections"
def nginxReqPerSec : String := "nginxReqPerSec"
def rabbitMQ : String := "rabbitMQ"
def mongoDB : String := "mongoDB"
def couchDB : String := "couchDB"
def plugins : String := "plugins"
def ioStats : String := "ioStats"
def systemStats : String := "systemStats"
def internalHostname : String := "internalHostname"
def uuidKey : String := "uuid"
def SystemKey : String := "System"
def api_key : String := "api_key"
def host : String := "host"
def timestamp : String := "timestamp"
def event_type : String := "event_type"
def agentStartup : String := "agent startup"
def ts : String := "ts"
def dataKey : String := "data"
def format_version : String := "format_version"
def format_description : String := "format_description"
def meta : String := "meta"
def pyExt : String := "py"
def dot : String := "."

end K

/-
  Plugin loader model (checks.getPlugins, source lines 192 to 285).
-/

/-- A constructed plugin object: its class name (used as the output key)
and the value its run method returns this cycle. -/
structure PluginObj where
  className : String
  runResult : PyVal

/-- A plugin class found by getattr in an imported module: the outcome of
calling it with three, two, or zero arguments. -/
structure PluginClass where
  ctor3 : Except Exc PluginObj
  ctor2 : Except Exc PluginObj
  ctor0 : Except Exc PluginObj

/-- An imported plugin module: the getattr result for the class whose name
matches the artifact base name (Option.none means AttributeError). -/
structure PyModule where
  attr : Option PluginClass

/-- A file in the plugin directory: its name and what importing it yields. -/
structure FileEntry where
  fname : String
  importResult : Except Exc PyModule

/-- The environment getPlugins runs against: whether the pluginDirectory
key is configured, whether the directory exists, and its files. -/
structure PluginsEnv where
  hasPluginDirectory : Bool
  directoryExists : Bool
  files : List FileEntry

/-- Mutable state of the checks object consulted by getPlugins: the
memoized plugin list (None before the first successful scan). -/
structure ChecksState where
  plugins : Option (List PluginObj)

/-- Split a character list at its first dot, when one is present. -/
def splitCharsOnDot : List Char → Option (List Char × List Char)
  | [] => Option.none
  | c :: rest =>
      if c = Char.ofNat 46 then some ([], rest)
      else
        match splitCharsOnDot rest with
        | some (pre, post) => some (c :: pre, post)
        | Option.none => Option.none

/-- The Python expression s.split(sep, 1) specialized to the dot separator:
at most one split, at the first dot. -/
def splitOnceDot (s : String) : List String :=
  match splitCharsOnDot s.data with
  | some (pre, post) => [String.mk pre, String.mk post]
  | Option.none => [s]

/-- The eligible plugin artifacts: files whose name, split once at a dot,
has exactly the extension py; the base name with its import outcome. -/
def eligiblePlugins (files : List FileEntry) : List (String × Except Exc PyModule) :=
  files.filterMap fun fe =>
    match splitOnceDot fe.fname with
    | [base, ext] => if ext = K.pyExt then some (base, fe.importResult) else Option.none
    | _ => Option.none

/-- The constructor probing protocol of getPlugins: three arguments first;
on TypeError two arguments; on TypeError again zero arguments.  Any other
exception propagates to the surrounding handler. -/
def constructPlugin (cls : PluginClass) : Except Exc PluginObj :=
  match cls.ctor3 with
  | .ok o => .ok o
  | .error Exc.typeError =>
      match cls.ctor2 with
      | .ok o => .ok o
      | .error Exc.typeError => cls.ctor0
      | .error e => .error e
  | .error e => .error e

/-- The import-and-construct loop of getPlugins.  The import statement sits
outside the try block, so an import exception stops the loop and escapes;
getattr and construction sit inside try, so their exceptions only skip the
artifact.  Constructed objects are appended to the accumulator in order. -/
def loadLoop : List (String × Except Exc PyModule) → List PluginObj →
    List PluginObj × Option Exc
  | [], acc => (acc, Option.none)
  | (_, imp) :: rest, acc =>
      match imp with
      | .error e => (acc, some e)
      | .ok m =>
          match m.attr with
          | Option.none => loadLoop rest acc
          | some cls =>
              match constructPlugin cls with
              | .ok o => loadLoop rest (acc ++ [o])
              | .error _ => loadLoop rest acc

/-- The per-cycle execution of the stored plugin objects: a dictionary from
class name to run result. -/
def runPlugins (l : List PluginObj) : PyVal :=
  .dict (l.foldl (fun d p => dictSet d p.className p.runResult) [])

/-- Model of checks.getPlugins: directory guards first (returning the False
sentinel), one-time load memoized in the state, then execution of the
stored objects on every call. -/
def getPlugins (pe : PluginsEnv) (st : ChecksState) : Except Exc PyVal × ChecksState :=
  if pe.hasPluginDirectory then
    if pe.directoryExists then
      match st.plugins with
      | some l => (.ok (runPlugins l), st)
      | Option.none =>
          match loadLoop (eligiblePlugins pe.files) [] with
          | (objs, some e) => (.error e, { plugins := some objs })
          | (objs, Option.none) => (.ok (runPlugins objs), { plugins := some objs })
    else (.ok (.pyBool false), st)
  else (.ok (.pyBool false), st)

/-
  Orchestrator model (checks.doChecks, source lines 291 to 470).
-/

/-- The configuration keys doChecks reads from agentConfig. -/
structure AgentConfig where
  agentKey : PyVal
  version : PyVal
  apiKey : PyVal
  checkFreq : PyVal

/-- An event-style check: its key attribute and what its check call returns. -/
structure EventCheck where
  key : String
  result : PyVal

/-- A resource check as doChecks observes it this cycle: its RESOURCE_KEY
attribute, the popped snapshot (a ts and data pair, or a falsy empty
snapshot), the describe_format_if_needed result and the format version. -/
structure ResCheck where
  resourceKey : String
  snap : Option (PyVal × PyVal)
  formatDesc : Option PyVal
  formatVersion : PyVal

/-- The environment one doChecks cycle runs against: configuration, the
outcome of every external call, and the plugin loader environment. -/
structure Env where
  cfg : AgentConfig
  timeNow : PyVal
  osName : String
  apacheStatus : Except Exc PyVal
  diskUsage : Except Exc PyVal
  loadAvrgs : Except Exc PyVal
  memory : Except Exc PyVal
  mysqlStatus : Except Exc PyVal
  networkTraffic : Except Exc PyVal
  nginxStatus : Except Exc PyVal
  processes : Except Exc PyVal
  rabbitmq : Except Exc PyVal
  mongodb : Except Exc PyVal
  couchdb : Except Exc PyVal
  ioStats : Except Exc PyVal
  cpuStats : Except Exc PyVal
  gangliaData : Except Exc PyVal
  datadogData : Except Exc PyVal
  cassandraData : Except Exc PyVal
  pluginsEnv : PluginsEnv
  gethostname : Except Exc String
  uuidHex : String
  eventChecks : List EventCheck
  resourceChecks : List ResCheck
  startupTs : Int
  emitterExc : Option Exc

/-- The returned values of the seventeen probe calls of one cycle, once all
of them have returned without raising. -/
structure Vals where
  apacheV : PyVal
  diskV : PyVal
  loadV : PyVal
  memV : PyVal
  mysqlV : PyVal
  netV : PyVal
  nginxV : PyVal
  procV : PyVal
  rabbitV : PyVal
  mongoV : PyVal
  couchV : PyVal
  pluginsV : PyVal
  ioV : PyVal
  cpuV : PyVal
  gangliaV : PyVal
  datadogV : PyVal
  cassandraV : PyVal

/-- The checksData literal of doChecks: mandatory core fields, including
the direct subscripts into the load averages and memory results. -/
def mandatoryStage (env : Env) (v : Vals) : Except Exc PyDict :=
  ebind (pyGetItem v.loadV K.one) fun la1 =>
  ebind (pyGetItem v.loadV K.five) fun la5 =>
  ebind (pyGetItem v.loadV K.fifteen) fun la15 =>
  ebind (pyGetItem v.memV K.physUsed) fun mpu =>
  ebind (pyGetItem v.memV K.physFree) fun mpf =>
  ebind (pyGetItem v.memV K.swapUsed) fun msu =>
  ebind (pyGetItem v.memV K.swapFree) fun msf =>
  ebind (pyGetItem v.memV K.cached) fun mc =>
  .ok [(K.collection_timestamp, env.timeNow),
       (K.osKey, .str env.osName),
       (K.agentKey, env.cfg.agentKey),
       (K.agentVersion, env.cfg.version),
       (K.diskUsage, v.diskV),
       (K.loadAvrg1, la1),
       (K.loadAvrg5, la5),
       (K.loadAvrg15, la15),
       (K.memPhysUsed, mpu),
       (K.memPhysFree, mpf),
       (K.memSwapUsed, msu),
       (K.memSwapFree, msf),
       (K.memCached, mc),
       (K.networkTraffic, v.netV),
       (K.processes, v.procV),
       (K.apiKey, env.cfg.apiKey),
       (K.events, .dict []),
       (K.resources, .dict [])]

/-- The cpuStats block: when the result is not the False literal and not
None, merge its keys into checksData; merging a non-dictionary raises. -/
def cpuStage (c : PyVal) (d : PyDict) : Except Exc PyDict :=
  if isFalseLit c || isNoneLit c then .ok d
  else
    match c with
    | .dict cd => .ok (dictUpdate d cd)
    | _ => .error .typeError

/-- The Ganglia, Datadog and Cassandra blocks: store the whole result under
one key when it is not the False literal and not None. -/
def setIfNotAbsent (k : String) (v : PyVal) (d : PyDict) : PyDict :=
  if isFalseLit v || isNoneLit v then d else dictSet d k v

/-- The Apache block: when the result is not equal to False, store its
three fields, each read by direct subscript. -/
def apacheStage (a : PyVal) (d : PyDict) : Except Exc PyDict :=
  if pyNeFalse a then
    ebind (pyGetItem a K.reqPerSec) fun rps =>
    ebind (pyGetItem a K.busyWorkers) fun bw =>
    ebind (pyGetItem a K.idleWorkers) fun iw =>
    .ok (dictSet (dictSet (dictSet d K.apacheReqPerSec rps) K.apacheBusyWorkers bw)
          K.apacheIdleWorkers iw)
  else .ok d

/-- The MySQL block: seven unconditional fields plus the replication delay
field, stored only when its value is not equal to None. -/
def mysqlStage (m : PyVal) (d : PyDict) : Except Exc PyDict :=
  if pyNeFalse m then
    ebind (pyGetItem m K.connections) fun c1 =>
    ebind (pyGetItem m K.createdTmpDiskTables) fun c2 =>
    ebind (pyGetItem m K.maxUsedConnections) fun c3 =>
    ebind (pyGetItem m K.openFiles) fun c4 =>
    ebind (pyGetItem m K.slowQueries) fun c5 =>
    ebind (pyGetItem m K.tableLocksWaited) fun c6 =>
    ebind (pyGetItem m K.threadsConnected) fun c7 =>
    ebind (pyGetItem m K.secondsBehindMaster) fun sbm =>
    let d7 := dictSet (dictSet (dictSet (dictSet (dictSet (dictSet (dictSet d
      K.mysqlConnections c1) K.mysqlCreatedTmpDiskTables c2) K.mysqlMaxUsedConnections c3)
      K.mysqlOpenFiles c4) K.mysqlSlowQueries c5) K.mysqlTableLocksWaited c6)
      K.mysqlThreadsConnected c7
    .ok (if pyEqNone sbm then d7 else dictSet d7 K.mysqlSecondsBehindMaster sbm)
  else .ok d

/-- The Nginx block: two fields read by direct subscript. -/
def nginxStage (n : PyVal) (d : PyDict) : Except Exc PyDict :=
  if pyNeFalse n then
    ebind (pyGetItem n K.connections) fun c =>
    ebind (pyGetItem n K.reqPerSec) fun r =>
    .ok (dictSet (dictSet d K.nginxConnections c) K.nginxReqPerSec r)
  else .ok d

/-- The RabbitMQ, MongoDB, CouchDB, plugins and ioStats blocks: store the
whole result under one key when it is not equal to False. -/
def setIfNeFalse (k : String) (v : PyVal) (d : PyDict) : PyDict :=
  if pyNeFalse v then dictSet d k v else d

/-- The internalHostname block: the socket call outcome; only socket.error
is caught (and the field omitted), any other exception propagates. -/
def hostStage (h : Except Exc String) (d : PyDict) : Except Exc PyDict :=
  match h with
  | .ok hn => .ok (dictSet d K.internalHostname (.str hn))
  | .error Exc.socketError => .ok d
  | .error e => .error e

/-- The statement checksData[outer][k] = v: subscript the outer key (a
missing key raises KeyError), then item-assign into the inner dictionary
(a non-dictionary raises TypeError). -/
def setInSub (d : PyDict) (outer k : String) (v : PyVal) : Except Exc PyDict :=
  match dictLookup d outer with
  | Option.none => .error (.keyError outer)
  | some (.dict sd) => .ok (dictSet d outer (.dict (dictSet sd k v)))
  | some _ => .error .typeError

/-- The event check loop: each check contributes its result under its key
inside the events dictionary, only when the result is truthy. -/
def eventsLoop : List EventCheck → PyDict → Except Exc PyDict
  | [], d => .ok d
  | ec :: rest, d =>
      if pyTruthy ec.result then
        ebind (setInSub d K.events ec.key ec.result) fun d2 => eventsLoop rest d2
      else eventsLoop rest d

/-- The res_value dictionary of one contributing resource check: snapshot
timestamp, data and format version, plus the format description exactly
when describe_format_if_needed returned a value. -/
def resValue (ts data : PyVal) (rc : ResCheck) : PyVal :=
  let rv : PyDict := [(K.ts, ts), (K.dataKey, data), (K.format_version, rc.formatVersion)]
  match rc.formatDesc with
  | some fd => .dict (dictSet rv K.format_description fd)
  | Option.none => .dict rv

/-- The resource check loop: checks with a truthy popped snapshot
contribute a resources entry and raise the has_resource flag. -/
def resourcesLoop : List ResCheck → PyDict → Bool → Except Exc (PyDict × Bool)
  | [], d, b => .ok (d, b)
  | rc :: rest, d, b =>
      match rc.snap with
      | Option.none => resourcesLoop rest d b
      | some (ts, data) =>
          ebind (setInSub d K.resources rc.resourceKey (resValue ts data rc)) fun d2 =>
          resourcesLoop rest d2 true

/-- The resources meta block, attached once when any resource contributed:
the API key and the hostname read back from checksData by subscript. -/
def metaStage (env : Env) (hasRes : Bool) (d : PyDict) : Except Exc PyDict :=
  if hasRes then
    ebind (pyGetItem (.dict d) K.internalHostname) fun h =>
    setInSub d K.resources K.meta (.dict [(K.api_key, env.cfg.apiKey), (K.host, h)])
  else .ok d

/-- The startup event record posted on the first run. -/
def startupRecord (cfg : AgentConfig) (h : PyVal) (ts : Int) : PyVal :=
  .list [.dict [(K.api_key, cfg.apiKey), (K.host, h),
                (K.timestamp, .pyInt ts), (K.event_type, .str K.agentStartup)]]

/-- The first-run startup event block: store the single startup record
under the System key of the events dictionary. -/
def startupStage (env : Env) (fr : Bool) (d : PyDict) : Except Exc PyDict :=
  if fr then
    ebind (pyGetItem (.dict d) K.internalHostname) fun h =>
    setInSub d K.events K.SystemKey (startupRecord env.cfg h env.startupTs)
  else .ok d

/-- Payload assembly of doChecks through the optional blocks and the
first-run systemStats field, in source statement order. -/
def assemblePre (env : Env) (v : Vals) (fr : Bool) (ss : PyVal) : Except Exc PyDict :=
  ebind (mandatoryStage env v) fun d0 =>
  ebind (cpuStage v.cpuV d0) fun d1 =>
  ebind (apacheStage v.apacheV (setIfNotAbsent K.cassandra v.cassandraV
    (setIfNotAbsent K.datadog v.datadogV
      (setIfNotAbsent K.ganglia v.gangliaV d1)))) fun d5 =>
  ebind (mysqlStage v.mysqlV d5) fun d6 =>
  ebind (nginxStage v.nginxV d6) fun d7 =>
  .ok (if fr then
    dictSet (setIfNeFalse K.ioStats v.ioV (setIfNeFalse K.plugins v.pluginsV
      (setIfNeFalse K.couchDB v.couchV (setIfNeFalse K.mongoDB v.mongoV
        (setIfNeFalse K.rabbitMQ v.rabbitV d7))))) K.systemStats ss
  else
    setIfNeFalse K.ioStats v.ioV (setIfNeFalse K.plugins v.pluginsV
      (setIfNeFalse K.couchDB v.couchV (setIfNeFalse K.mongoDB v.mongoV
        (setIfNeFalse K.rabbitMQ v.rabbitV d7)))))

/-- Payload assembly of doChecks, from the checksData literal to the last
optional block, in source statement order. -/
def assemble (env : Env) (v : Vals) (fr : Bool) (ss : PyVal) : Except Exc PyDict :=
  ebind (assemblePre env v fr ss) fun d13 =>
  ebind (hostStage env.gethostname d13) fun d14 =>
  ebind (eventsLoop env.eventChecks (dictSet d14 K.uuidKey (.str env.uuidHex))) fun d16 =>
  ebind (resourcesLoop env.resourceChecks d16 false) fun dr =>
  ebind (metaStage env dr.2 dr.1) fun d17 =>
  startupStage env fr d17

/-- The probe calls preceding getPlugins, in source order; the first raised
exception propagates and the later probes never run. -/
def seqProbes1 (env : Env) : Except Exc (PyVal × PyVal × PyVal × PyVal × PyVal ×
    PyVal × PyVal × PyVal × PyVal × PyVal × PyVal) :=
  ebind env.apacheStatus fun a =>
  ebind env.diskUsage fun dk =>
  ebind env.loadAvrgs fun l =>
  ebind env.memory fun m =>
  ebind env.mysqlStatus fun my =>
  ebind env.networkTraffic fun nt =>
  ebind env.nginxStatus fun ng =>
  ebind env.processes fun pr =>
  ebind env.rabbitmq fun rb =>
  ebind env.mongodb fun mo =>
  ebind env.couchdb fun co =>
  .ok (a, dk, l, m, my, nt, ng, pr, rb, mo, co)

/-- The probe calls following getPlugins, in source order. -/
def seqProbes2 (env : Env) : Except Exc (PyVal × PyVal × PyVal × PyVal × PyVal) :=
  ebind env.ioStats fun io =>
  ebind env.cpuStats fun cp =>
  ebind env.gangliaData fun ga =>
  ebind env.datadogData fun dd =>
  ebind env.cassandraData fun ca =>
  .ok (io, cp, ga, dd, ca)

/-- One doChecks cycle up to and including payload assembly: the probe
calls in order, getPlugins (the only state change) in its source position,
then assembly.  The pair holds the assembled payload or the escaping
exception, and the resulting checks state. -/
def assembleOf (env : Env) (st : ChecksState) (fr : Bool) (ss : PyVal) :
    Except Exc PyDict × ChecksState :=
  match seqProbes1 env with
  | .error e => (.error e, st)
  | .ok (a, dk, l, m, my, nt, ng, pr, rb, mo, co) =>
      match getPlugins env.pluginsEnv st with
      | (.error e, st2) => (.error e, st2)
      | (.ok pv, st2) =>
          match seqProbes2 env with
          | .error e => (.error e, st2)
          | .ok (io, cp, ga, dd, ca) =>
              (assemble env ⟨a, dk, l, m, my, nt, ng, pr, rb, mo, co, pv, io, cp, ga, dd, ca⟩
                 fr ss, st2)

/-- The observable outcome of one doChecks invocation. -/
structure DoChecksOut where
  result : Except Exc Unit
  emitted : Option PyVal
  scheduled : Option PyVal
  state : ChecksState

/-- Model of checks.doChecks: assemble the payload, hand it to the emitter,
then call sc.enter with the checkFreq delay.  The emitter call and the
sc.enter call are sequential statements with no exception handler, so an
exception from assembly skips both and an exception from the emitter skips
the sc.enter call. -/
def doChecksRun (env : Env) (st : ChecksState) (fr : Bool) (ss : PyVal) : DoChecksOut :=
  match assembleOf env st fr ss with
  | (.error e, st2) => ⟨.error e, Option.none, Option.none, st2⟩
  | (.ok pd, st2) =>
      match env.emitterExc with
      | some e => ⟨.error e, some (.dict pd), Option.none, st2⟩
      | Option.none => ⟨.ok (), some (.dict pd), some env.cfg.checkFreq, st2⟩

/-
  Concrete fixtures used by witnesses and counterexamples.
-/

/-- A configuration with all four keys the orchestrator reads. -/
def stdCfg : AgentConfig :=
  { agentKey := .pyInt 1,
    version := .pyInt 2,
    apiKey := .pyInt 7,
    checkFreq := .pyInt 60 }

/-- A load averages result with the three subscripted keys. -/
def stdLoadD : PyDict := [(K.one, .pyInt 0), (K.five, .pyInt 0), (K.fifteen, .pyInt 0)]

/-- A memory result with the five subscripted keys. -/
def stdMemD : PyDict :=
  [(K.physUsed, .pyInt 1), (K.physFree, .pyInt 2), (K.swapUsed, .pyInt 3),
   (K.swapFree, .pyInt 4), (K.cached, .pyInt 5)]

/-- A cycle environment on which every probe returns: the mandatory probes
return well-shaped data and every optional probe returns the False
sentinel; no plugin directory; hostname resolution succeeds. -/
def stdEnv : Env :=
  { cfg := stdCfg,
    timeNow := .pyInt 1000,
    osName := K.one,
    apacheStatus := .ok (.pyBool false),
    diskUsage := .ok (.list []),
    loadAvrgs := .ok (.dict stdLoadD),
    memory := .ok (.dict stdMemD),
    mysqlStatus := .ok (.pyBool false),
    networkTraffic := .ok (.dict []),
    nginxStatus := .ok (.pyBool false),
    processes := .ok (.list []),
    rabbitmq := .ok (.pyBool false),
    mongodb := .ok (.pyBool false),
    couchdb := .ok (.pyBool false),
    ioStats := .ok (.pyBool false),
    cpuStats := .ok (.pyBool false),
    gangliaData := .ok (.pyBool false),
    datadogData := .ok (.dict []),
    cassandraData := .ok (.dict []),
    pluginsEnv := ⟨false, false, []⟩,
    gethostname := .ok K.host,
    uuidHex := K.one,
    eventChecks := [],
    resourceChecks := [],
    startupTs := 42,
    emitterExc := Option.none }

/-- The state of a process that has not loaded plugins yet. -/
def st0 : ChecksState := ⟨Option.none⟩

/-- The payload a doChecks outcome handed to the emitter, as a dictionary. -/
def pdOf (o : DoChecksOut) : PyDict :=
  match o.emitted with
  | some (.dict d) => d
  | _ => []

example : (doChecksRun stdEnv st0 false (.pyBool false)).scheduled = some (.pyInt 60) := rfl
example : (doChecksRun stdEnv st0 false (.pyBool false)).result = .ok () := rfl
example : hasKeyB (pdOf (doChecksRun stdEnv st0 false (.pyBool false))) K.plugins = false := rfl
example : hasKeyB (pdOf (doChecksRun stdEnv st0 false (.pyBool false))) K.events = true := rfl
example : hasKeyB (pdOf (doChecksRun stdEnv st0 false (.pyBool false))) K.datadog = true := rfl
example : hasKeyB (pdOf (doChecksRun stdEnv st0 false (.pyBool false))) K.ganglia = false := rfl
example : hasKeyB (pdOf (doChecksRun stdEnv st0 false (.pyBool false))) K.systemStats = false := rfl
example : hasKeyB (pdOf (doChecksRun stdEnv st0 true (.pyBool false))) K.systemStats = true := rfl
example :
    dictLookup (pdOf (doChecksRun stdEnv st0 true (.list []))) K.events =
      some (.dict [(K.SystemKey, startupRecord stdCfg (.str K.host) 42)]) := rfl
example :
    (doChecksRun { stdEnv with apacheStatus := .error (.other K.one) } st0 false
      (.pyBool false)).result = .error (.other K.one) := rfl
example :
    (doChecksRun { stdEnv with emitterExc := some (.other K.one) } st0 false
      (.pyBool false)).scheduled = Option.none := rfl
example :
    (doChecksRun { stdEnv with gethostname := .error .socketError } st0 true
      (.pyBool false)).result = .error (.keyError K.internalHostname) := rfl
example :
    (doChecksRun { stdEnv with gethostname := .error .socketError } st0 false
      (.pyBool false)).result = .ok () := rfl
example :
    (doChecksRun { stdEnv with pluginsEnv := ⟨true, true, []⟩ } st0 false
      (.pyBool false)).state = ⟨some []⟩ := rfl
example :
    hasKeyB (pdOf (doChecksRun { stdEnv with pluginsEnv := ⟨true, true, []⟩ } st0 false
      (.pyBool false))) K.plugins = true := rfl

/-
  Dictionary lemmas.
-/

theorem dictLookup_dictSet (d : PyDict) (k key : String) (v : PyVal) :
    dictLookup (dictSet d k v) key = if k = key then some v else dictLookup d key := by
  induction d with
  | nil => simp [dictSet, dictLookup]
  | cons p rest ih =>
      obtain ⟨k0, v0⟩ := p
      by_cases h0 : k0 = k
      · subst h0
        by_cases h1 : k0 = key <;> simp [dictSet, dictLookup, h1]
      · by_cases h1 : k0 = key
        · subst h1
          have hne : k ≠ k0 := fun h2 => h0 h2.symm
          simp [dictSet, dictLookup, h0, hne]
        · simp [dictSet, dictLookup, h0, h1, ih]

theorem hasKeyB_cons (k0 : String) (v0 : PyVal) (rest : PyDict) (k : String) :
    hasKeyB ((k0, v0) :: rest) k = (decide (k0 = k) || hasKeyB rest k) := by
  by_cases h : k0 = k <;> simp [hasKeyB, dictLookup, h]

theorem hasKeyB_dictSet (d : PyDict) (k key : String) (v : PyVal) :
    hasKeyB (dictSet d k v) key = (decide (k = key) || hasKeyB d key) := by
  by_cases h : k = key <;> simp [hasKeyB, dictLookup_dictSet, h]

theorem dictSet_dictSet_same (d : PyDict) (k : String) (v w : PyVal) :
    dictSet (dictSet d k v) k w = dictSet d k w := by
  induction d with
  | nil => simp [dictSet]
  | cons p rest ih =>
      obtain ⟨k0, v0⟩ := p
      by_cases h0 : k0 = k <;> simp [dictSet, h0, ih]

theorem dictSet_self (d : PyDict) (k : String) (v : PyVal)
    (h : dictLookup d k = some v) : dictSet d k v = d := by
  induction d with
  | nil => simp [dictLookup] at h
  | cons p rest ih =>
      obtain ⟨k0, v0⟩ := p
      by_cases h0 : k0 = k
      · subst h0
        simp [dictLookup] at h
        simp [dictSet, h]
      · simp [dictLookup, h0] at h
        simp [dictSet, h0, ih h]

theorem dictUpdate_cons (d : PyDict) (k0 : String) (v0 : PyVal) (rest : PyDict) :
    dictUpdate d ((k0, v0) :: rest) = dictUpdate (dictSet d k0 v0) rest := rfl

theorem dictLookup_dictUpdate_of_not_mem (e : PyDict) (d : PyDict) (k : String)
    (h : hasKeyB e k = false) : dictLookup (dictUpdate d e) k = dictLookup d k := by
  induction e generalizing d with
  | nil => simp [dictUpdate]
  | cons p rest ih =>
      obtain ⟨k0, v0⟩ := p
      rw [hasKeyB_cons] at h
      have h0 : ¬ k0 = k := by
        intro h1
        simp [h1] at h
      have h2 : hasKeyB rest k = false := by
        simpa [h0] using h
      rw [dictUpdate_cons, ih _ h2, dictLookup_dictSet, if_neg h0]

theorem hasKeyB_dictUpdate_mono (e : PyDict) (d : PyDict) (k : String)
    (h : hasKeyB d k = true) : hasKeyB (dictUpdate d e) k = true := by
  induction e generalizing d with
  | nil => simpa [dictUpdate] using h
  | cons p rest ih =>
      obtain ⟨k0, v0⟩ := p
      rw [dictUpdate_cons]
      apply ih
      rw [hasKeyB_dictSet]
      simp [h]

/-- Inversion for the sequencing operator: a successful chain factors. -/
theorem ebind_ok {α β : Type} (x : Except Exc α) (f : α → Except Exc β) (b : β)
    (h : ebind x f = .ok b) : ∃ a, x = .ok a ∧ f a = .ok b := by
  cases x with
  | error e => simp [ebind] at h
  | ok a => exact ⟨a, rfl, h⟩

theorem ebind_ok_eq {α β : Type} (x : Except Exc α) (f : α → Except Exc β) (a : α)
    (h : x = .ok a) : ebind x f = f a := by
  subst h; rfl

/-
  Shape predicates for the success path of one cycle: the mandatory probes
  returned the keys doChecks subscripts, and each conditionally subscripted
  optional probe either returned the False sentinel or a well-shaped
  dictionary.
-/

/-- Subscript with a default, the pure mirror of a subscript that is known
to succeed. -/
def pyGetD (v : PyVal) (k : String) : PyVal :=
  match v with
  | .dict kvs => (dictLookup kvs k).getD .pyNone
  | _ => .pyNone

/-- The load averages result carries the three subscripted keys. -/
def loadOk : PyVal → Bool
  | .dict ld => hasKeyB ld K.one && hasKeyB ld K.five && hasKeyB ld K.fifteen
  | _ => false

/-- The memory result carries the five subscripted keys. -/
def memOk : PyVal → Bool
  | .dict md => hasKeyB md K.physUsed && hasKeyB md K.physFree && hasKeyB md K.swapUsed &&
      hasKeyB md K.swapFree && hasKeyB md K.cached
  | _ => false

/-- The payload keys that later blocks of doChecks manage; a well-behaved
cpuStats result does not collide with them. -/
def specialKeys : List String :=
  [K.events, K.resources, K.ganglia, K.datadog, K.cassandra,
   K.apacheReqPerSec, K.apacheBusyWorkers, K.apacheIdleWorkers,
   K.mysqlConnections, K.mysqlCreatedTmpDiskTables, K.mysqlMaxUsedConnections,
   K.mysqlOpenFiles, K.mysqlSlowQueries, K.mysqlTableLocksWaited,
   K.mysqlThreadsConnected, K.mysqlSecondsBehindMaster,
   K.nginxConnections, K.nginxReqPerSec, K.rabbitMQ, K.mongoDB, K.couchDB,
   K.plugins, K.ioStats, K.systemStats, K.internalHostname, K.uuidKey]

/-- The cpuStats result is either skipped (False literal or None) or a
dictionary of plain cpu metrics that does not collide with the keys other
blocks manage. -/
def cpuOk : PyVal → Bool
  | .pyBool b => !b
  | .pyNone => true
  | .dict cd => specialKeys.all fun k => !hasKeyB cd k
  | _ => false

/-- The Apache result is the sentinel or carries its three fields. -/
def apacheOk (a : PyVal) : Bool :=
  if pyNeFalse a then
    match a with
    | .dict ad => hasKeyB ad K.reqPerSec && hasKeyB ad K.busyWorkers && hasKeyB ad K.idleWorkers
    | _ => false
  else true

/-- The MySQL result is the sentinel or carries its eight fields. -/
def mysqlOk (m : PyVal) : Bool :=
  if pyNeFalse m then
    match m with
    | .dict md => hasKeyB md K.connections && hasKeyB md K.createdTmpDiskTables &&
        hasKeyB md K.maxUsedConnections && hasKeyB md K.openFiles && hasKeyB md K.slowQueries &&
        hasKeyB md K.tableLocksWaited && hasKeyB md K.threadsConnected &&
        hasKeyB md K.secondsBehindMaster
    | _ => false
  else true

/-- The Nginx result is the sentinel or carries its two fields. -/
def nginxOk (n : PyVal) : Bool :=
  if pyNeFalse n then
    match n with
    | .dict nd => hasKeyB nd K.connections && hasKeyB nd K.reqPerSec
    | _ => false
  else true

/-
  Pure mirrors of the assembly stages, valid on the success path.
-/

/-- Pure mirror of the mandatory checksData literal. -/
def mandatoryPure (env : Env) (v : Vals) : PyDict :=
  [(K.collection_timestamp, env.timeNow),
   (K.osKey, .str env.osName),
   (K.agentKey, env.cfg.agentKey),
   (K.agentVersion, env.cfg.version),
   (K.diskUsage, v.diskV),
   (K.loadAvrg1, pyGetD v.loadV K.one),
   (K.loadAvrg5, pyGetD v.loadV K.five),
   (K.loadAvrg15, pyGetD v.loadV K.fifteen),
   (K.memPhysUsed, pyGetD v.memV K.physUsed),
   (K.memPhysFree, pyGetD v.memV K.physFree),
   (K.memSwapUsed, pyGetD v.memV K.swapUsed),
   (K.memSwapFree, pyGetD v.memV K.swapFree),
   (K.memCached, pyGetD v.memV K.cached),
   (K.networkTraffic, v.netV),
   (K.processes, v.procV),
   (K.apiKey, env.cfg.apiKey),
   (K.events, .dict []),
   (K.resources, .dict [])]

/-- Pure mirror of the cpuStats block. -/
def cpuPure (c : PyVal) (d : PyDict) : PyDict :=
  if isFalseLit c || isNoneLit c then d
  else
    match c with
    | .dict cd => dictUpdate d cd
    | _ => d

/-- Pure mirror of the Apache block. -/
def apachePure (a : PyVal) (d : PyDict) : PyDict :=
  if pyNeFalse a then
    dictSet (dictSet (dictSet d K.apacheReqPerSec (pyGetD a K.reqPerSec))
      K.apacheBusyWorkers (pyGetD a K.busyWorkers)) K.apacheIdleWorkers (pyGetD a K.idleWorkers)
  else d

/-- The seven unconditional MySQL assignments. -/
def mysqlSets (m : PyVal) (d : PyDict) : PyDict :=
  dictSet (dictSet (dictSet (dictSet (dictSet (dictSet (dictSet d
    K.mysqlConnections (pyGetD m K.connections))
    K.mysqlCreatedTmpDiskTables (pyGetD m K.createdTmpDiskTables))
    K.mysqlMaxUsedConnections (pyGetD m K.maxUsedConnections))
    K.mysqlOpenFiles (pyGetD m K.openFiles))
    K.mysqlSlowQueries (pyGetD m K.slowQueries))
    K.mysqlTableLocksWaited (pyGetD m K.tableLocksWaited))
    K.mysqlThreadsConnected (pyGetD m K.threadsConnected)

/-- Pure mirror of the MySQL block. -/
def mysqlPure (m : PyVal) (d : PyDict) : PyDict :=
  if pyNeFalse m then
    if pyEqNone (pyGetD m K.secondsBehindMaster) then mysqlSets m d
    else dictSet (mysqlSets m d) K.mysqlSecondsBehindMaster (pyGetD m K.secondsBehindMaster)
  else d

/-- Pure mirror of the Nginx block. -/
def nginxPure (n : PyVal) (d : PyDict) : PyDict :=
  if pyNeFalse n then
    dictSet (dictSet d K.nginxConnections (pyGetD n K.connections))
      K.nginxReqPerSec (pyGetD n K.reqPerSec)
  else d

/-- Pure mirror of the assembly through the optional blocks and the
first-run systemStats field. -/
def bodyAfterOptional (env : Env) (v : Vals) (fr : Bool) (ss : PyVal) : PyDict :=
  let d1 := cpuPure v.cpuV (mandatoryPure env v)
  let d2 := setIfNotAbsent K.ganglia v.gangliaV d1
  let d3 := setIfNotAbsent K.datadog v.datadogV d2
  let d4 := setIfNotAbsent K.cassandra v.cassandraV d3
  let d5 := apachePure v.apacheV d4
  let d6 := mysqlPure v.mysqlV d5
  let d7 := nginxPure v.nginxV d6
  let d8 := setIfNeFalse K.rabbitMQ v.rabbitV d7
  let d9 := setIfNeFalse K.mongoDB v.mongoV d8
  let d10 := setIfNeFalse K.couchDB v.couchV d9
  let d11 := setIfNeFalse K.plugins v.pluginsV d10
  let d12 := setIfNeFalse K.ioStats v.ioV d11
  if fr then dictSet d12 K.systemStats ss else d12

/-- The resources meta block value. -/
def metaVal (cfg : AgentConfig) (h : PyVal) : PyVal :=
  .dict [(K.api_key, cfg.apiKey), (K.host, h)]

/-- Pure mirror of the event check loop, on the events dictionary. -/
def eventsPure (evs : List EventCheck) (ed : PyDict) : PyDict :=
  evs.foldl (fun a ec => if pyTruthy ec.result then dictSet a ec.key ec.result else a) ed

/-- Pure mirror of the resource check loop, on the resources dictionary. -/
def resourcesPure (rcs : List ResCheck) (rd : PyDict) : PyDict :=
  rcs.foldl (fun a rc =>
    match rc.snap with
    | some s => dictSet a rc.resourceKey (resValue s.1 s.2 rc)
    | Option.none => a) rd

/-- Whether any resource check popped a truthy snapshot this cycle. -/
def anySnap (rcs : List ResCheck) : Bool := rcs.any fun rc => rc.snap.isSome

/-- The payload one successful cycle assembles, as a pure function of the
environment, the probe values, the resolved hostname and the run flags. -/
def finalPayload (env : Env) (v : Vals) (hn : String) (fr : Bool) (ss : PyVal) : PyDict :=
  let b := dictSet (dictSet (bodyAfterOptional env v fr ss) K.internalHostname (.str hn))
    K.uuidKey (.str env.uuidHex)
  let e0 := eventsPure env.eventChecks []
  let r0 := resourcesPure env.resourceChecks []
  let b1 := dictSet b K.events (.dict e0)
  let b2 := dictSet b1 K.resources (.dict r0)
  let b3 := if anySnap env.resourceChecks then
      dictSet b2 K.resources (.dict (dictSet r0 K.meta (metaVal env.cfg (.str hn)))) else b2
  if fr then
    dictSet b3 K.events
      (.dict (dictSet e0 K.SystemKey (startupRecord env.cfg (.str hn) env.startupTs)))
  else b3

/-
  Stage equivalence lemmas: on the success path each monadic stage returns
  its pure mirror.
-/

theorem loadOk_elim (l : PyVal) (h : loadOk l = true) :
    ∃ ld, l = .dict ld ∧ (∃ x, dictLookup ld K.one = some x) ∧
      (∃ x, dictLookup ld K.five = some x) ∧ (∃ x, dictLookup ld K.fifteen = some x) := by
  cases l with
  | dict ld =>
      simp only [loadOk, hasKeyB, Bool.and_eq_true] at h
      exact ⟨ld, rfl, Option.isSome_iff_exists.mp h.1.1, Option.isSome_iff_exists.mp h.1.2,
        Option.isSome_iff_exists.mp h.2⟩
  | pyNone => simp [loadOk] at h
  | pyBool b => simp [loadOk] at h
  | pyInt n => simp [loadOk] at h
  | str s => simp [loadOk] at h
  | list vs => simp [loadOk] at h

theorem memOk_elim (m : PyVal) (h : memOk m = true) :
    ∃ md, m = .dict md ∧ (∃ x, dictLookup md K.physUsed = some x) ∧
      (∃ x, dictLookup md K.physFree = some x) ∧ (∃ x, dictLookup md K.swapUsed = some x) ∧
      (∃ x, dictLookup md K.swapFree = some x) ∧ (∃ x, dictLookup md K.cached = some x) := by
  cases m with
  | dict md =>
      simp only [memOk, hasKeyB, Bool.and_eq_true] at h
      exact ⟨md, rfl, Option.isSome_iff_exists.mp h.1.1.1.1,
        Option.isSome_iff_exists.mp h.1.1.1.2, Option.isSome_iff_exists.mp h.1.1.2,
        Option.isSome_iff_exists.mp h.1.2, Option.isSome_iff_exists.mp h.2⟩
  | pyNone => simp [memOk] at h
  | pyBool b => simp [memOk] at h
  | pyInt n => simp [memOk] at h
  | str s => simp [memOk] at h
  | list vs => simp [memOk] at h

theorem mandatoryStage_eq (env : Env) (v : Vals) (hl : loadOk v.loadV = true)
    (hm : memOk v.memV = true) : mandatoryStage env v = .ok (mandatoryPure env v) := by
  obtain ⟨ld, hld, ⟨x1, h1⟩, ⟨x5, h5⟩, ⟨x15, h15⟩⟩ := loadOk_elim _ hl
  obtain ⟨md, hmd, ⟨y1, g1⟩, ⟨y2, g2⟩, ⟨y3, g3⟩, ⟨y4, g4⟩, ⟨y5, g5⟩⟩ := memOk_elim _ hm
  simp [mandatoryStage, mandatoryPure, hld, hmd, pyGetItem, pyGetD,
    h1, h5, h15, g1, g2, g3, g4, g5, ebind]

theorem cpuStage_eq (c : PyVal) (d : PyDict) (h : cpuOk c = true) :
    cpuStage c d = .ok (cpuPure c d) := by
  cases c with
  | pyBool b =>
      cases b with
      | false => simp [cpuStage, cpuPure, isFalseLit, isNoneLit]
      | true => simp [cpuOk] at h
  | pyNone => simp [cpuStage, cpuPure, isFalseLit, isNoneLit]
  | dict cd => simp [cpuStage, cpuPure, isFalseLit, isNoneLit]
  | pyInt n => simp [cpuOk] at h
  | str s => simp [cpuOk] at h
  | list vs => simp [cpuOk] at h

theorem apacheStage_eq (a : PyVal) (d : PyDict) (h : apacheOk a = true) :
    apacheStage a d = .ok (apachePure a d) := by
  rcases Bool.eq_false_or_eq_true (pyNeFalse a) with hp | hp
  · cases a with
    | dict ad =>
        simp only [apacheOk, hp, if_true, hasKeyB, Bool.and_eq_true] at h
        obtain ⟨⟨hr, hb⟩, hi⟩ := h
        obtain ⟨xr, er⟩ := Option.isSome_iff_exists.mp hr
        obtain ⟨xb, eb⟩ := Option.isSome_iff_exists.mp hb
        obtain ⟨xi, ei⟩ := Option.isSome_iff_exists.mp hi
        simp [apacheStage, apachePure, hp, pyGetItem, pyGetD, er, eb, ei, ebind]
    | pyNone => simp [apacheOk, hp] at h
    | pyBool b => simp [apacheOk, hp] at h
    | pyInt n => simp [apacheOk, hp] at h
    | str s => simp [apacheOk, hp] at h
    | list vs => simp [apacheOk, hp] at h
  · simp [apacheStage, apachePure, hp]

theorem mysqlStage_eq (m : PyVal) (d : PyDict) (h : mysqlOk m = true) :
    mysqlStage m d = .ok (mysqlPure m d) := by
  rcases Bool.eq_false_or_eq_true (pyNeFalse m) with hp | hp
  · cases m with
    | dict md =>
        simp only [mysqlOk, hp, if_true, hasKeyB, Bool.and_eq_true] at h
        obtain ⟨⟨⟨⟨⟨⟨⟨h1, h2⟩, h3⟩, h4⟩, h5⟩, h6⟩, h7⟩, h8⟩ := h
        obtain ⟨x1, e1⟩ := Option.isSome_iff_exists.mp h1
        obtain ⟨x2, e2⟩ := Option.isSome_iff_exists.mp h2
        obtain ⟨x3, e3⟩ := Option.isSome_iff_exists.mp h3
        obtain ⟨x4, e4⟩ := Option.isSome_iff_exists.mp h4
        obtain ⟨x5, e5⟩ := Option.isSome_iff_exists.mp h5
        obtain ⟨x6, e6⟩ := Option.isSome_iff_exists.mp h6
        obtain ⟨x7, e7⟩ := Option.isSome_iff_exists.mp h7
        obtain ⟨x8, e8⟩ := Option.isSome_iff_exists.mp h8
        simp [mysqlStage, mysqlPure, mysqlSets, hp, pyGetItem, pyGetD,
          e1, e2, e3, e4, e5, e6, e7, e8, ebind]
    | pyNone => simp [mysqlOk, hp] at h
    | pyBool b => simp [mysqlOk, hp] at h
    | pyInt n => simp [mysqlOk, hp] at h
    | str s => simp [mysqlOk, hp] at h
    | list vs => simp [mysqlOk, hp] at h
  · simp [mysqlStage, mysqlPure, hp]

theorem nginxStage_eq (n : PyVal) (d : PyDict) (h : nginxOk n = true) :
    nginxStage n d = .ok (nginxPure n d) := by
  rcases Bool.eq_false_or_eq_true (pyNeFalse n) with hp | hp
  · cases n with
    | dict nd =>
        simp only [nginxOk, hp, if_true, hasKeyB, Bool.and_eq_true] at h
        obtain ⟨h1, h2⟩ := h
        obtain ⟨x1, e1⟩ := Option.isSome_iff_exists.mp h1
        obtain ⟨x2, e2⟩ := Option.isSome_iff_exists.mp h2
        simp [nginxStage, nginxPure, hp, pyGetItem, pyGetD, e1, e2, ebind]
    | pyNone => simp [nginxOk, hp] at h
    | pyBool b => simp [nginxOk, hp] at h
    | pyInt n2 => simp [nginxOk, hp] at h
    | str s => simp [nginxOk, hp] at h
    | list vs => simp [nginxOk, hp] at h
  · simp [nginxStage, nginxPure, hp]

theorem eventsLoop_ok (evs : List EventCheck) (d ed : PyDict)
    (h : dictLookup d K.events = some (.dict ed)) :
    eventsLoop evs d = .ok (dictSet d K.events (.dict (eventsPure evs ed))) := by
  induction evs generalizing d ed with
  | nil => simp [eventsLoop, eventsPure, dictSet_self _ _ _ h]
  | cons ec rest ih =>
      rcases Bool.eq_false_or_eq_true (pyTruthy ec.result) with ht | ht
      · have hs : setInSub d K.events ec.key ec.result =
            .ok (dictSet d K.events (.dict (dictSet ed ec.key ec.result))) := by
          simp [setInSub, h]
        have h2 : dictLookup (dictSet d K.events (.dict (dictSet ed ec.key ec.result)))
            K.events = some (.dict (dictSet ed ec.key ec.result)) := by
          simp [dictLookup_dictSet]
        simp only [eventsLoop, ht, if_true]
        rw [ebind_ok_eq _ _ _ hs, ih _ _ h2, dictSet_dictSet_same]
        simp [eventsPure, ht]
      · simp only [eventsLoop, ht, Bool.false_eq_true, if_false]
        rw [ih _ _ h]
        simp [eventsPure, ht]

theorem resourcesLoop_ok (rcs : List ResCheck) (d rd : PyDict) (b : Bool)
    (h : dictLookup d K.resources = some (.dict rd)) :
    resourcesLoop rcs d b =
      .ok (dictSet d K.resources (.dict (resourcesPure rcs rd)), b || anySnap rcs) := by
  induction rcs generalizing d rd b with
  | nil => simp [resourcesLoop, resourcesPure, anySnap, dictSet_self _ _ _ h]
  | cons rc rest ih =>
      cases hs : rc.snap with
      | none =>
          simp only [resourcesLoop, hs]
          rw [ih _ _ b h]
          simp [resourcesPure, anySnap, hs]
      | some p =>
          obtain ⟨ts, data⟩ := p
          have hset : setInSub d K.resources rc.resourceKey (resValue ts data rc) =
              .ok (dictSet d K.resources
                (.dict (dictSet rd rc.resourceKey (resValue ts data rc)))) := by
            simp [setInSub, h]
          have h2 : dictLookup (dictSet d K.resources
              (.dict (dictSet rd rc.resourceKey (resValue ts data rc)))) K.resources =
              some (.dict (dictSet rd rc.resourceKey (resValue ts data rc))) := by
            simp [dictLookup_dictSet]
          simp only [resourcesLoop, hs]
          rw [ebind_ok_eq _ _ _ hset, ih _ _ true h2, dictSet_dictSet_same]
          simp [resourcesPure, anySnap, hs]

attribute [simp] K.collection_timestamp K.osKey K.agentKey K.agentVersion K.diskUsage
  K.loadAvrg1 K.loadAvrg5 K.loadAvrg15 K.memPhysUsed K.memPhysFree K.memSwapUsed
  K.memSwapFree K.memCached K.networkTraffic K.processes K.apiKey K.events K.resources
  K.one K.five K.fifteen K.physUsed K.physFree K.swapUsed K.swapFree K.cached
  K.ganglia K.datadog K.cassandra K.apacheReqPerSec K.apacheBusyWorkers K.apacheIdleWorkers
  K.reqPerSec K.busyWorkers K.idleWorkers K.connections K.createdTmpDiskTables
  K.maxUsedConnections K.openFiles K.slowQueries K.tableLocksWaited K.threadsConnected
  K.secondsBehindMaster K.mysqlConnections K.mysqlCreatedTmpDiskTables
  K.mysqlMaxUsedConnections K.mysqlOpenFiles K.mysqlSlowQueries K.mysqlTableLocksWaited
  K.mysqlThreadsConnected K.mysqlSecondsBehindMaster K.nginxConnections K.nginxReqPerSec
  K.rabbitMQ K.mongoDB K.couchDB K.plugins K.ioStats K.systemStats K.internalHostname
  K.uuidKey K.SystemKey K.api_key K.host K.timestamp K.event_type K.agentStartup
  K.ts K.dataKey K.format_version K.format_description K.meta K.pyExt K.dot

/-
  Frame lemmas: which payload keys each pure stage can touch.
-/

/-- The mandatory payload keys, present every cycle. -/
def mandatoryKeys : List String :=
  [K.collection_timestamp, K.osKey, K.agentKey, K.agentVersion, K.diskUsage,
   K.loadAvrg1, K.loadAvrg5, K.loadAvrg15, K.memPhysUsed, K.memPhysFree,
   K.memSwapUsed, K.memSwapFree, K.memCached, K.networkTraffic, K.processes,
   K.apiKey, K.events, K.resources]

/-- The keys absent from the mandatory literal, added only by later blocks. -/
def absentKeys : List String :=
  [K.ganglia, K.datadog, K.cassandra, K.apacheReqPerSec, K.apacheBusyWorkers,
   K.apacheIdleWorkers, K.mysqlConnections, K.mysqlCreatedTmpDiskTables,
   K.mysqlMaxUsedConnections, K.mysqlOpenFiles, K.mysqlSlowQueries,
   K.mysqlTableLocksWaited, K.mysqlThreadsConnected, K.mysqlSecondsBehindMaster,
   K.nginxConnections, K.nginxReqPerSec, K.rabbitMQ, K.mongoDB, K.couchDB,
   K.plugins, K.ioStats, K.systemStats, K.internalHostname, K.uuidKey]

theorem lookup_mandatoryPure_events (env : Env) (v : Vals) :
    dictLookup (mandatoryPure env v) K.events = some (.dict []) := by
  simp [mandatoryPure, dictLookup]

theorem lookup_mandatoryPure_resources (env : Env) (v : Vals) :
    dictLookup (mandatoryPure env v) K.resources = some (.dict []) := by
  simp [mandatoryPure, dictLookup]

theorem lookup_mandatoryPure_absent (env : Env) (v : Vals) (k : String)
    (hk : k ∈ absentKeys) : dictLookup (mandatoryPure env v) k = Option.none := by
  fin_cases hk <;> simp [mandatoryPure, dictLookup]

theorem hasKeyB_mandatoryPure (env : Env) (v : Vals) (k : String)
    (hk : k ∈ mandatoryKeys) : hasKeyB (mandatoryPure env v) k = true := by
  fin_cases hk <;> simp [hasKeyB, mandatoryPure, dictLookup]

theorem lookup_cpuPure (c : PyVal) (d : PyDict) (k : String) (hc : cpuOk c = true)
    (hk : k ∈ specialKeys) : dictLookup (cpuPure c d) k = dictLookup d k := by
  cases c with
  | pyBool b =>
      cases b with
      | false => rfl
      | true => simp [cpuOk] at hc
  | pyNone => rfl
  | dict cd =>
      simp only [cpuOk] at hc
      have h2 : hasKeyB cd k = false := by
        have h3 := List.all_eq_true.mp hc k hk
        simpa using h3
      have hadd : cpuPure (.dict cd) d = dictUpdate d cd := rfl
      rw [hadd]
      exact dictLookup_dictUpdate_of_not_mem _ _ _ h2
  | pyInt n => simp [cpuOk] at hc
  | str s => simp [cpuOk] at hc
  | list vs => simp [cpuOk] at hc

theorem lookup_setIfNotAbsent_ne (kset : String) (v : PyVal) (d : PyDict) (k : String)
    (h : ¬ kset = k) : dictLookup (setIfNotAbsent kset v d) k = dictLookup d k := by
  unfold setIfNotAbsent
  split
  · rfl
  · simp [dictLookup_dictSet, h]

theorem lookup_setIfNeFalse_ne (kset : String) (v : PyVal) (d : PyDict) (k : String)
    (h : ¬ kset = k) : dictLookup (setIfNeFalse kset v d) k = dictLookup d k := by
  unfold setIfNeFalse
  split
  · simp [dictLookup_dictSet, h]
  · rfl

theorem lookup_setIfNeFalse_self (kset : String) (v : PyVal) (d : PyDict) :
    dictLookup (setIfNeFalse kset v d) kset =
      if pyNeFalse v then some v else dictLookup d kset := by
  unfold setIfNeFalse
  split
  · simp_all [dictLookup_dictSet]
  · simp_all

theorem hasKeyB_setIfNotAbsent_self (kset : String) (v : PyVal) (d : PyDict) :
    hasKeyB (setIfNotAbsent kset v d) kset =
      ((!isFalseLit v && !isNoneLit v) || hasKeyB d kset) := by
  unfold setIfNotAbsent
  cases hfa : isFalseLit v <;> cases hna : isNoneLit v <;>
    simp [hasKeyB_dictSet, hfa, hna]

theorem lookup_apachePure_ne (a : PyVal) (d : PyDict) (k : String)
    (h1 : ¬ K.apacheReqPerSec = k) (h2 : ¬ K.apacheBusyWorkers = k)
    (h3 : ¬ K.apacheIdleWorkers = k) :
    dictLookup (apachePure a d) k = dictLookup d k := by
  simp at h1 h2 h3
  unfold apachePure
  split
  · simp [dictLookup_dictSet, h1, h2, h3]
  · rfl

theorem lookup_mysqlPure_ne (m : PyVal) (d : PyDict) (k : String)
    (h1 : ¬ K.mysqlConnections = k) (h2 : ¬ K.mysqlCreatedTmpDiskTables = k)
    (h3 : ¬ K.mysqlMaxUsedConnections = k) (h4 : ¬ K.mysqlOpenFiles = k)
    (h5 : ¬ K.mysqlSlowQueries = k) (h6 : ¬ K.mysqlTableLocksWaited = k)
    (h7 : ¬ K.mysqlThreadsConnected = k) (h8 : ¬ K.mysqlSecondsBehindMaster = k) :
    dictLookup (mysqlPure m d) k = dictLookup d k := by
  simp at h1 h2 h3 h4 h5 h6 h7 h8
  unfold mysqlPure mysqlSets
  split
  · split
    · simp [dictLookup_dictSet, h1, h2, h3, h4, h5, h6, h7]
    · simp [dictLookup_dictSet, h1, h2, h3, h4, h5, h6, h7, h8]
  · rfl

theorem lookup_nginxPure_ne (n : PyVal) (d : PyDict) (k : String)
    (h1 : ¬ K.nginxConnections = k) (h2 : ¬ K.nginxReqPerSec = k) :
    dictLookup (nginxPure n d) k = dictLookup d k := by
  simp at h1 h2
  unfold nginxPure
  split
  · simp [dictLookup_dictSet, h1, h2]
  · rfl

theorem lookup_ite_dictSet_ne (b : Bool) (d : PyDict) (kset : String) (v : PyVal)
    (k : String) (h : ¬ kset = k) :
    dictLookup (if b then dictSet d kset v else d) k = dictLookup d k := by
  split
  · simp [dictLookup_dictSet, h]
  · rfl

theorem lookup_bodyAfterOptional_core (env : Env) (v : Vals) (fr : Bool) (ss : PyVal)
    (k : String) (hc : cpuOk v.cpuV = true)
    (hk : k ∈ [K.events, K.resources, K.internalHostname, K.uuidKey]) :
    dictLookup (bodyAfterOptional env v fr ss) k = dictLookup (mandatoryPure env v) k := by
  have hsp : k ∈ specialKeys := by fin_cases hk <;> simp [specialKeys]
  have hcpu := lookup_cpuPure v.cpuV (mandatoryPure env v) k hc hsp
  simp at hcpu ⊢
  fin_cases hk <;>
    simp_all [bodyAfterOptional, lookup_ite_dictSet_ne, lookup_setIfNeFalse_ne,
      lookup_nginxPure_ne, lookup_mysqlPure_ne, lookup_apachePure_ne,
      lookup_setIfNotAbsent_ne]

theorem lookup_dictSet_ne (d : PyDict) (k key : String) (v : PyVal) (h : ¬ k = key) :
    dictLookup (dictSet d k v) key = dictLookup d key := by
  rw [dictLookup_dictSet, if_neg h]

theorem lookup_dictSet_self (d : PyDict) (k : String) (v : PyVal) :
    dictLookup (dictSet d k v) k = some v := by
  rw [dictLookup_dictSet, if_pos rfl]

/-
  Monotonicity: no stage ever removes a payload key.
-/

theorem hasKeyB_cpuPure_mono (c : PyVal) (d : PyDict) (k : String)
    (h : hasKeyB d k = true) : hasKeyB (cpuPure c d) k = true := by
  unfold cpuPure
  split
  · exact h
  · cases c with
    | dict cd => exact hasKeyB_dictUpdate_mono _ _ _ h
    | pyNone => exact h
    | pyBool b => exact h
    | pyInt n => exact h
    | str s => exact h
    | list vs => exact h

theorem hasKeyB_setIfNotAbsent_mono (kset : String) (v : PyVal) (d : PyDict) (k : String)
    (h : hasKeyB d k = true) : hasKeyB (setIfNotAbsent kset v d) k = true := by
  unfold setIfNotAbsent
  split
  · exact h
  · simp [hasKeyB_dictSet, h]

theorem hasKeyB_setIfNeFalse_mono (kset : String) (v : PyVal) (d : PyDict) (k : String)
    (h : hasKeyB d k = true) : hasKeyB (setIfNeFalse kset v d) k = true := by
  unfold setIfNeFalse
  split
  · simp [hasKeyB_dictSet, h]
  · exact h

theorem hasKeyB_apachePure_mono (a : PyVal) (d : PyDict) (k : String)
    (h : hasKeyB d k = true) : hasKeyB (apachePure a d) k = true := by
  unfold apachePure
  split
  · simp [hasKeyB_dictSet, h]
  · exact h

theorem hasKeyB_mysqlPure_mono (m : PyVal) (d : PyDict) (k : String)
    (h : hasKeyB d k = true) : hasKeyB (mysqlPure m d) k = true := by
  unfold mysqlPure mysqlSets
  split
  · split <;> simp [hasKeyB_dictSet, h]
  · exact h

theorem hasKeyB_nginxPure_mono (n : PyVal) (d : PyDict) (k : String)
    (h : hasKeyB d k = true) : hasKeyB (nginxPure n d) k = true := by
  unfold nginxPure
  split
  · simp [hasKeyB_dictSet, h]
  · exact h

theorem hasKeyB_ite_dictSet_mono (b : Bool) (d : PyDict) (kset : String) (v : PyVal)
    (k : String) (h : hasKeyB d k = true) :
    hasKeyB (if b then dictSet d kset v else d) k = true := by
  split
  · simp [hasKeyB_dictSet, h]
  · exact h

theorem hasKeyB_bodyAfterOptional_mono (env : Env) (v : Vals) (fr : Bool) (ss : PyVal)
    (k : String) (h : hasKeyB (mandatoryPure env v) k = true) :
    hasKeyB (bodyAfterOptional env v fr ss) k = true := by
  simp only [bodyAfterOptional]
  apply hasKeyB_ite_dictSet_mono
  apply hasKeyB_setIfNeFalse_mono
  apply hasKeyB_setIfNeFalse_mono
  apply hasKeyB_setIfNeFalse_mono
  apply hasKeyB_setIfNeFalse_mono
  apply hasKeyB_setIfNeFalse_mono
  apply hasKeyB_nginxPure_mono
  apply hasKeyB_mysqlPure_mono
  apply hasKeyB_apachePure_mono
  apply hasKeyB_setIfNotAbsent_mono
  apply hasKeyB_setIfNotAbsent_mono
  apply hasKeyB_setIfNotAbsent_mono
  exact hasKeyB_cpuPure_mono _ _ _ h

theorem hasKeyB_finalPayload_mono (env : Env) (v : Vals) (hn : String) (fr : Bool)
    (ss : PyVal) (k : String) (h : hasKeyB (mandatoryPure env v) k = true) :
    hasKeyB (finalPayload env v hn fr ss) k = true := by
  simp only [finalPayload]
  apply hasKeyB_ite_dictSet_mono
  apply hasKeyB_ite_dictSet_mono
  simp [hasKeyB_dictSet, hasKeyB_bodyAfterOptional_mono env v fr ss k h]

/-
  The meta and startup stages, resolved on the success path.
-/

theorem metaStage_eq (env : Env) (b : Bool) (d rd : PyDict) (hn : String)
    (hres : dictLookup d K.resources = some (.dict rd))
    (hih : dictLookup d K.internalHostname = some (.str hn)) :
    metaStage env b d = .ok (if b then
      dictSet d K.resources (.dict (dictSet rd K.meta (metaVal env.cfg (.str hn))))
    else d) := by
  cases b with
  | false => rfl
  | true =>
      simp only [metaStage, if_true]
      have h1 : pyGetItem (.dict d) K.internalHostname = .ok (.str hn) := by
        simp only [pyGetItem, hih]
      rw [ebind_ok_eq _ _ _ h1]
      simp only [setInSub, hres, metaVal]

theorem startupStage_eq (env : Env) (fr : Bool) (d ed : PyDict) (hn : String)
    (hev : dictLookup d K.events = some (.dict ed))
    (hih : dictLookup d K.internalHostname = some (.str hn)) :
    startupStage env fr d = .ok (if fr then
      dictSet d K.events
        (.dict (dictSet ed K.SystemKey (startupRecord env.cfg (.str hn) env.startupTs)))
    else d) := by
  cases fr with
  | false => rfl
  | true =>
      simp only [startupStage, if_true]
      have h1 : pyGetItem (.dict d) K.internalHostname = .ok (.str hn) := by
        simp only [pyGetItem, hih]
      rw [ebind_ok_eq _ _ _ h1]
      simp only [setInSub, hev]

/-
  The master success-path lemma: one cycle on well-shaped probe results
  assembles exactly the finalPayload dictionary.
-/

theorem assemblePre_eq (env : Env) (v : Vals) (fr : Bool) (ss : PyVal)
    (hl : loadOk v.loadV = true) (hm : memOk v.memV = true) (hcpu : cpuOk v.cpuV = true)
    (hap : apacheOk v.apacheV = true) (hmy : mysqlOk v.mysqlV = true)
    (hng : nginxOk v.nginxV = true) :
    assemblePre env v fr ss = .ok (bodyAfterOptional env v fr ss) := by
  simp only [assemblePre]
  rw [mandatoryStage_eq env v hl hm]
  simp only [ebind]
  rw [cpuStage_eq _ _ hcpu]
  simp only [ebind]
  rw [apacheStage_eq _ _ hap]
  simp only [ebind]
  rw [mysqlStage_eq _ _ hmy]
  simp only [ebind]
  rw [nginxStage_eq _ _ hng]
  simp only [ebind, bodyAfterOptional]

theorem assembleOf_ok (env : Env) (st st2 : ChecksState) (fr : Bool) (ss : PyVal)
    (v : Vals) (hn : String)
    (hA : env.apacheStatus = .ok v.apacheV) (hD : env.diskUsage = .ok v.diskV)
    (hL : env.loadAvrgs = .ok v.loadV) (hM : env.memory = .ok v.memV)
    (hMy : env.mysqlStatus = .ok v.mysqlV) (hN : env.networkTraffic = .ok v.netV)
    (hNg : env.nginxStatus = .ok v.nginxV) (hP : env.processes = .ok v.procV)
    (hR : env.rabbitmq = .ok v.rabbitV) (hMo : env.mongodb = .ok v.mongoV)
    (hC : env.couchdb = .ok v.couchV)
    (hgp : getPlugins env.pluginsEnv st = (.ok v.pluginsV, st2))
    (hIo : env.ioStats = .ok v.ioV) (hCp : env.cpuStats = .ok v.cpuV)
    (hGa : env.gangliaData = .ok v.gangliaV) (hDd : env.datadogData = .ok v.datadogV)
    (hCa : env.cassandraData = .ok v.cassandraV)
    (hl : loadOk v.loadV = true) (hm : memOk v.memV = true) (hcpu : cpuOk v.cpuV = true)
    (hap : apacheOk v.apacheV = true) (hmy : mysqlOk v.mysqlV = true)
    (hng : nginxOk v.nginxV = true) (hh : env.gethostname = .ok hn) :
    assembleOf env st fr ss = (.ok (finalPayload env v hn fr ss), st2) := by
  have hs1 : seqProbes1 env = .ok (v.apacheV, v.diskV, v.loadV, v.memV, v.mysqlV,
      v.netV, v.nginxV, v.procV, v.rabbitV, v.mongoV, v.couchV) := by
    simp only [seqProbes1, hA, hD, hL, hM, hMy, hN, hNg, hP, hR, hMo, hC, ebind]
  have hs2 : seqProbes2 env = .ok (v.ioV, v.cpuV, v.gangliaV, v.datadogV, v.cassandraV) := by
    simp only [seqProbes2, hIo, hCp, hGa, hDd, hCa, ebind]
  have hBe : dictLookup (bodyAfterOptional env v fr ss) K.events = some (.dict []) := by
    rw [lookup_bodyAfterOptional_core env v fr ss K.events hcpu (by simp),
      lookup_mandatoryPure_events]
  have hBr : dictLookup (bodyAfterOptional env v fr ss) K.resources = some (.dict []) := by
    rw [lookup_bodyAfterOptional_core env v fr ss K.resources hcpu (by simp),
      lookup_mandatoryPure_resources]
  have h15e : dictLookup (dictSet (dictSet (bodyAfterOptional env v fr ss)
      K.internalHostname (.str hn)) K.uuidKey (.str env.uuidHex)) K.events =
      some (.dict []) := by
    rw [lookup_dictSet_ne _ _ _ _ (by decide), lookup_dictSet_ne _ _ _ _ (by decide), hBe]
  have h16r : dictLookup (dictSet (dictSet (dictSet (bodyAfterOptional env v fr ss)
      K.internalHostname (.str hn)) K.uuidKey (.str env.uuidHex)) K.events
      (.dict (eventsPure env.eventChecks []))) K.resources = some (.dict []) := by
    rw [lookup_dictSet_ne _ _ _ _ (by decide), lookup_dictSet_ne _ _ _ _ (by decide),
      lookup_dictSet_ne _ _ _ _ (by decide), hBr]
  have h17r : dictLookup (dictSet (dictSet (dictSet (dictSet (bodyAfterOptional env v fr ss)
      K.internalHostname (.str hn)) K.uuidKey (.str env.uuidHex)) K.events
      (.dict (eventsPure env.eventChecks []))) K.resources
      (.dict (resourcesPure env.resourceChecks []))) K.resources =
      some (.dict (resourcesPure env.resourceChecks [])) := lookup_dictSet_self _ _ _
  have h17i : dictLookup (dictSet (dictSet (dictSet (dictSet (bodyAfterOptional env v fr ss)
      K.internalHostname (.str hn)) K.uuidKey (.str env.uuidHex)) K.events
      (.dict (eventsPure env.eventChecks []))) K.resources
      (.dict (resourcesPure env.resourceChecks []))) K.internalHostname =
      some (.str hn) := by
    rw [lookup_dictSet_ne _ _ _ _ (by decide), lookup_dictSet_ne _ _ _ _ (by decide),
      lookup_dictSet_ne _ _ _ _ (by decide), lookup_dictSet_self]
  have h18e : dictLookup (if anySnap env.resourceChecks then
      dictSet (dictSet (dictSet (dictSet (dictSet (bodyAfterOptional env v fr ss)
        K.internalHostname (.str hn)) K.uuidKey (.str env.uuidHex)) K.events
        (.dict (eventsPure env.eventChecks []))) K.resources
        (.dict (resourcesPure env.resourceChecks []))) K.resources
        (.dict (dictSet (resourcesPure env.resourceChecks []) K.meta
          (metaVal env.cfg (.str hn))))
    else dictSet (dictSet (dictSet (dictSet (bodyAfterOptional env v fr ss)
        K.internalHostname (.str hn)) K.uuidKey (.str env.uuidHex)) K.events
        (.dict (eventsPure env.eventChecks []))) K.resources
        (.dict (resourcesPure env.resourceChecks []))) K.events =
      some (.dict (eventsPure env.eventChecks [])) := by
    rw [lookup_ite_dictSet_ne _ _ _ _ _ (by decide), lookup_dictSet_ne _ _ _ _ (by decide),
      lookup_dictSet_self]
  have h18i : dictLookup (if anySnap env.resourceChecks then
      dictSet (dictSet (dictSet (dictSet (dictSet (bodyAfterOptional env v fr ss)
        K.internalHostname (.str hn)) K.uuidKey (.str env.uuidHex)) K.events
        (.dict (eventsPure env.eventChecks []))) K.resources
        (.dict (resourcesPure env.resourceChecks []))) K.resources
        (.dict (dictSet (resourcesPure env.resourceChecks []) K.meta
          (metaVal env.cfg (.str hn))))
    else dictSet (dictSet (dictSet (dictSet (bodyAfterOptional env v fr ss)
        K.internalHostname (.str hn)) K.uuidKey (.str env.uuidHex)) K.events
        (.dict (eventsPure env.eventChecks []))) K.resources
        (.dict (resourcesPure env.resourceChecks []))) K.internalHostname =
      some (.str hn) := by
    rw [lookup_ite_dictSet_ne _ _ _ _ _ (by decide), lookup_dictSet_ne _ _ _ _ (by decide),
      lookup_dictSet_ne _ _ _ _ (by decide), lookup_dictSet_ne _ _ _ _ (by decide),
      lookup_dictSet_self]
  simp only [assembleOf, hs1, hs2, hgp]
  show (assemble env v fr ss, st2) = (.ok (finalPayload env v hn fr ss), st2)
  simp only [Prod.mk.injEq, and_true]
  simp only [assemble]
  rw [assemblePre_eq env v fr ss hl hm hcpu hap hmy hng]
  simp only [ebind]
  rw [hh]
  simp only [hostStage, ebind]
  rw [eventsLoop_ok _ _ _ h15e]
  simp only [ebind]
  rw [resourcesLoop_ok _ _ _ false h16r]
  simp only [ebind, Bool.false_or]
  rw [metaStage_eq env _ _ _ hn h17r h17i]
  simp only [ebind]
  rw [startupStage_eq env fr _ _ hn h18e h18i]
  simp only [finalPayload]

theorem doChecksRun_ok (env : Env) (st st2 : ChecksState) (fr : Bool) (ss : PyVal)
    (v : Vals) (hn : String)
    (hA : env.apacheStatus = .ok v.apacheV) (hD : env.diskUsage = .ok v.diskV)
    (hL : env.loadAvrgs = .ok v.loadV) (hM : env.memory = .ok v.memV)
    (hMy : env.mysqlStatus = .ok v.mysqlV) (hN : env.networkTraffic = .ok v.netV)
    (hNg : env.nginxStatus = .ok v.nginxV) (hP : env.processes = .ok v.procV)
    (hR : env.rabbitmq = .ok v.rabbitV) (hMo : env.mongodb = .ok v.mongoV)
    (hC : env.couchdb = .ok v.couchV)
    (hgp : getPlugins env.pluginsEnv st = (.ok v.pluginsV, st2))
    (hIo : env.ioStats = .ok v.ioV) (hCp : env.cpuStats = .ok v.cpuV)
    (hGa : env.gangliaData = .ok v.gangliaV) (hDd : env.datadogData = .ok v.datadogV)
    (hCa : env.cassandraData = .ok v.cassandraV)
    (hl : loadOk v.loadV = true) (hm : memOk v.memV = true) (hcpu : cpuOk v.cpuV = true)
    (hap : apacheOk v.apacheV = true) (hmy : mysqlOk v.mysqlV = true)
    (hng : nginxOk v.nginxV = true) (hh : env.gethostname = .ok hn)
    (he : env.emitterExc = Option.none) :
    doChecksRun env st fr ss =
      ⟨.ok (), some (.dict (finalPayload env v hn fr ss)), some env.cfg.checkFreq, st2⟩ := by
  unfold doChecksRun
  rw [assembleOf_ok env st st2 fr ss v hn hA hD hL hM hMy hN hNg hP hR hMo hC hgp
    hIo hCp hGa hDd hCa hl hm hcpu hap hmy hng hh, he]

/-
  Per-key characterization of the assembled payload.
-/

theorem lookup_setIfNotAbsent_self (kset : String) (v : PyVal) (d : PyDict) :
    dictLookup (setIfNotAbsent kset v d) kset =
      if (!isFalseLit v && !isNoneLit v) then some v else dictLookup d kset := by
  unfold setIfNotAbsent
  cases hfa : isFalseLit v <;> cases hna : isNoneLit v <;>
    simp [lookup_dictSet_self, hfa, hna]

theorem lookup_final_rabbitMQ (env : Env) (v : Vals) (hn : String) (fr : Bool) (ss : PyVal)
    (hcpu : cpuOk v.cpuV = true) :
    dictLookup (finalPayload env v hn fr ss) K.rabbitMQ =
      if pyNeFalse v.rabbitV then some v.rabbitV else Option.none := by
  simp only [finalPayload]
  rw [lookup_ite_dictSet_ne _ _ _ _ _ (by decide), lookup_ite_dictSet_ne _ _ _ _ _ (by decide),
    lookup_dictSet_ne _ _ _ _ (by decide), lookup_dictSet_ne _ _ _ _ (by decide),
    lookup_dictSet_ne _ _ _ _ (by decide), lookup_dictSet_ne _ _ _ _ (by decide)]
  simp only [bodyAfterOptional]
  rw [lookup_ite_dictSet_ne _ _ _ _ _ (by decide),
    lookup_setIfNeFalse_ne _ _ _ _ (by decide), lookup_setIfNeFalse_ne _ _ _ _ (by decide),
    lookup_setIfNeFalse_ne _ _ _ _ (by decide), lookup_setIfNeFalse_ne _ _ _ _ (by decide),
    lookup_setIfNeFalse_self,
    lookup_nginxPure_ne _ _ _ (by decide) (by decide),
    lookup_mysqlPure_ne _ _ _ (by decide) (by decide) (by decide) (by decide) (by decide)
      (by decide) (by decide) (by decide),
    lookup_apachePure_ne _ _ _ (by decide) (by decide) (by decide),
    lookup_setIfNotAbsent_ne _ _ _ _ (by decide), lookup_setIfNotAbsent_ne _ _ _ _ (by decide),
    lookup_setIfNotAbsent_ne _ _ _ _ (by decide),
    lookup_cpuPure _ _ _ hcpu (by simp [specialKeys]),
    lookup_mandatoryPure_absent _ _ _ (by simp [absentKeys])]

theorem lookup_final_mongoDB (env : Env) (v : Vals) (hn : String) (fr : Bool) (ss : PyVal)
    (hcpu : cpuOk v.cpuV = true) :
    dictLookup (finalPayload env v hn fr ss) K.mongoDB =
      if pyNeFalse v.mongoV then some v.mongoV else Option.none := by
  simp only [finalPayload]
  rw [lookup_ite_dictSet_ne _ _ _ _ _ (by decide), lookup_ite_dictSet_ne _ _ _ _ _ (by decide),
    lookup_dictSet_ne _ _ _ _ (by decide), lookup_dictSet_ne _ _ _ _ (by decide),
    lookup_dictSet_ne _ _ _ _ (by decide), lookup_dictSet_ne _ _ _ _ (by decide)]
  simp only [bodyAfterOptional]
  rw [lookup_ite_dictSet_ne _ _ _ _ _ (by decide),
    lookup_setIfNeFalse_ne _ _ _ _ (by decide), lookup_setIfNeFalse_ne _ _ _ _ (by decide),
    lookup_setIfNeFalse_ne _ _ _ _ (by decide),
    lookup_setIfNeFalse_self,
    lookup_setIfNeFalse_ne _ _ _ _ (by decide),
    lookup_nginxPure_ne _ _ _ (by decide) (by decide),
    lookup_mysqlPure_ne _ _ _ (by decide) (by decide) (by decide) (by decide) (by decide)
      (by decide) (by decide) (by decide),
    lookup_apachePure_ne _ _ _ (by decide) (by decide) (by decide),
    lookup_setIfNotAbsent_ne _ _ _ _ (by decide), lookup_setIfNotAbsent_ne _ _ _ _ (by decide),
    lookup_setIfNotAbsent_ne _ _ _ _ (by decide),
    lookup_cpuPure _ _ _ hcpu (by simp [specialKeys]),
    lookup_mandatoryPure_absent _ _ _ (by simp [absentKeys])]

theorem lookup_final_couchDB (env : Env) (v : Vals) (hn : String) (fr : Bool) (ss : PyVal)
    (hcpu : cpuOk v.cpuV = true) :
    dictLookup (finalPayload env v hn fr ss) K.couchDB =
      if pyNeFalse v.couchV then some v.couchV else Option.none := by
  simp only [finalPayload]
  rw [lookup_ite_dictSet_ne _ _ _ _ _ (by decide), lookup_ite_dictSet_ne _ _ _ _ _ (by decide),
    lookup_dictSet_ne _ _ _ _ (by decide), lookup_dictSet_ne _ _ _ _ (by decide),
    lookup_dictSet_ne _ _ _ _ (by decide), lookup_dictSet_ne _ _ _ _ (by decide)]
  simp only [bodyAfterOptional]
  rw [lookup_ite_dictSet_ne _ _ _ _ _ (by decide),
    lookup_setIfNeFalse_ne _ _ _ _ (by decide), lookup_setIfNeFalse_ne _ _ _ _ (by decide),
    lookup_setIfNeFalse_self,
    lookup_setIfNeFalse_ne _ _ _ _ (by decide), lookup_setIfNeFalse_ne _ _ _ _ (by decide),
    lookup_nginxPure_ne _ _ _ (by decide) (by decide),
    lookup_mysqlPure_ne _ _ _ (by decide) (by decide) (by decide) (by decide) (by decide)
      (by decide) (by decide) (by decide),
    lookup_apachePure_ne _ _ _ (by decide) (by decide) (by decide),
    lookup_setIfNotAbsent_ne _ _ _ _ (by decide), lookup_setIfNotAbsent_ne _ _ _ _ (by decide),
    lookup_setIfNotAbsent_ne _ _ _ _ (by decide),
    lookup_cpuPure _ _ _ hcpu (by simp [specialKeys]),
    lookup_mandatoryPure_absent _ _ _ (by simp [absentKeys])]

theorem lookup_final_plugins (env : Env) (v : Vals) (hn : String) (fr : Bool) (ss : PyVal)
    (hcpu : cpuOk v.cpuV = true) :
    dictLookup (finalPayload env v hn fr ss) K.plugins =
      if pyNeFalse v.pluginsV then some v.pluginsV else Option.none := by
  simp only [finalPayload]
  rw [lookup_ite_dictSet_ne _ _ _ _ _ (by decide), lookup_ite_dictSet_ne _ _ _ _ _ (by decide),
    lookup_dictSet_ne _ _ _ _ (by decide), lookup_dictSet_ne _ _ _ _ (by decide),
    lookup_dictSet_ne _ _ _ _ (by decide), lookup_dictSet_ne _ _ _ _ (by decide)]
  simp only [bodyAfterOptional]
  rw [lookup_ite_dictSet_ne _ _ _ _ _ (by decide),
    lookup_setIfNeFalse_ne _ _ _ _ (by decide),
    lookup_setIfNeFalse_self,
    lookup_setIfNeFalse_ne _ _ _ _ (by decide), lookup_setIfNeFalse_ne _ _ _ _ (by decide),
    lookup_setIfNeFalse_ne _ _ _ _ (by decide),
    lookup_nginxPure_ne _ _ _ (by decide) (by decide),
    lookup_mysqlPure_ne _ _ _ (by decide) (by decide) (by decide) (by decide) (by decide)
      (by decide) (by decide) (by decide),
    lookup_apachePure_ne _ _ _ (by decide) (by decide) (by decide),
    lookup_setIfNotAbsent_ne _ _ _ _ (by decide), lookup_setIfNotAbsent_ne _ _ _ _ (by decide),
    lookup_setIfNotAbsent_ne _ _ _ _ (by decide),
    lookup_cpuPure _ _ _ hcpu (by simp [specialKeys]),
    lookup_mandatoryPure_absent _ _ _ (by simp [absentKeys])]

theorem lookup_final_ioStats (env : Env) (v : Vals) (hn : String) (fr : Bool) (ss : PyVal)
    (hcpu : cpuOk v.cpuV = true) :
    dictLookup (finalPayload env v hn fr ss) K.ioStats =
      if pyNeFalse v.ioV then some v.ioV else Option.none := by
  simp only [finalPayload]
  rw [lookup_ite_dictSet_ne _ _ _ _ _ (by decide), lookup_ite_dictSet_ne _ _ _ _ _ (by decide),
    lookup_dictSet_ne _ _ _ _ (by decide), lookup_dictSet_ne _ _ _ _ (by decide),
    lookup_dictSet_ne _ _ _ _ (by decide), lookup_dictSet_ne _ _ _ _ (by decide)]
  simp only [bodyAfterOptional]
  rw [lookup_ite_dictSet_ne _ _ _ _ _ (by decide),
    lookup_setIfNeFalse_self,
    lookup_setIfNeFalse_ne _ _ _ _ (by decide), lookup_setIfNeFalse_ne _ _ _ _ (by decide),
    lookup_setIfNeFalse_ne _ _ _ _ (by decide), lookup_setIfNeFalse_ne _ _ _ _ (by decide),
    lookup_nginxPure_ne _ _ _ (by decide) (by decide),
    lookup_mysqlPure_ne _ _ _ (by decide) (by decide) (by decide) (by decide) (by decide)
      (by decide) (by decide) (by decide),
    lookup_apachePure_ne _ _ _ (by decide) (by decide) (by decide),
    lookup_setIfNotAbsent_ne _ _ _ _ (by decide), lookup_setIfNotAbsent_ne _ _ _ _ (by decide),
    lookup_setIfNotAbsent_ne _ _ _ _ (by decide),
    lookup_cpuPure _ _ _ hcpu (by simp [specialKeys]),
    lookup_mandatoryPure_absent _ _ _ (by simp [absentKeys])]

theorem lookup_ite_dictSet_self (b : Bool) (d : PyDict) (kset : String) (v : PyVal) :
    dictLookup (if b then dictSet d kset v else d) kset =
      if b then some v else dictLookup d kset := by
  cases b with
  | true => simp [lookup_dictSet_self]
  | false => simp

theorem lookup_final_ganglia (env : Env) (v : Vals) (hn : String) (fr : Bool) (ss : PyVal)
    (hcpu : cpuOk v.cpuV = true) :
    dictLookup (finalPayload env v hn fr ss) K.ganglia =
      if (!isFalseLit v.gangliaV && !isNoneLit v.gangliaV) then some v.gangliaV
      else Option.none := by
  simp only [finalPayload]
  rw [lookup_ite_dictSet_ne _ _ _ _ _ (by decide), lookup_ite_dictSet_ne _ _ _ _ _ (by decide),
    lookup_dictSet_ne _ _ _ _ (by decide), lookup_dictSet_ne _ _ _ _ (by decide),
    lookup_dictSet_ne _ _ _ _ (by decide), lookup_dictSet_ne _ _ _ _ (by decide)]
  simp only [bodyAfterOptional]
  rw [lookup_ite_dictSet_ne _ _ _ _ _ (by decide),
    lookup_setIfNeFalse_ne _ _ _ _ (by decide), lookup_setIfNeFalse_ne _ _ _ _ (by decide),
    lookup_setIfNeFalse_ne _ _ _ _ (by decide), lookup_setIfNeFalse_ne _ _ _ _ (by decide),
    lookup_setIfNeFalse_ne _ _ _ _ (by decide),
    lookup_nginxPure_ne _ _ _ (by decide) (by decide),
    lookup_mysqlPure_ne _ _ _ (by decide) (by decide) (by decide) (by decide) (by decide)
      (by decide) (by decide) (by decide),
    lookup_apachePure_ne _ _ _ (by decide) (by decide) (by decide),
    lookup_setIfNotAbsent_ne _ _ _ _ (by decide), lookup_setIfNotAbsent_ne _ _ _ _ (by decide),
    lookup_setIfNotAbsent_self,
    lookup_cpuPure _ _ _ hcpu (by simp [specialKeys]),
    lookup_mandatoryPure_absent _ _ _ (by simp [absentKeys])]

theorem lookup_final_datadog (env : Env) (v : Vals) (hn : String) (fr : Bool) (ss : PyVal)
    (hcpu : cpuOk v.cpuV = true) :
    dictLookup (finalPayload env v hn fr ss) K.datadog =
      if (!isFalseLit v.datadogV && !isNoneLit v.datadogV) then some v.datadogV
      else Option.none := by
  simp only [finalPayload]
  rw [lookup_ite_dictSet_ne _ _ _ _ _ (by decide), lookup_ite_dictSet_ne _ _ _ _ _ (by decide),
    lookup_dictSet_ne _ _ _ _ (by decide), lookup_dictSet_ne _ _ _ _ (by decide),
    lookup_dictSet_ne _ _ _ _ (by decide), lookup_dictSet_ne _ _ _ _ (by decide)]
  simp only [bodyAfterOptional]
  rw [lookup_ite_dictSet_ne _ _ _ _ _ (by decide),
    lookup_setIfNeFalse_ne _ _ _ _ (by decide), lookup_setIfNeFalse_ne _ _ _ _ (by decide),
    lookup_setIfNeFalse_ne _ _ _ _ (by decide), lookup_setIfNeFalse_ne _ _ _ _ (by decide),
    lookup_setIfNeFalse_ne _ _ _ _ (by decide),
    lookup_nginxPure_ne _ _ _ (by decide) (by decide),
    lookup_mysqlPure_ne _ _ _ (by decide) (by decide) (by decide) (by decide) (by decide)
      (by decide) (by decide) (by decide),
    lookup_apachePure_ne _ _ _ (by decide) (by decide) (by decide),
    lookup_setIfNotAbsent_ne _ _ _ _ (by decide),
    lookup_setIfNotAbsent_self,
    lookup_setIfNotAbsent_ne _ _ _ _ (by decide),
    lookup_cpuPure _ _ _ hcpu (by simp [specialKeys]),
    lookup_mandatoryPure_absent _ _ _ (by simp [absentKeys])]

theorem lookup_final_cassandra (env : Env) (v : Vals) (hn : String) (fr : Bool) (ss : PyVal)
    (hcpu : cpuOk v.cpuV = true) :
    dictLookup (finalPayload env v hn fr ss) K.cassandra =
      if (!isFalseLit v.cassandraV && !isNoneLit v.cassandraV) then some v.cassandraV
      else Option.none := by
  simp only [finalPayload]
  rw [lookup_ite_dictSet_ne _ _ _ _ _ (by decide), lookup_ite_dictSet_ne _ _ _ _ _ (by decide),
    lookup_dictSet_ne _ _ _ _ (by decide), lookup_dictSet_ne _ _ _ _ (by decide),
    lookup_dictSet_ne _ _ _ _ (by decide), lookup_dictSet_ne _ _ _ _ (by decide)]
  simp only [bodyAfterOptional]
  rw [lookup_ite_dictSet_ne _ _ _ _ _ (by decide),
    lookup_setIfNeFalse_ne _ _ _ _ (by decide), lookup_setIfNeFalse_ne _ _ _ _ (by decide),
    lookup_setIfNeFalse_ne _ _ _ _ (by decide), lookup_setIfNeFalse_ne _ _ _ _ (by decide),
    lookup_setIfNeFalse_ne _ _ _ _ (by decide),
    lookup_nginxPure_ne _ _ _ (by decide) (by decide),
    lookup_mysqlPure_ne _ _ _ (by decide) (by decide) (by decide) (by decide) (by decide)
      (by decide) (by decide) (by decide),
    lookup_apachePure_ne _ _ _ (by decide) (by decide) (by decide),
    lookup_setIfNotAbsent_self,
    lookup_setIfNotAbsent_ne _ _ _ _ (by decide), lookup_setIfNotAbsent_ne _ _ _ _ (by decide),
    lookup_cpuPure _ _ _ hcpu (by simp [specialKeys]),
    lookup_mandatoryPure_absent _ _ _ (by simp [absentKeys])]

theorem lookup_final_systemStats (env : Env) (v : Vals) (hn : String) (fr : Bool) (ss : PyVal)
    (hcpu : cpuOk v.cpuV = true) :
    dictLookup (finalPayload env v hn fr ss) K.systemStats =
      if fr then some ss else Option.none := by
  simp only [finalPayload]
  rw [lookup_ite_dictSet_ne _ _ _ _ _ (by decide), lookup_ite_dictSet_ne _ _ _ _ _ (by decide),
    lookup_dictSet_ne _ _ _ _ (by decide), lookup_dictSet_ne _ _ _ _ (by decide),
    lookup_dictSet_ne _ _ _ _ (by decide), lookup_dictSet_ne _ _ _ _ (by decide)]
  simp only [bodyAfterOptional]
  rw [lookup_ite_dictSet_self,
    lookup_setIfNeFalse_ne _ _ _ _ (by decide), lookup_setIfNeFalse_ne _ _ _ _ (by decide),
    lookup_setIfNeFalse_ne _ _ _ _ (by decide), lookup_setIfNeFalse_ne _ _ _ _ (by decide),
    lookup_setIfNeFalse_ne _ _ _ _ (by decide),
    lookup_nginxPure_ne _ _ _ (by decide) (by decide),
    lookup_mysqlPure_ne _ _ _ (by decide) (by decide) (by decide) (by decide) (by decide)
      (by decide) (by decide) (by decide),
    lookup_apachePure_ne _ _ _ (by decide) (by decide) (by decide),
    lookup_setIfNotAbsent_ne _ _ _ _ (by decide), lookup_setIfNotAbsent_ne _ _ _ _ (by decide),
    lookup_setIfNotAbsent_ne _ _ _ _ (by decide),
    lookup_cpuPure _ _ _ hcpu (by simp [specialKeys]),
    lookup_mandatoryPure_absent _ _ _ (by simp [absentKeys])]

theorem lookup_final_uuid (env : Env) (v : Vals) (hn : String) (fr : Bool) (ss : PyVal) :
    dictLookup (finalPayload env v hn fr ss) K.uuidKey = some (.str env.uuidHex) := by
  simp only [finalPayload]
  rw [lookup_ite_dictSet_ne _ _ _ _ _ (by decide), lookup_ite_dictSet_ne _ _ _ _ _ (by decide),
    lookup_dictSet_ne _ _ _ _ (by decide), lookup_dictSet_ne _ _ _ _ (by decide),
    lookup_dictSet_self]

theorem lookup_final_internalHostname (env : Env) (v : Vals) (hn : String) (fr : Bool)
    (ss : PyVal) :
    dictLookup (finalPayload env v hn fr ss) K.internalHostname = some (.str hn) := by
  simp only [finalPayload]
  rw [lookup_ite_dictSet_ne _ _ _ _ _ (by decide), lookup_ite_dictSet_ne _ _ _ _ _ (by decide),
    lookup_dictSet_ne _ _ _ _ (by decide), lookup_dictSet_ne _ _ _ _ (by decide),
    lookup_dictSet_ne _ _ _ _ (by decide), lookup_dictSet_self]

theorem lookup_final_events (env : Env) (v : Vals) (hn : String) (fr : Bool) (ss : PyVal) :
    dictLookup (finalPayload env v hn fr ss) K.events =
      some (.dict (if fr then
        dictSet (eventsPure env.eventChecks []) K.SystemKey
          (startupRecord env.cfg (.str hn) env.startupTs)
      else eventsPure env.eventChecks [])) := by
  simp only [finalPayload]
  rw [lookup_ite_dictSet_self, lookup_ite_dictSet_ne _ _ _ _ _ (by decide),
    lookup_dictSet_ne _ _ _ _ (by decide), lookup_dictSet_self]
  cases fr <;> rfl

theorem lookup_final_resources (env : Env) (v : Vals) (hn : String) (fr : Bool) (ss : PyVal) :
    dictLookup (finalPayload env v hn fr ss) K.resources =
      some (.dict (if anySnap env.resourceChecks then
        dictSet (resourcesPure env.resourceChecks []) K.meta (metaVal env.cfg (.str hn))
      else resourcesPure env.resourceChecks [])) := by
  simp only [finalPayload]
  rw [lookup_ite_dictSet_ne _ _ _ _ _ (by decide), lookup_ite_dictSet_self, lookup_dictSet_self]
  rcases Bool.eq_false_or_eq_true (anySnap env.resourceChecks) with hA | hA <;> rw [hA] <;> rfl

theorem lookup_apachePure_rps (a : PyVal) (d : PyDict) :
    dictLookup (apachePure a d) K.apacheReqPerSec =
      if pyNeFalse a then some (pyGetD a K.reqPerSec)
      else dictLookup d K.apacheReqPerSec := by
  unfold apachePure
  split
  next h =>
    rw [lookup_dictSet_ne _ _ _ _ (by decide), lookup_dictSet_ne _ _ _ _ (by decide),
      lookup_dictSet_self]
  next h => rfl

theorem lookup_apachePure_bw (a : PyVal) (d : PyDict) :
    dictLookup (apachePure a d) K.apacheBusyWorkers =
      if pyNeFalse a then some (pyGetD a K.busyWorkers)
      else dictLookup d K.apacheBusyWorkers := by
  unfold apachePure
  split
  next h => rw [lookup_dictSet_ne _ _ _ _ (by decide), lookup_dictSet_self]
  next h => rfl

theorem lookup_apachePure_iw (a : PyVal) (d : PyDict) :
    dictLookup (apachePure a d) K.apacheIdleWorkers =
      if pyNeFalse a then some (pyGetD a K.idleWorkers)
      else dictLookup d K.apacheIdleWorkers := by
  unfold apachePure
  split
  next h => rw [lookup_dictSet_self]
  next h => rfl

theorem lookup_nginxPure_conn (n : PyVal) (d : PyDict) :
    dictLookup (nginxPure n d) K.nginxConnections =
      if pyNeFalse n then some (pyGetD n K.connections)
      else dictLookup d K.nginxConnections := by
  unfold nginxPure
  split
  next h => rw [lookup_dictSet_ne _ _ _ _ (by decide), lookup_dictSet_self]
  next h => rfl

theorem lookup_nginxPure_rps (n : PyVal) (d : PyDict) :
    dictLookup (nginxPure n d) K.nginxReqPerSec =
      if pyNeFalse n then some (pyGetD n K.reqPerSec)
      else dictLookup d K.nginxReqPerSec := by
  unfold nginxPure
  split
  next h => rw [lookup_dictSet_self]
  next h => rfl

theorem lookup_mysqlPure_key1 (m : PyVal) (d : PyDict) :
    dictLookup (mysqlPure m d) K.mysqlConnections =
      if pyNeFalse m then some (pyGetD m K.connections)
      else dictLookup d K.mysqlConnections := by
  unfold mysqlPure mysqlSets
  split
  next h =>
    split
    · rw [lookup_dictSet_ne _ _ _ _ (by decide), lookup_dictSet_ne _ _ _ _ (by decide),
        lookup_dictSet_ne _ _ _ _ (by decide), lookup_dictSet_ne _ _ _ _ (by decide),
        lookup_dictSet_ne _ _ _ _ (by decide), lookup_dictSet_ne _ _ _ _ (by decide),
        lookup_dictSet_self]
    · rw [lookup_dictSet_ne _ _ _ _ (by decide), lookup_dictSet_ne _ _ _ _ (by decide),
        lookup_dictSet_ne _ _ _ _ (by decide), lookup_dictSet_ne _ _ _ _ (by decide),
        lookup_dictSet_ne _ _ _ _ (by decide), lookup_dictSet_ne _ _ _ _ (by decide),
        lookup_dictSet_ne _ _ _ _ (by decide), lookup_dictSet_self]
  next h => rfl

theorem lookup_mysqlPure_key2 (m : PyVal) (d : PyDict) :
    dictLookup (mysqlPure m d) K.mysqlCreatedTmpDiskTables =
      if pyNeFalse m then some (pyGetD m K.createdTmpDiskTables)
      else dictLookup d K.mysqlCreatedTmpDiskTables := by
  unfold mysqlPure mysqlSets
  split
  next h =>
    split
    · rw [lookup_dictSet_ne _ _ _ _ (by decide), lookup_dictSet_ne _ _ _ _ (by decide),
        lookup_dictSet_ne _ _ _ _ (by decide), lookup_dictSet_ne _ _ _ _ (by decide),
        lookup_dictSet_ne _ _ _ _ (by decide), lookup_dictSet_self]
    · rw [lookup_dictSet_ne _ _ _ _ (by decide), lookup_dictSet_ne _ _ _ _ (by decide),
        lookup_dictSet_ne _ _ _ _ (by decide), lookup_dictSet_ne _ _ _ _ (by decide),
        lookup_dictSet_ne _ _ _ _ (by decide), lookup_dictSet_ne _ _ _ _ (by decide),
        lookup_dictSet_self]
  next h => rfl

theorem lookup_mysqlPure_key3 (m : PyVal) (d : PyDict) :
    dictLookup (mysqlPure m d) K.mysqlMaxUsedConnections =
      if pyNeFalse m then some (pyGetD m K.maxUsedConnections)
      else dictLookup d K.mysqlMaxUsedConnections := by
  unfold mysqlPure mysqlSets
  split
  next h =>
    split
    · rw [lookup_dictSet_ne _ _ _ _ (by decide), lookup_dictSet_ne _ _ _ _ (by decide),
        lookup_dictSet_ne _ _ _ _ (by decide), lookup_dictSet_ne _ _ _ _ (by decide),
        lookup_dictSet_self]
    · rw [lookup_dictSet_ne _ _ _ _ (by decide), lookup_dictSet_ne _ _ _ _ (by decide),
        lookup_dictSet_ne _ _ _ _ (by decide), lookup_dictSet_ne _ _ _ _ (by decide),
        lookup_dictSet_ne _ _ _ _ (by decide), lookup_dictSet_self]
  next h => rfl

theorem lookup_mysqlPure_key4 (m : PyVal) (d : PyDict) :
    dictLookup (mysqlPure m d) K.mysqlOpenFiles =
      if pyNeFalse m then some (pyGetD m K.openFiles)
      else dictLookup d K.mysqlOpenFiles := by
  unfold mysqlPure mysqlSets
  split
  next h =>
    split
    · rw [lookup_dictSet_ne _ _ _ _ (by decide), lookup_dictSet_ne _ _ _ _ (by decide),
        lookup_dictSet_ne _ _ _ _ (by decide), lookup_dictSet_self]
    · rw [lookup_dictSet_ne _ _ _ _ (by decide), lookup_dictSet_ne _ _ _ _ (by decide),
        lookup_dictSet_ne _ _ _ _ (by decide), lookup_dictSet_ne _ _ _ _ (by decide),
        lookup_dictSet_self]
  next h => rfl

theorem lookup_mysqlPure_key5 (m : PyVal) (d : PyDict) :
    dictLookup (mysqlPure m d) K.mysqlSlowQueries =
      if pyNeFalse m then some (pyGetD m K.slowQueries)
      else dictLookup d K.mysqlSlowQueries := by
  unfold mysqlPure mysqlSets
  split
  next h =>
    split
    · rw [lookup_dictSet_ne _ _ _ _ (by decide), lookup_dictSet_ne _ _ _ _ (by decide),
        lookup_dictSet_self]
    · rw [lookup_dictSet_ne _ _ _ _ (by decide), lookup_dictSet_ne _ _ _ _ (by decide),
        lookup_dictSet_ne _ _ _ _ (by decide), lookup_dictSet_self]
  next h => rfl

theorem lookup_mysqlPure_key6 (m : PyVal) (d : PyDict) :
    dictLookup (mysqlPure m d) K.mysqlTableLocksWaited =
      if pyNeFalse m then some (pyGetD m K.tableLocksWaited)
      else dictLookup d K.mysqlTableLocksWaited := by
  unfold mysqlPure mysqlSets
  split
  next h =>
    split
    · rw [lookup_dictSet_ne _ _ _ _ (by decide), lookup_dictSet_self]
    · rw [lookup_dictSet_ne _ _ _ _ (by decide), lookup_dictSet_ne _ _ _ _ (by decide),
        lookup_dictSet_self]
  next h => rfl

theorem lookup_mysqlPure_key7 (m : PyVal) (d : PyDict) :
    dictLookup (mysqlPure m d) K.mysqlThreadsConnected =
      if pyNeFalse m then some (pyGetD m K.threadsConnected)
      else dictLookup d K.mysqlThreadsConnected := by
  unfold mysqlPure mysqlSets
  split
  next h =>
    split
    · rw [lookup_dictSet_self]
    · rw [lookup_dictSet_ne _ _ _ _ (by decide), lookup_dictSet_self]
  next h => rfl

theorem lookup_final_apacheReqPerSec (env : Env) (v : Vals) (hn : String) (fr : Bool)
    (ss : PyVal) (hcpu : cpuOk v.cpuV = true) :
    dictLookup (finalPayload env v hn fr ss) K.apacheReqPerSec =
      if pyNeFalse v.apacheV then some (pyGetD v.apacheV K.reqPerSec) else Option.none := by
  simp only [finalPayload]
  rw [lookup_ite_dictSet_ne _ _ _ _ _ (by decide), lookup_ite_dictSet_ne _ _ _ _ _ (by decide),
    lookup_dictSet_ne _ _ _ _ (by decide), lookup_dictSet_ne _ _ _ _ (by decide),
    lookup_dictSet_ne _ _ _ _ (by decide), lookup_dictSet_ne _ _ _ _ (by decide)]
  simp only [bodyAfterOptional]
  rw [lookup_ite_dictSet_ne _ _ _ _ _ (by decide),
    lookup_setIfNeFalse_ne _ _ _ _ (by decide), lookup_setIfNeFalse_ne _ _ _ _ (by decide),
    lookup_setIfNeFalse_ne _ _ _ _ (by decide), lookup_setIfNeFalse_ne _ _ _ _ (by decide),
    lookup_setIfNeFalse_ne _ _ _ _ (by decide),
    lookup_nginxPure_ne _ _ _ (by decide) (by decide),
    lookup_mysqlPure_ne _ _ _ (by decide) (by decide) (by decide) (by decide) (by decide)
      (by decide) (by decide) (by decide),
    lookup_apachePure_rps,
    lookup_setIfNotAbsent_ne _ _ _ _ (by decide), lookup_setIfNotAbsent_ne _ _ _ _ (by decide),
    lookup_setIfNotAbsent_ne _ _ _ _ (by decide),
    lookup_cpuPure _ _ _ hcpu (by simp [specialKeys]),
    lookup_mandatoryPure_absent _ _ _ (by simp [absentKeys])]

theorem lookup_final_apacheBusyWorkers (env : Env) (v : Vals) (hn : String) (fr : Bool)
    (ss : PyVal) (hcpu : cpuOk v.cpuV = true) :
    dictLookup (finalPayload env v hn fr ss) K.apacheBusyWorkers =
      if pyNeFalse v.apacheV then some (pyGetD v.apacheV K.busyWorkers) else Option.none := by
  simp only [finalPayload]
  rw [lookup_ite_dictSet_ne _ _ _ _ _ (by decide), lookup_ite_dictSet_ne _ _ _ _ _ (by decide),
    lookup_dictSet_ne _ _ _ _ (by decide), lookup_dictSet_ne _ _ _ _ (by decide),
    lookup_dictSet_ne _ _ _ _ (by decide), lookup_dictSet_ne _ _ _ _ (by decide)]
  simp only [bodyAfterOptional]
  rw [lookup_ite_dictSet_ne _ _ _ _ _ (by decide),
    lookup_setIfNeFalse_ne _ _ _ _ (by decide), lookup_setIfNeFalse_ne _ _ _ _ (by decide),
    lookup_setIfNeFalse_ne _ _ _ _ (by decide), lookup_setIfNeFalse_ne _ _ _ _ (by decide),
    lookup_setIfNeFalse_ne _ _ _ _ (by decide),
    lookup_nginxPure_ne _ _ _ (by decide) (by decide),
    lookup_mysqlPure_ne _ _ _ (by decide) (by decide) (by decide) (by decide) (by decide)
      (by decide) (by decide) (by decide),
    lookup_apachePure_bw,
    lookup_setIfNotAbsent_ne _ _ _ _ (by decide), lookup_setIfNotAbsent_ne _ _ _ _ (by decide),
    lookup_setIfNotAbsent_ne _ _ _ _ (by decide),
    lookup_cpuPure _ _ _ hcpu (by simp [specialKeys]),
    lookup_mandatoryPure_absent _ _ _ (by simp [absentKeys])]

theorem lookup_final_apacheIdleWorkers (env : Env) (v : Vals) (hn : String) (fr : Bool)
    (ss : PyVal) (hcpu : cpuOk v.cpuV = true) :
    dictLookup (finalPayload env v hn fr ss) K.apacheIdleWorkers =
      if pyNeFalse v.apacheV then some (pyGetD v.apacheV K.idleWorkers) else Option.none := by
  simp only [finalPayload]
  rw [lookup_ite_dictSet_ne _ _ _ _ _ (by decide), lookup_ite_dictSet_ne _ _ _ _ _ (by decide),
    lookup_dictSet_ne _ _ _ _ (by decide), lookup_dictSet_ne _ _ _ _ (by decide),
    lookup_dictSet_ne _ _ _ _ (by decide), lookup_dictSet_ne _ _ _ _ (by decide)]
  simp only [bodyAfterOptional]
  rw [lookup_ite_dictSet_ne _ _ _ _ _ (by decide),
    lookup_setIfNeFalse_ne _ _ _ _ (by decide), lookup_setIfNeFalse_ne _ _ _ _ (by decide),
    lookup_setIfNeFalse_ne _ _ _ _ (by decide), lookup_setIfNeFalse_ne _ _ _ _ (by decide),
    lookup_setIfNeFalse_ne _ _ _ _ (by decide),
    lookup_nginxPure_ne _ _ _ (by decide) (by decide),
    lookup_mysqlPure_ne _ _ _ (by decide) (by decide) (by decide) (by decide) (by decide)
      (by decide) (by decide) (by decide),
    lookup_apachePure_iw,
    lookup_setIfNotAbsent_ne _ _ _ _ (by decide), lookup_setIfNotAbsent_ne _ _ _ _ (by decide),
    lookup_setIfNotAbsent_ne _ _ _ _ (by decide),
    lookup_cpuPure _ _ _ hcpu (by simp [specialKeys]),
    lookup_mandatoryPure_absent _ _ _ (by simp [absentKeys])]

theorem lookup_final_nginxConnections (env : Env) (v : Vals) (hn : String) (fr : Bool)
    (ss : PyVal) (hcpu : cpuOk v.cpuV = true) :
    dictLookup (finalPayload env v hn fr ss) K.nginxConnections =
      if pyNeFalse v.nginxV then some (pyGetD v.nginxV K.connections) else Option.none := by
  simp only [finalPayload]
  rw [lookup_ite_dictSet_ne _ _ _ _ _ (by decide), lookup_ite_dictSet_ne _ _ _ _ _ (by decide),
    lookup_dictSet_ne _ _ _ _ (by decide), lookup_dictSet_ne _ _ _ _ (by decide),
    lookup_dictSet_ne _ _ _ _ (by decide), lookup_dictSet_ne _ _ _ _ (by decide)]
  simp only [bodyAfterOptional]
  rw [lookup_ite_dictSet_ne _ _ _ _ _ (by decide),
    lookup_setIfNeFalse_ne _ _ _ _ (by decide), lookup_setIfNeFalse_ne _ _ _ _ (by decide),
    lookup_setIfNeFalse_ne _ _ _ _ (by decide), lookup_setIfNeFalse_ne _ _ _ _ (by decide),
    lookup_setIfNeFalse_ne _ _ _ _ (by decide),
    lookup_nginxPure_conn,
    lookup_mysqlPure_ne _ _ _ (by decide) (by decide) (by decide) (by decide) (by decide)
      (by decide) (by decide) (by decide),
    lookup_apachePure_ne _ _ _ (by decide) (by decide) (by decide),
    lookup_setIfNotAbsent_ne _ _ _ _ (by decide), lookup_setIfNotAbsent_ne _ _ _ _ (by decide),
    lookup_setIfNotAbsent_ne _ _ _ _ (by decide),
    lookup_cpuPure _ _ _ hcpu (by simp [specialKeys]),
    lookup_mandatoryPure_absent _ _ _ (by simp [absentKeys])]

theorem lookup_final_nginxReqPerSec (env : Env) (v : Vals) (hn : String) (fr : Bool)
    (ss : PyVal) (hcpu : cpuOk v.cpuV = true) :
    dictLookup (finalPayload env v hn fr ss) K.nginxReqPerSec =
      if pyNeFalse v.nginxV then some (pyGetD v.nginxV K.reqPerSec) else Option.none := by
  simp only [finalPayload]
  rw [lookup_ite_dictSet_ne _ _ _ _ _ (by decide), lookup_ite_dictSet_ne _ _ _ _ _ (by decide),
    lookup_dictSet_ne _ _ _ _ (by decide), lookup_dictSet_ne _ _ _ _ (by decide),
    lookup_dictSet_ne _ _ _ _ (by decide), lookup_dictSet_ne _ _ _ _ (by decide)]
  simp only [bodyAfterOptional]
  rw [lookup_ite_dictSet_ne _ _ _ _ _ (by decide),
    lookup_setIfNeFalse_ne _ _ _ _ (by decide), lookup_setIfNeFalse_ne _ _ _ _ (by decide),
    lookup_setIfNeFalse_ne _ _ _ _ (by decide), lookup_setIfNeFalse_ne _ _ _ _ (by decide),
    lookup_setIfNeFalse_ne _ _ _ _ (by decide),
    lookup_nginxPure_rps,
    lookup_mysqlPure_ne _ _ _ (by decide) (by decide) (by decide) (by decide) (by decide)
      (by decide) (by decide) (by decide),
    lookup_apachePure_ne _ _ _ (by decide) (by decide) (by decide),
    lookup_setIfNotAbsent_ne _ _ _ _ (by decide), lookup_setIfNotAbsent_ne _ _ _ _ (by decide),
    lookup_setIfNotAbsent_ne _ _ _ _ (by decide),
    lookup_cpuPure _ _ _ hcpu (by simp [specialKeys]),
    lookup_mandatoryPure_absent _ _ _ (by simp [absentKeys])]

theorem lookup_final_mysqlConnections (env : Env) (v : Vals) (hn : String) (fr : Bool)
    (ss : PyVal) (hcpu : cpuOk v.cpuV = true) :
    dictLookup (finalPayload env v hn fr ss) K.mysqlConnections =
      if pyNeFalse v.mysqlV then some (pyGetD v.mysqlV K.connections) else Option.none := by
  simp only [finalPayload]
  rw [lookup_ite_dictSet_ne _ _ _ _ _ (by decide), lookup_ite_dictSet_ne _ _ _ _ _ (by decide),
    lookup_dictSet_ne _ _ _ _ (by decide), lookup_dictSet_ne _ _ _ _ (by decide),
    lookup_dictSet_ne _ _ _ _ (by decide), lookup_dictSet_ne _ _ _ _ (by decide)]
  simp only [bodyAfterOptional]
  rw [lookup_ite_dictSet_ne _ _ _ _ _ (by decide),
    lookup_setIfNeFalse_ne _ _ _ _ (by decide), lookup_setIfNeFalse_ne _ _ _ _ (by decide),
    lookup_setIfNeFalse_ne _ _ _ _ (by decide), lookup_setIfNeFalse_ne _ _ _ _ (by decide),
    lookup_setIfNeFalse_ne _ _ _ _ (by decide),
    lookup_nginxPure_ne _ _ _ (by decide) (by decide),
    lookup_mysqlPure_key1,
    lookup_apachePure_ne _ _ _ (by decide) (by decide) (by decide),
    lookup_setIfNotAbsent_ne _ _ _ _ (by decide), lookup_setIfNotAbsent_ne _ _ _ _ (by decide),
    lookup_setIfNotAbsent_ne _ _ _ _ (by decide),
    lookup_cpuPure _ _ _ hcpu (by simp [specialKeys]),
    lookup_mandatoryPure_absent _ _ _ (by simp [absentKeys])]

theorem lookup_final_mysqlCreatedTmpDiskTables (env : Env) (v : Vals) (hn : String) (fr : Bool)
    (ss : PyVal) (hcpu : cpuOk v.cpuV = true) :
    dictLookup (finalPayload env v hn fr ss) K.mysqlCreatedTmpDiskTables =
      if pyNeFalse v.mysqlV then some (pyGetD v.mysqlV K.createdTmpDiskTables) else Option.none := by
  simp only [finalPayload]
  rw [lookup_ite_dictSet_ne _ _ _ _ _ (by decide), lookup_ite_dictSet_ne _ _ _ _ _ (by decide),
    lookup_dictSet_ne _ _ _ _ (by decide), lookup_dictSet_ne _ _ _ _ (by decide),
    lookup_dictSet_ne _ _ _ _ (by decide), lookup_dictSet_ne _ _ _ _ (by decide)]
  simp only [bodyAfterOptional]
  rw [lookup_ite_dictSet_ne _ _ _ _ _ (by decide),
    lookup_setIfNeFalse_ne _ _ _ _ (by decide), lookup_setIfNeFalse_ne _ _ _ _ (by decide),
    lookup_setIfNeFalse_ne _ _ _ _ (by decide), lookup_setIfNeFalse_ne _ _ _ _ (by decide),
    lookup_setIfNeFalse_ne _ _ _ _ (by decide),
    lookup_nginxPure_ne _ _ _ (by decide) (by decide),
    lookup_mysqlPure_key2,
    lookup_apachePure_ne _ _ _ (by decide) (by decide) (by decide),
    lookup_setIfNotAbsent_ne _ _ _ _ (by decide), lookup_setIfNotAbsent_ne _ _ _ _ (by decide),
    lookup_setIfNotAbsent_ne _ _ _ _ (by decide),
    lookup_cpuPure _ _ _ hcpu (by simp [specialKeys]),
    lookup_mandatoryPure_absent _ _ _ (by simp [absentKeys])]

theorem lookup_final_mysqlMaxUsedConnections (env : Env) (v : Vals) (hn : String) (fr : Bool)
    (ss : PyVal) (hcpu : cpuOk v.cpuV = true) :
    dictLookup (finalPayload env v hn fr ss) K.mysqlMaxUsedConnections =
      if pyNeFalse v.mysqlV then some (pyGetD v.mysqlV K.maxUsedConnections) else Option.none := by
  simp only [finalPayload]
  rw [lookup_ite_dictSet_ne _ _ _ _ _ (by decide), lookup_ite_dictSet_ne _ _ _ _ _ (by decide),
    lookup_dictSet_ne _ _ _ _ (by decide), lookup_dictSet_ne _ _ _ _ (by decide),
    lookup_dictSet_ne _ _ _ _ (by decide), lookup_dictSet_ne _ _ _ _ (by decide)]
  simp only [bodyAfterOptional]
  rw [lookup_ite_dictSet_ne _ _ _ _ _ (by decide),
    lookup_setIfNeFalse_ne _ _ _ _ (by decide), lookup_setIfNeFalse_ne _ _ _ _ (by decide),
    lookup_setIfNeFalse_ne _ _ _ _ (by decide), lookup_setIfNeFalse_ne _ _ _ _ (by decide),
    lookup_setIfNeFalse_ne _ _ _ _ (by decide),
    lookup_nginxPure_ne _ _ _ (by decide) (by decide),
    lookup_mysqlPure_key3,
    lookup_apachePure_ne _ _ _ (by decide) (by decide) (by decide),
    lookup_setIfNotAbsent_ne _ _ _ _ (by decide), lookup_setIfNotAbsent_ne _ _ _ _ (by decide),
    lookup_setIfNotAbsent_ne _ _ _ _ (by decide),
    lookup_cpuPure _ _ _ hcpu (by simp [specialKeys]),
    lookup_mandatoryPure_absent _ _ _ (by simp [absentKeys])]

theorem lookup_final_mysqlOpenFiles (env : Env) (v : Vals) (hn : String) (fr : Bool)
    (ss : PyVal) (hcpu : cpuOk v.cpuV = true) :
    dictLookup (finalPayload env v hn fr ss) K.mysqlOpenFiles =
      if pyNeFalse v.mysqlV then some (pyGetD v.mysqlV K.openFiles) else Option.none := by
  simp only [finalPayload]
  rw [lookup_ite_dictSet_ne _ _ _ _ _ (by decide), lookup_ite_dictSet_ne _ _ _ _ _ (by decide),
    lookup_dictSet_ne _ _ _ _ (by decide), lookup_dictSet_ne _ _ _ _ (by decide),
    lookup_dictSet_ne _ _ _ _ (by decide), lookup_dictSet_ne _ _ _ _ (by decide)]
  simp only [bodyAfterOptional]
  rw [lookup_ite_dictSet_ne _ _ _ _ _ (by decide),
    lookup_setIfNeFalse_ne _ _ _ _ (by decide), lookup_setIfNeFalse_ne _ _ _ _ (by decide),
    lookup_setIfNeFalse_ne _ _ _ _ (by decide), lookup_setIfNeFalse_ne _ _ _ _ (by decide),
    lookup_setIfNeFalse_ne _ _ _ _ (by decide),
    lookup_nginxPure_ne _ _ _ (by decide) (by decide),
    lookup_mysqlPure_key4,
    lookup_apachePure_ne _ _ _ (by decide) (by decide) (by decide),
    lookup_setIfNotAbsent_ne _ _ _ _ (by decide), lookup_setIfNotAbsent_ne _ _ _ _ (by decide),
    lookup_setIfNotAbsent_ne _ _ _ _ (by decide),
    lookup_cpuPure _ _ _ hcpu (by simp [specialKeys]),
    lookup_mandatoryPure_absent _ _ _ (by simp [absentKeys])]

theorem lookup_final_mysqlSlowQueries (env : Env) (v : Vals) (hn : String) (fr : Bool)
    (ss : PyVal) (hcpu : cpuOk v.cpuV = true) :
    dictLookup (finalPayload env v hn fr ss) K.mysqlSlowQueries =
      if pyNeFalse v.mysqlV then some (pyGetD v.mysqlV K.slowQueries) else Option.none := by
  simp only [finalPayload]
  rw [lookup_ite_dictSet_ne _ _ _ _ _ (by decide), lookup_ite_dictSet_ne _ _ _ _ _ (by decide),
    lookup_dictSet_ne _ _ _ _ (by decide), lookup_dictSet_ne _ _ _ _ (by decide),
    lookup_dictSet_ne _ _ _ _ (by decide), lookup_dictSet_ne _ _ _ _ (by decide)]
  simp only [bodyAfterOptional]
  rw [lookup_ite_dictSet_ne _ _ _ _ _ (by decide),
    lookup_setIfNeFalse_ne _ _ _ _ (by decide), lookup_setIfNeFalse_ne _ _ _ _ (by decide),
    lookup_setIfNeFalse_ne _ _ _ _ (by decide), lookup_setIfNeFalse_ne _ _ _ _ (by decide),
    lookup_setIfNeFalse_ne _ _ _ _ (by decide),
    lookup_nginxPure_ne _ _ _ (by decide) (by decide),
    lookup_mysqlPure_key5,
    lookup_apachePure_ne _ _ _ (by decide) (by decide) (by decide),
    lookup_setIfNotAbsent_ne _ _ _ _ (by decide), lookup_setIfNotAbsent_ne _ _ _ _ (by decide),
    lookup_setIfNotAbsent_ne _ _ _ _ (by decide),
    lookup_cpuPure _ _ _ hcpu (by simp [specialKeys]),
    lookup_mandatoryPure_absent _ _ _ (by simp [absentKeys])]

theorem lookup_final_mysqlTableLocksWaited (env : Env) (v : Vals) (hn : String) (fr : Bool)
    (ss : PyVal) (hcpu : cpuOk v.cpuV = true) :
    dictLookup (finalPayload env v hn fr ss) K.mysqlTableLocksWaited =
      if pyNeFalse v.mysqlV then some (pyGetD v.mysqlV K.tableLocksWaited) else Option.none := by
  simp only [finalPayload]
  rw [lookup_ite_dictSet_ne _ _ _ _ _ (by decide), lookup_ite_dictSet_ne _ _ _ _ _ (by decide),
    lookup_dictSet_ne _ _ _ _ (by decide), lookup_dictSet_ne _ _ _ _ (by decide),
    lookup_dictSet_ne _ _ _ _ (by decide), lookup_dictSet_ne _ _ _ _ (by decide)]
  simp only [bodyAfterOptional]
  rw [lookup_ite_dictSet_ne _ _ _ _ _ (by decide),
    lookup_setIfNeFalse_ne _ _ _ _ (by decide), lookup_setIfNeFalse_ne _ _ _ _ (by decide),
    lookup_setIfNeFalse_ne _ _ _ _ (by decide), lookup_setIfNeFalse_ne _ _ _ _ (by decide),
    lookup_setIfNeFalse_ne _ _ _ _ (by decide),
    lookup_nginxPure_ne _ _ _ (by decide) (by decide),
    lookup_mysqlPure_key6,
    lookup_apachePure_ne _ _ _ (by decide) (by decide) (by decide),
    lookup_setIfNotAbsent_ne _ _ _ _ (by decide), lookup_setIfNotAbsent_ne _ _ _ _ (by decide),
    lookup_setIfNotAbsent_ne _ _ _ _ (by decide),
    lookup_cpuPure _ _ _ hcpu (by simp [specialKeys]),
    lookup_mandatoryPure_absent _ _ _ (by simp [absentKeys])]

theorem lookup_final_mysqlThreadsConnected (env : Env) (v : Vals) (hn : String) (fr : Bool)
    (ss : PyVal) (hcpu : cpuOk v.cpuV = true) :
    dictLookup (finalPayload env v hn fr ss) K.mysqlThreadsConnected =
      if pyNeFalse v.mysqlV then some (pyGetD v.mysqlV K.threadsConnected) else Option.none := by
  simp only [finalPayload]
  rw [lookup_ite_dictSet_ne _ _ _ _ _ (by decide), lookup_ite_dictSet_ne _ _ _ _ _ (by decide),
    lookup_dictSet_ne _ _ _ _ (by decide), lookup_dictSet_ne _ _ _ _ (by decide),
    lookup_dictSet_ne _ _ _ _ (by decide), lookup_dictSet_ne _ _ _ _ (by decide)]
  simp only [bodyAfterOptional]
  rw [lookup_ite_dictSet_ne _ _ _ _ _ (by decide),
    lookup_setIfNeFalse_ne _ _ _ _ (by decide), lookup_setIfNeFalse_ne _ _ _ _ (by decide),
    lookup_setIfNeFalse_ne _ _ _ _ (by decide), lookup_setIfNeFalse_ne _ _ _ _ (by decide),
    lookup_setIfNeFalse_ne _ _ _ _ (by decide),
    lookup_nginxPure_ne _ _ _ (by decide) (by decide),
    lookup_mysqlPure_key7,
    lookup_apachePure_ne _ _ _ (by decide) (by decide) (by decide),
    lookup_setIfNotAbsent_ne _ _ _ _ (by decide), lookup_setIfNotAbsent_ne _ _ _ _ (by decide),
    lookup_setIfNotAbsent_ne _ _ _ _ (by decide),
    lookup_cpuPure _ _ _ hcpu (by simp [specialKeys]),
    lookup_mandatoryPure_absent _ _ _ (by simp [absentKeys])]

/-
  The cycle with a failed hostname lookup, no contributing resource check
  and not the first run: the only configuration in which the rest of the
  cycle still completes.
-/

/-- The payload of a cycle whose hostname resolution failed with
socket.error, on a non-first run with no contributing resource checks. -/
def finalPayloadNoHost (env : Env) (v : Vals) (ss : PyVal) : PyDict :=
  dictSet (dictSet (dictSet (bodyAfterOptional env v false ss) K.uuidKey (.str env.uuidHex))
    K.events (.dict (eventsPure env.eventChecks [])))
    K.resources (.dict (resourcesPure env.resourceChecks []))

theorem metaStage_false (env : Env) (d : PyDict) : metaStage env false d = .ok d := rfl

theorem startupStage_false (env : Env) (d : PyDict) : startupStage env false d = .ok d := rfl

theorem assembleOf_noHost (env : Env) (st st2 : ChecksState) (ss : PyVal)
    (v : Vals)
    (hA : env.apacheStatus = .ok v.apacheV) (hD : env.diskUsage = .ok v.diskV)
    (hL : env.loadAvrgs = .ok v.loadV) (hM : env.memory = .ok v.memV)
    (hMy : env.mysqlStatus = .ok v.mysqlV) (hN : env.networkTraffic = .ok v.netV)
    (hNg : env.nginxStatus = .ok v.nginxV) (hP : env.processes = .ok v.procV)
    (hR : env.rabbitmq = .ok v.rabbitV) (hMo : env.mongodb = .ok v.mongoV)
    (hC : env.couchdb = .ok v.couchV)
    (hgp : getPlugins env.pluginsEnv st = (.ok v.pluginsV, st2))
    (hIo : env.ioStats = .ok v.ioV) (hCp : env.cpuStats = .ok v.cpuV)
    (hGa : env.gangliaData = .ok v.gangliaV) (hDd : env.datadogData = .ok v.datadogV)
    (hCa : env.cassandraData = .ok v.cassandraV)
    (hl : loadOk v.loadV = true) (hm : memOk v.memV = true) (hcpu : cpuOk v.cpuV = true)
    (hap : apacheOk v.apacheV = true) (hmy : mysqlOk v.mysqlV = true)
    (hng : nginxOk v.nginxV = true)
    (hh : env.gethostname = .error .socketError)
    (hAS : anySnap env.resourceChecks = false) :
    assembleOf env st false ss = (.ok (finalPayloadNoHost env v ss), st2) := by
  have hs1 : seqProbes1 env = .ok (v.apacheV, v.diskV, v.loadV, v.memV, v.mysqlV,
      v.netV, v.nginxV, v.procV, v.rabbitV, v.mongoV, v.couchV) := by
    simp only [seqProbes1, hA, hD, hL, hM, hMy, hN, hNg, hP, hR, hMo, hC, ebind]
  have hs2 : seqProbes2 env = .ok (v.ioV, v.cpuV, v.gangliaV, v.datadogV, v.cassandraV) := by
    simp only [seqProbes2, hIo, hCp, hGa, hDd, hCa, ebind]
  have hBe : dictLookup (bodyAfterOptional env v false ss) K.events = some (.dict []) := by
    rw [lookup_bodyAfterOptional_core env v false ss K.events hcpu (by simp),
      lookup_mandatoryPure_events]
  have hBr : dictLookup (bodyAfterOptional env v false ss) K.resources = some (.dict []) := by
    rw [lookup_bodyAfterOptional_core env v false ss K.resources hcpu (by simp),
      lookup_mandatoryPure_resources]
  have h15e : dictLookup (dictSet (bodyAfterOptional env v false ss)
      K.uuidKey (.str env.uuidHex)) K.events = some (.dict []) := by
    rw [lookup_dictSet_ne _ _ _ _ (by decide), hBe]
  have h16r : dictLookup (dictSet (dictSet (bodyAfterOptional env v false ss)
      K.uuidKey (.str env.uuidHex)) K.events (.dict (eventsPure env.eventChecks [])))
      K.resources = some (.dict []) := by
    rw [lookup_dictSet_ne _ _ _ _ (by decide), lookup_dictSet_ne _ _ _ _ (by decide), hBr]
  simp only [assembleOf, hs1, hs2, hgp]
  show (assemble env v false ss, st2) = (.ok (finalPayloadNoHost env v ss), st2)
  simp only [Prod.mk.injEq, and_true]
  simp only [assemble]
  rw [assemblePre_eq env v false ss hl hm hcpu hap hmy hng]
  simp only [ebind]
  rw [hh]
  simp only [hostStage, ebind]
  rw [eventsLoop_ok _ _ _ h15e]
  simp only [ebind]
  rw [resourcesLoop_ok _ _ _ false h16r]
  simp only [ebind, Bool.false_or]
  rw [hAS, metaStage_false]
  simp only [ebind]
  rw [startupStage_false]
  simp only [finalPayloadNoHost]

theorem doChecksRun_noHost (env : Env) (st st2 : ChecksState) (ss : PyVal)
    (v : Vals)
    (hA : env.apacheStatus = .ok v.apacheV) (hD : env.diskUsage = .ok v.diskV)
    (hL : env.loadAvrgs = .ok v.loadV) (hM : env.memory = .ok v.memV)
    (hMy : env.mysqlStatus = .ok v.mysqlV) (hN : env.networkTraffic = .ok v.netV)
    (hNg : env.nginxStatus = .ok v.nginxV) (hP : env.processes = .ok v.procV)
    (hR : env.rabbitmq = .ok v.rabbitV) (hMo : env.mongodb = .ok v.mongoV)
    (hC : env.couchdb = .ok v.couchV)
    (hgp : getPlugins env.pluginsEnv st = (.ok v.pluginsV, st2))
    (hIo : env.ioStats = .ok v.ioV) (hCp : env.cpuStats = .ok v.cpuV)
    (hGa : env.gangliaData = .ok v.gangliaV) (hDd : env.datadogData = .ok v.datadogV)
    (hCa : env.cassandraData = .ok v.cassandraV)
    (hl : loadOk v.loadV = true) (hm : memOk v.memV = true) (hcpu : cpuOk v.cpuV = true)
    (hap : apacheOk v.apacheV = true) (hmy : mysqlOk v.mysqlV = true)
    (hng : nginxOk v.nginxV = true)
    (hh : env.gethostname = .error .socketError)
    (hAS : anySnap env.resourceChecks = false)
    (he : env.emitterExc = Option.none) :
    doChecksRun env st false ss =
      ⟨.ok (), some (.dict (finalPayloadNoHost env v ss)), some env.cfg.checkFreq, st2⟩ := by
  unfold doChecksRun
  rw [assembleOf_noHost env st st2 ss v hA hD hL hM hMy hN hNg hP hR hMo hC hgp
    hIo hCp hGa hDd hCa hl hm hcpu hap hmy hng hh hAS, he]

theorem hasKeyB_finalPayloadNoHost_hostname (env : Env) (v : Vals) (ss : PyVal)
    (hcpu : cpuOk v.cpuV = true) :
    hasKeyB (finalPayloadNoHost env v ss) K.internalHostname = false := by
  simp only [hasKeyB, finalPayloadNoHost]
  rw [lookup_dictSet_ne _ _ _ _ (by decide), lookup_dictSet_ne _ _ _ _ (by decide),
    lookup_dictSet_ne _ _ _ _ (by decide),
    lookup_bodyAfterOptional_core env v false ss K.internalHostname hcpu (by simp),
    lookup_mandatoryPure_absent _ _ _ (by simp [absentKeys])]
  rfl

/-
  Characterization of the events and resources folds.
-/

theorem lookup_eventsPure_frame (evs : List EventCheck) (ed : PyDict) (key : String)
    (h : ∀ ec ∈ evs, ¬ ec.key = key) :
    dictLookup (eventsPure evs ed) key = dictLookup ed key := by
  induction evs generalizing ed with
  | nil => rfl
  | cons ec rest ih =>
      have hstep : eventsPure (ec :: rest) ed =
          eventsPure rest (if pyTruthy ec.result then dictSet ed ec.key ec.result else ed) := rfl
      rw [hstep, ih _ fun e he => h e (List.mem_cons_of_mem _ he)]
      split
      · rw [lookup_dictSet_ne _ _ _ _ (h ec (List.mem_cons_self _ _))]
      · rfl

theorem lookup_resourcesPure_frame (rcs : List ResCheck) (rd : PyDict) (key : String)
    (h : ∀ rc ∈ rcs, ¬ rc.resourceKey = key) :
    dictLookup (resourcesPure rcs rd) key = dictLookup rd key := by
  induction rcs generalizing rd with
  | nil => rfl
  | cons rc rest ih =>
      have hstep : resourcesPure (rc :: rest) rd =
          resourcesPure rest (match rc.snap with
            | some s => dictSet rd rc.resourceKey (resValue s.1 s.2 rc)
            | Option.none => rd) := rfl
      rw [hstep, ih _ fun e he => h e (List.mem_cons_of_mem _ he)]
      cases rc.snap with
      | none => rfl
      | some s => rw [lookup_dictSet_ne _ _ _ _ (h rc (List.mem_cons_self _ _))]

theorem lookup_resourcesPure_char (rcs : List ResCheck) (rd : PyDict)
    (hp : List.Pairwise (fun a b => ¬ a.resourceKey = b.resourceKey) rcs)
    (rc : ResCheck) (hm : rc ∈ rcs)
    (h0 : dictLookup rd rc.resourceKey = Option.none) :
    dictLookup (resourcesPure rcs rd) rc.resourceKey =
      Option.map (fun s => resValue s.1 s.2 rc) rc.snap := by
  induction rcs generalizing rd with
  | nil => simp at hm
  | cons hd rest ih =>
      have hstep : resourcesPure (hd :: rest) rd =
          resourcesPure rest (match hd.snap with
            | some s => dictSet rd hd.resourceKey (resValue s.1 s.2 hd)
            | Option.none => rd) := rfl
      rcases List.mem_cons.mp hm with heq | hmem
      · subst heq
        have hrest : ∀ e ∈ rest, ¬ e.resourceKey = rc.resourceKey := by
          intro e he h2
          exact (List.pairwise_cons.mp hp).1 e he h2.symm
        rw [hstep, lookup_resourcesPure_frame rest _ _ hrest]
        cases hs : rc.snap with
        | none => simpa using h0
        | some s => simp [lookup_dictSet_self]
      · have hne : ¬ hd.resourceKey = rc.resourceKey :=
          (List.pairwise_cons.mp hp).1 rc hmem
        rw [hstep]
        refine ih _ (List.pairwise_cons.mp hp).2 hmem ?_
        cases hs : hd.snap with
        | none => exact h0
        | some s => rw [lookup_dictSet_ne _ _ _ _ hne]; exact h0

theorem resValue_fields (ts data : PyVal) (rc : ResCheck) :
    ∃ rv, resValue ts data rc = .dict rv ∧ dictLookup rv K.ts = some ts ∧
      dictLookup rv K.dataKey = some data ∧
      dictLookup rv K.format_version = some rc.formatVersion ∧
      hasKeyB rv K.format_description = rc.formatDesc.isSome := by
  cases hf : rc.formatDesc with
  | none =>
      refine ⟨[(K.ts, ts), (K.dataKey, data), (K.format_version, rc.formatVersion)],
        ?_, ?_, ?_, ?_, ?_⟩
      · simp [resValue, hf]
      · simp [dictLookup]
      · simp [dictLookup]
      · simp [dictLookup]
      · simp [hasKeyB, dictLookup, hf]
  | some fd =>
      refine ⟨dictSet [(K.ts, ts), (K.dataKey, data), (K.format_version, rc.formatVersion)]
        K.format_description fd, ?_, ?_, ?_, ?_, ?_⟩
      · simp [resValue, hf]
      · simp [dictLookup, dictSet]
      · simp [dictLookup, dictSet]
      · simp [dictLookup, dictSet]
      · simp [hasKeyB, dictLookup, dictSet, hf]

theorem anySnap_iff (rcs : List ResCheck) :
    anySnap rcs = true ↔ ∃ rc ∈ rcs, rc.snap.isSome = true := by
  simp [anySnap, List.any_eq_true]

/-
  Further concrete fixtures for witnesses and counterexamples.
-/

/-- The probe values of stdEnv, bundled. -/
def stdVals : Vals :=
  { apacheV := .pyBool false, diskV := .list [], loadV := .dict stdLoadD,
    memV := .dict stdMemD, mysqlV := .pyBool false, netV := .dict [],
    nginxV := .pyBool false, procV := .list [], rabbitV := .pyBool false,
    mongoV := .pyBool false, couchV := .pyBool false, pluginsV := .pyBool false,
    ioV := .pyBool false, cpuV := .pyBool false, gangliaV := .pyBool false,
    datadogV := .dict [], cassandraV := .dict [] }

/-- A plugin object fixture. -/
def stdPluginObj : PluginObj := ⟨K.one, .pyInt 1⟩

/-- A plugin class whose three-argument constructor succeeds. -/
def clsThree : PluginClass :=
  ⟨.ok stdPluginObj, .error .typeError, .error .typeError⟩

/-- A plugin class accepting only the two-argument constructor. -/
def clsTwo : PluginClass :=
  ⟨.error .typeError, .ok stdPluginObj, .error .typeError⟩

/-- A plugin class accepting only the zero-argument constructor. -/
def clsZero : PluginClass :=
  ⟨.error .typeError, .error .typeError, .ok stdPluginObj⟩

/-- A plugin class whose construction raises at every arity. -/
def clsRaise : PluginClass :=
  ⟨.error .typeError, .error .typeError, .error (.other K.one)⟩

/-- A module that resolves its class. -/
def modOf (cls : PluginClass) : PyModule := ⟨some cls⟩

/-- File name fixtures. -/
def fnGood : String := "good.py"

def fnBad : String := "bad.py"

def fnOther : String := "notes.txt"

/-- A plugin directory whose first artifact raises on import and whose
second artifact is fine: the import error aborts the scan. -/
def failDir : List FileEntry :=
  [⟨fnBad, .error (.other K.one)⟩, ⟨fnGood, .ok (modOf clsThree)⟩]

/-- A plugin directory with one artifact of each constructor arity, one
artifact that raises during construction, and one ineligible file. -/
def mixedDir : List FileEntry :=
  [⟨fnGood, .ok (modOf clsThree)⟩, ⟨fnBad, .ok (modOf clsRaise)⟩,
   ⟨fnOther, .ok (modOf clsZero)⟩]

/-
  Claim theorems.
-/

/-- Claim C3, counterexample: an exception raised while importing an
artifact is NOT caught by getPlugins: it propagates out of the call and
aborts loading of the remaining artifacts (here the valid good.py artifact
is never loaded; the memoized list stays empty). -/
theorem c3_counterexample :
    getPlugins ⟨true, true, failDir⟩ st0 = (.error (.other K.one), ⟨some []⟩) := rfl

/-- Claim C3, amended: an exception raised while resolving the class or
constructing the plugin object is caught and only that artifact is
skipped, loading of the remaining artifacts proceeding and getPlugins
returning normally; but an exception raised while importing an artifact
propagates, aborting the scan and escaping getPlugins. -/
theorem c3_load_isolation (nm : String) (mo : PyModule)
    (rest : List (String × Except Exc PyModule)) (acc : List PluginObj) (e : Exc) :
    (loadLoop ((nm, .error e) :: rest) acc = (acc, some e)) ∧
    (mo.attr = Option.none → loadLoop ((nm, .ok mo) :: rest) acc = loadLoop rest acc) ∧
    (∀ cls e2, mo.attr = some cls → constructPlugin cls = .error e2 →
      loadLoop ((nm, .ok mo) :: rest) acc = loadLoop rest acc) ∧
    (∀ pe objs, pe.hasPluginDirectory = true → pe.directoryExists = true →
      loadLoop (eligiblePlugins pe.files) [] = (objs, Option.none) →
      getPlugins pe ⟨Option.none⟩ = (.ok (runPlugins objs), ⟨some objs⟩)) := by
  refine ⟨rfl, ?_, ?_, ?_⟩
  · intro h
    simp [loadLoop, h]
  · intro cls e2 h1 h2
    simp [loadLoop, h1, h2]
  · intro pe objs h1 h2 h3
    simp [getPlugins, h1, h2, h3]

/-- Claim C3 witness: the amended behavior on concrete artifacts: a
construction failure is skipped while the scan continues, and a directory
whose eligible artifacts all load yields a normal return. -/
theorem c3_load_isolation_witness :
    (loadLoop [(K.one, .error (.other K.one))] [] = ([], some (.other K.one))) ∧
    (loadLoop [(K.one, .ok (modOf clsRaise))] [] = loadLoop [] []) ∧
    (getPlugins ⟨true, true, mixedDir⟩ ⟨Option.none⟩ =
      (.ok (runPlugins [stdPluginObj]), ⟨some [stdPluginObj]⟩)) := by
  refine ⟨(c3_load_isolation K.one (modOf clsRaise) [] [] (.other K.one)).1, ?_, ?_⟩
  · exact (c3_load_isolation K.one (modOf clsRaise) [] [] (.other K.one)).2.2.1
      clsRaise (.other K.one) rfl rfl
  · exact (c3_load_isolation K.one (modOf clsRaise) [] [] (.other K.one)).2.2.2
      ⟨true, true, mixedDir⟩ [stdPluginObj] rfl rfl rfl

/-- Claim C4: getPlugins returns the False sentinel on every call when no
pluginDirectory key is configured or the directory does not exist; with a
usable directory it loads at most once (memoizing the object list in the
state) and on every call returns the mapping from each stored plugin
object to its run result. -/
theorem c4_getPlugins (pe : PluginsEnv) (st : ChecksState) (l objs : List PluginObj) :
    (pe.hasPluginDirectory = false → getPlugins pe st = (.ok (.pyBool false), st)) ∧
    (pe.directoryExists = false → getPlugins pe st = (.ok (.pyBool false), st)) ∧
    (pe.hasPluginDirectory = true → pe.directoryExists = true → st.plugins = some l →
      getPlugins pe st = (.ok (runPlugins l), st)) ∧
    (pe.hasPluginDirectory = true → pe.directoryExists = true → st.plugins = Option.none →
      loadLoop (eligiblePlugins pe.files) [] = (objs, Option.none) →
      getPlugins pe st = (.ok (runPlugins objs), ⟨some objs⟩)) ∧
    runPlugins l = .dict (l.foldl (fun d p => dictSet d p.className p.runResult) []) := by
  refine ⟨?_, ?_, ?_, ?_, rfl⟩
  · intro h
    simp [getPlugins, h]
  · intro h
    rcases Bool.eq_false_or_eq_true pe.hasPluginDirectory with h2 | h2 <;>
      simp [getPlugins, h, h2]
  · intro h1 h2 h3
    simp [getPlugins, h1, h2, h3]
  · intro h1 h2 h3 h4
    simp [getPlugins, h1, h2, h3, h4]

/-- Claim C4 witness: the sentinel cases, the memoized case and the
first-load case on concrete inputs. -/
theorem c4_getPlugins_witness :
    (getPlugins ⟨false, true, []⟩ st0 = (.ok (.pyBool false), st0)) ∧
    (getPlugins ⟨true, false, []⟩ ⟨some [stdPluginObj]⟩ =
      (.ok (.pyBool false), ⟨some [stdPluginObj]⟩)) ∧
    (getPlugins ⟨true, true, []⟩ ⟨some [stdPluginObj]⟩ =
      (.ok (runPlugins [stdPluginObj]), ⟨some [stdPluginObj]⟩)) ∧
    (getPlugins ⟨true, true, mixedDir⟩ st0 =
      (.ok (runPlugins [stdPluginObj]), ⟨some [stdPluginObj]⟩)) := by
  refine ⟨(c4_getPlugins ⟨false, true, []⟩ st0 [] []).1 rfl,
    (c4_getPlugins ⟨true, false, []⟩ ⟨some [stdPluginObj]⟩ [] []).2.1 rfl,
    (c4_getPlugins ⟨true, true, []⟩ ⟨some [stdPluginObj]⟩ [stdPluginObj] []).2.2.1
      rfl rfl rfl,
    (c4_getPlugins ⟨true, true, mixedDir⟩ st0 [] [stdPluginObj]).2.2.2.1 rfl rfl rfl rfl⟩

/-- Claim C5: the constructor probing protocol of getPlugins: the
three-argument constructor is tried first; on TypeError the two-argument
constructor; on TypeError again the zero-argument constructor; and the
first object that a signature yields is the one appended to the stored
plugin list. -/
theorem c5_constructor_protocol (cls : PluginClass) (o : PluginObj) (nm : String)
    (mo : PyModule) (rest : List (String × Except Exc PyModule)) (acc : List PluginObj) :
    (cls.ctor3 = .ok o → constructPlugin cls = .ok o) ∧
    (cls.ctor3 = .error .typeError → cls.ctor2 = .ok o → constructPlugin cls = .ok o) ∧
    (cls.ctor3 = .error .typeError → cls.ctor2 = .error .typeError →
      constructPlugin cls = cls.ctor0) ∧
    (mo.attr = some cls → constructPlugin cls = .ok o →
      loadLoop ((nm, .ok mo) :: rest) acc = loadLoop rest (acc ++ [o])) := by
  refine ⟨?_, ?_, ?_, ?_⟩
  · intro h
    simp [constructPlugin, h]
  · intro h1 h2
    simp [constructPlugin, h1, h2]
  · intro h1 h2
    simp [constructPlugin, h1, h2]
  · intro h1 h2
    simp [loadLoop, h1, h2]

/-- Claim C5 witness: the protocol on one class per arity. -/
theorem c5_constructor_protocol_witness :
    (constructPlugin clsThree = .ok stdPluginObj) ∧
    (constructPlugin clsTwo = .ok stdPluginObj) ∧
    (constructPlugin clsZero = .ok stdPluginObj) ∧
    (loadLoop [(K.one, .ok (modOf clsTwo))] [] = loadLoop [] [stdPluginObj]) := by
  refine ⟨(c5_constructor_protocol clsThree stdPluginObj K.one (modOf clsThree) [] []).1 rfl,
    (c5_constructor_protocol clsTwo stdPluginObj K.one (modOf clsTwo) [] []).2.1 rfl rfl,
    ?_, ?_⟩
  · have h := (c5_constructor_protocol clsZero stdPluginObj K.one (modOf clsZero) [] []).2.2.1
      rfl rfl
    exact h.trans rfl
  · exact (c5_constructor_protocol clsTwo stdPluginObj K.one (modOf clsTwo) [] []).2.2.2
      rfl ((c5_constructor_protocol clsTwo stdPluginObj K.one (modOf clsTwo) [] []).2.1 rfl rfl)

theorem isSome_ite_some_none (b : Bool) (x : PyVal) :
    (if b then some x else (Option.none : Option PyVal)).isSome = b := by
  cases b <;> rfl

/-- Claim C1, counterexample: an exception raised by a probe call is not
caught inside doChecks: the cycle aborts, no payload is produced, nothing
is emitted, nothing is rescheduled, and the plugin loader state is left
untouched (the later probes never ran). -/
theorem c1_counterexample :
    doChecksRun { stdEnv with apacheStatus := .error (.other K.one) } st0 false
      (.pyBool false) = ⟨.error (.other K.one), Option.none, Option.none, st0⟩ ∧
    doChecksRun { stdEnv with loadAvrgs := .ok (.pyBool false) } st0 false
      (.pyBool false) = ⟨.error .typeError, Option.none, Option.none, st0⟩ := ⟨rfl, rfl⟩

/-- Claim C1, amended: when every probe call returns (the mandatory probes
with their required keys, any subset of the optional probes failing by
returning the False sentinel), the cycle completes, the payload carries
the mandatory core fields, and each optional probe contributes its keys
exactly when its result is not the sentinel; probe exceptions, by
contrast, propagate and abort the cycle (isolation lives inside the check
classes, not in doChecks). -/
theorem c1_failure_isolation (env : Env) (st st2 : ChecksState) (fr : Bool) (ss : PyVal)
    (v : Vals) (hn : String)
    (hA : env.apacheStatus = .ok v.apacheV) (hD : env.diskUsage = .ok v.diskV)
    (hL : env.loadAvrgs = .ok v.loadV) (hM : env.memory = .ok v.memV)
    (hMy : env.mysqlStatus = .ok v.mysqlV) (hN : env.networkTraffic = .ok v.netV)
    (hNg : env.nginxStatus = .ok v.nginxV) (hP : env.processes = .ok v.procV)
    (hR : env.rabbitmq = .ok v.rabbitV) (hMo : env.mongodb = .ok v.mongoV)
    (hC : env.couchdb = .ok v.couchV)
    (hgp : getPlugins env.pluginsEnv st = (.ok v.pluginsV, st2))
    (hIo : env.ioStats = .ok v.ioV) (hCp : env.cpuStats = .ok v.cpuV)
    (hGa : env.gangliaData = .ok v.gangliaV) (hDd : env.datadogData = .ok v.datadogV)
    (hCa : env.cassandraData = .ok v.cassandraV)
    (hl : loadOk v.loadV = true) (hm : memOk v.memV = true) (hcpu : cpuOk v.cpuV = true)
    (hap : apacheOk v.apacheV = true) (hmy : mysqlOk v.mysqlV = true)
    (hng : nginxOk v.nginxV = true) (hh : env.gethostname = .ok hn)
    (he : env.emitterExc = Option.none) :
    ∃ pd, doChecksRun env st fr ss =
        ⟨.ok (), some (.dict pd), some env.cfg.checkFreq, st2⟩ ∧
      (∀ k ∈ mandatoryKeys, hasKeyB pd k = true) ∧
      hasKeyB pd K.uuidKey = true ∧
      hasKeyB pd K.internalHostname = true ∧
      hasKeyB pd K.apacheReqPerSec = pyNeFalse v.apacheV ∧
      hasKeyB pd K.apacheBusyWorkers = pyNeFalse v.apacheV ∧
      hasKeyB pd K.apacheIdleWorkers = pyNeFalse v.apacheV ∧
      hasKeyB pd K.mysqlConnections = pyNeFalse v.mysqlV ∧
      hasKeyB pd K.mysqlCreatedTmpDiskTables = pyNeFalse v.mysqlV ∧
      hasKeyB pd K.mysqlMaxUsedConnections = pyNeFalse v.mysqlV ∧
      hasKeyB pd K.mysqlOpenFiles = pyNeFalse v.mysqlV ∧
      hasKeyB pd K.mysqlSlowQueries = pyNeFalse v.mysqlV ∧
      hasKeyB pd K.mysqlTableLocksWaited = pyNeFalse v.mysqlV ∧
      hasKeyB pd K.mysqlThreadsConnected = pyNeFalse v.mysqlV ∧
      hasKeyB pd K.nginxConnections = pyNeFalse v.nginxV ∧
      hasKeyB pd K.nginxReqPerSec = pyNeFalse v.nginxV ∧
      hasKeyB pd K.rabbitMQ = pyNeFalse v.rabbitV ∧
      hasKeyB pd K.mongoDB = pyNeFalse v.mongoV ∧
      hasKeyB pd K.couchDB = pyNeFalse v.couchV ∧
      hasKeyB pd K.plugins = pyNeFalse v.pluginsV ∧
      hasKeyB pd K.ioStats = pyNeFalse v.ioV ∧
      hasKeyB pd K.ganglia = (!isFalseLit v.gangliaV && !isNoneLit v.gangliaV) ∧
      hasKeyB pd K.datadog = (!isFalseLit v.datadogV && !isNoneLit v.datadogV) ∧
      hasKeyB pd K.cassandra = (!isFalseLit v.cassandraV && !isNoneLit v.cassandraV) := by
  refine ⟨finalPayload env v hn fr ss,
    doChecksRun_ok env st st2 fr ss v hn hA hD hL hM hMy hN hNg hP hR hMo hC hgp
      hIo hCp hGa hDd hCa hl hm hcpu hap hmy hng hh he,
    ?_, ?_, ?_, ?_, ?_, ?_, ?_, ?_, ?_, ?_, ?_, ?_, ?_, ?_, ?_, ?_, ?_, ?_, ?_, ?_,
    ?_, ?_, ?_⟩
  · intro k hk
    exact hasKeyB_finalPayload_mono env v hn fr ss k (hasKeyB_mandatoryPure env v k hk)
  · simp only [hasKeyB, lookup_final_uuid env v hn fr ss, Option.isSome_some]
  · simp only [hasKeyB, lookup_final_internalHostname env v hn fr ss, Option.isSome_some]
  · simp only [hasKeyB, lookup_final_apacheReqPerSec env v hn fr ss hcpu, isSome_ite_some_none]
  · simp only [hasKeyB, lookup_final_apacheBusyWorkers env v hn fr ss hcpu, isSome_ite_some_none]
  · simp only [hasKeyB, lookup_final_apacheIdleWorkers env v hn fr ss hcpu, isSome_ite_some_none]
  · simp only [hasKeyB, lookup_final_mysqlConnections env v hn fr ss hcpu, isSome_ite_some_none]
  · simp only [hasKeyB, lookup_final_mysqlCreatedTmpDiskTables env v hn fr ss hcpu,
      isSome_ite_some_none]
  · simp only [hasKeyB, lookup_final_mysqlMaxUsedConnections env v hn fr ss hcpu,
      isSome_ite_some_none]
  · simp only [hasKeyB, lookup_final_mysqlOpenFiles env v hn fr ss hcpu, isSome_ite_some_none]
  · simp only [hasKeyB, lookup_final_mysqlSlowQueries env v hn fr ss hcpu, isSome_ite_some_none]
  · simp only [hasKeyB, lookup_final_mysqlTableLocksWaited env v hn fr ss hcpu,
      isSome_ite_some_none]
  · simp only [hasKeyB, lookup_final_mysqlThreadsConnected env v hn fr ss hcpu,
      isSome_ite_some_none]
  · simp only [hasKeyB, lookup_final_nginxConnections env v hn fr ss hcpu, isSome_ite_some_none]
  · simp only [hasKeyB, lookup_final_nginxReqPerSec env v hn fr ss hcpu, isSome_ite_some_none]
  · simp only [hasKeyB, lookup_final_rabbitMQ env v hn fr ss hcpu, isSome_ite_some_none]
  · simp only [hasKeyB, lookup_final_mongoDB env v hn fr ss hcpu, isSome_ite_some_none]
  · simp only [hasKeyB, lookup_final_couchDB env v hn fr ss hcpu, isSome_ite_some_none]
  · simp only [hasKeyB, lookup_final_plugins env v hn fr ss hcpu, isSome_ite_some_none]
  · simp only [hasKeyB, lookup_final_ioStats env v hn fr ss hcpu, isSome_ite_some_none]
  · simp only [hasKeyB, lookup_final_ganglia env v hn fr ss hcpu, isSome_ite_some_none]
  · simp only [hasKeyB, lookup_final_datadog env v hn fr ss hcpu, isSome_ite_some_none]
  · simp only [hasKeyB, lookup_final_cassandra env v hn fr ss hcpu, isSome_ite_some_none]

/-- Claim C1 witness: a cycle in which every optional probe fails with the
sentinel completes with the mandatory fields present and the optional keys
absent. -/
theorem c1_failure_isolation_witness :
    ∃ pd, doChecksRun stdEnv st0 false (.pyBool false) =
        ⟨.ok (), some (.dict pd), some (.pyInt 60), st0⟩ ∧
      hasKeyB pd K.diskUsage = true ∧ hasKeyB pd K.rabbitMQ = false ∧
      hasKeyB pd K.apacheReqPerSec = false ∧ hasKeyB pd K.datadog = true := by
  obtain ⟨pd, h0, hman, _, _, ha1, _, _, _, _, _, _, _, _, _, _, _, hrb, _, _, _, _, _,
      hdd, _⟩ :=
    c1_failure_isolation stdEnv st0 st0 false (.pyBool false) stdVals K.host
      rfl rfl rfl rfl rfl rfl rfl rfl rfl rfl rfl rfl rfl rfl rfl rfl rfl
      rfl rfl rfl rfl rfl rfl rfl rfl
  exact ⟨pd, h0, hman K.diskUsage (by simp [mandatoryKeys]), hrb.trans rfl,
    ha1.trans rfl, hdd.trans rfl⟩

/-- Claim C2, counterexample: when the emitter raises, sc.enter is NOT
called: the exception propagates out of doChecks and the next cycle is
never scheduled, even though the payload was assembled and the emitter was
invoked with it. -/
theorem c2_counterexample :
    (doChecksRun { stdEnv with emitterExc := some (.other K.one) } st0 false
      (.pyBool false)).scheduled = Option.none ∧
    (doChecksRun { stdEnv with emitterExc := some (.other K.one) } st0 false
      (.pyBool false)).emitted.isSome = true ∧
    (doChecksRun { stdEnv with emitterExc := some (.other K.one) } st0 false
      (.pyBool false)).result = .error (.other K.one) := ⟨rfl, rfl, rfl⟩

/-- Claim C2, amended: after payload assembly the emitter is invoked and
then sc.enter is called with the checkFreq delay; the rescheduling happens
exactly when the emitter call returns normally, while an emitter exception
propagates out of doChecks and skips the sc.enter call. -/
theorem c2_reschedule (env : Env) (st st2 : ChecksState) (fr : Bool) (ss : PyVal)
    (pd : PyDict) (hA : assembleOf env st fr ss = (.ok pd, st2)) :
    (env.emitterExc = Option.none →
      doChecksRun env st fr ss = ⟨.ok (), some (.dict pd), some env.cfg.checkFreq, st2⟩) ∧
    (∀ e, env.emitterExc = some e →
      doChecksRun env st fr ss = ⟨.error e, some (.dict pd), Option.none, st2⟩) := by
  constructor
  · intro he
    unfold doChecksRun
    rw [hA, he]
  · intro e he
    unfold doChecksRun
    rw [hA, he]

/-- Claim C2 witness: on a concrete cycle, rescheduling happens with the
configured delay when the emitter returns, and is skipped when it raises. -/
theorem c2_reschedule_witness :
    (doChecksRun stdEnv st0 false (.pyBool false)).scheduled = some (.pyInt 60) ∧
    (doChecksRun { stdEnv with emitterExc := some (.other K.one) } st0 false
      (.pyBool false)).scheduled = Option.none := by
  constructor
  · have h := (c2_reschedule stdEnv st0 st0 false (.pyBool false)
      (finalPayload stdEnv stdVals K.host false (.pyBool false))
      (assembleOf_ok stdEnv st0 st0 false (.pyBool false) stdVals K.host
        rfl rfl rfl rfl rfl rfl rfl rfl rfl rfl rfl rfl rfl rfl rfl rfl rfl
        rfl rfl rfl rfl rfl rfl rfl)).1 rfl
    rw [h]
    rfl
  · have h := (c2_reschedule { stdEnv with emitterExc := some (.other K.one) } st0 st0
      false (.pyBool false)
      (finalPayload { stdEnv with emitterExc := some (.other K.one) } stdVals K.host
        false (.pyBool false))
      (assembleOf_ok { stdEnv with emitterExc := some (.other K.one) } st0 st0 false
        (.pyBool false) stdVals K.host
        rfl rfl rfl rfl rfl rfl rfl rfl rfl rfl rfl rfl rfl rfl rfl rfl rfl
        rfl rfl rfl rfl rfl rfl rfl)).2 (.other K.one) rfl
    rw [h]

/-- Claim C6, counterexample: getPlugins on an existing but empty plugin
directory returns the empty mapping, which is not equal to False, so the
payload DOES contain a plugins key (bound to the empty dictionary) — the
presence test `plugins != False` does not exclude the empty mapping. -/
theorem c6_counterexample :
    getPlugins ⟨true, true, []⟩ st0 = (.ok (.dict []), ⟨some []⟩) ∧
    hasKeyB (pdOf (doChecksRun { stdEnv with pluginsEnv := ⟨true, true, []⟩ } st0 false
      (.pyBool false))) K.plugins = true := ⟨rfl, rfl⟩

/-- Claim C6, amended: the plugins key is present in the payload exactly
when the getPlugins result is not equal to False — so the empty mapping,
being different from False, still contributes the key; likewise each
optional service result contributes its keys exactly when its value is
not the sentinel, the test being on the returned value, not on
configuration flags. -/
theorem c6_value_presence (env : Env) (st st2 : ChecksState) (fr : Bool) (ss : PyVal)
    (v : Vals) (hn : String)
    (hA : env.apacheStatus = .ok v.apacheV) (hD : env.diskUsage = .ok v.diskV)
    (hL : env.loadAvrgs = .ok v.loadV) (hM : env.memory = .ok v.memV)
    (hMy : env.mysqlStatus = .ok v.mysqlV) (hN : env.networkTraffic = .ok v.netV)
    (hNg : env.nginxStatus = .ok v.nginxV) (hP : env.processes = .ok v.procV)
    (hR : env.rabbitmq = .ok v.rabbitV) (hMo : env.mongodb = .ok v.mongoV)
    (hC : env.couchdb = .ok v.couchV)
    (hgp : getPlugins env.pluginsEnv st = (.ok v.pluginsV, st2))
    (hIo : env.ioStats = .ok v.ioV) (hCp : env.cpuStats = .ok v.cpuV)
    (hGa : env.gangliaData = .ok v.gangliaV) (hDd : env.datadogData = .ok v.datadogV)
    (hCa : env.cassandraData = .ok v.cassandraV)
    (hl : loadOk v.loadV = true) (hm : memOk v.memV = true) (hcpu : cpuOk v.cpuV = true)
    (hap : apacheOk v.apacheV = true) (hmy : mysqlOk v.mysqlV = true)
    (hng : nginxOk v.nginxV = true) (hh : env.gethostname = .ok hn)
    (he : env.emitterExc = Option.none) :
    ∃ pd, doChecksRun env st fr ss =
        ⟨.ok (), some (.dict pd), some env.cfg.checkFreq, st2⟩ ∧
      dictLookup pd K.plugins = (if pyNeFalse v.pluginsV then some v.pluginsV
        else Option.none) ∧
      dictLookup pd K.rabbitMQ = (if pyNeFalse v.rabbitV then some v.rabbitV
        else Option.none) ∧
      dictLookup pd K.mongoDB = (if pyNeFalse v.mongoV then some v.mongoV
        else Option.none) ∧
      dictLookup pd K.couchDB = (if pyNeFalse v.couchV then some v.couchV
        else Option.none) ∧
      dictLookup pd K.ioStats = (if pyNeFalse v.ioV then some v.ioV
        else Option.none) ∧
      hasKeyB pd K.apacheReqPerSec = pyNeFalse v.apacheV ∧
      hasKeyB pd K.mysqlConnections = pyNeFalse v.mysqlV ∧
      hasKeyB pd K.nginxConnections = pyNeFalse v.nginxV := by
  refine ⟨finalPayload env v hn fr ss,
    doChecksRun_ok env st st2 fr ss v hn hA hD hL hM hMy hN hNg hP hR hMo hC hgp
      hIo hCp hGa hDd hCa hl hm hcpu hap hmy hng hh he,
    lookup_final_plugins env v hn fr ss hcpu,
    lookup_final_rabbitMQ env v hn fr ss hcpu,
    lookup_final_mongoDB env v hn fr ss hcpu,
    lookup_final_couchDB env v hn fr ss hcpu,
    lookup_final_ioStats env v hn fr ss hcpu, ?_, ?_, ?_⟩
  · simp only [hasKeyB, lookup_final_apacheReqPerSec env v hn fr ss hcpu, isSome_ite_some_none]
  · simp only [hasKeyB, lookup_final_mysqlConnections env v hn fr ss hcpu, isSome_ite_some_none]
  · simp only [hasKeyB, lookup_final_nginxConnections env v hn fr ss hcpu, isSome_ite_some_none]

/-- Claim C6 witness: the empty plugin directory cycle: getPlugins yields
the empty mapping and the payload carries plugins bound to it. -/
theorem c6_value_presence_witness :
    ∃ pd, doChecksRun { stdEnv with pluginsEnv := ⟨true, true, []⟩ } st0 false
        (.pyBool false) = ⟨.ok (), some (.dict pd), some (.pyInt 60), ⟨some []⟩⟩ ∧
      dictLookup pd K.plugins = some (.dict []) := by
  obtain ⟨pd, h0, hpl, _⟩ :=
    c6_value_presence { stdEnv with pluginsEnv := ⟨true, true, []⟩ } st0 ⟨some []⟩
      false (.pyBool false) { stdVals with pluginsV := .dict [] } K.host
      rfl rfl rfl rfl rfl rfl rfl rfl rfl rfl rfl rfl rfl rfl rfl rfl rfl
      rfl rfl rfl rfl rfl rfl rfl rfl
  exact ⟨pd, h0, hpl.trans rfl⟩

/-- Claim C7, counterexample: a hostname resolution failure is caught and
the field omitted, but on a first run the startup event block reads
checksData of internalHostname unconditionally, so the cycle aborts with a
KeyError: nothing is emitted and the next cycle is never scheduled.  The
same happens when a resource check contributed and the meta block reads
the missing hostname. -/
theorem c7_counterexample :
    doChecksRun { stdEnv with gethostname := .error .socketError } st0 true
      (.pyBool false) =
      ⟨.error (.keyError K.internalHostname), Option.none, Option.none, st0⟩ ∧
    doChecksRun { stdEnv with
        gethostname := .error .socketError
        resourceChecks := [⟨K.one, some (.pyInt 1, .pyInt 2), Option.none, .pyInt 1⟩] } st0
      false (.pyBool false) =
      ⟨.error (.keyError K.internalHostname), Option.none, Option.none, st0⟩ := ⟨rfl, rfl⟩

/-- Claim C7, amended: a hostname resolution failure (socket.error) is
logged and non-fatal — the internalHostname field is omitted and the rest
of the cycle, including delivery and rescheduling, completes — provided the
run is not the first one and no resource check contributed a snapshot;
otherwise the later unconditional reads of the missing field raise a
KeyError that aborts the cycle. -/
theorem c7_hostname_omitted (env : Env) (st st2 : ChecksState) (ss : PyVal) (v : Vals)
    (hA : env.apacheStatus = .ok v.apacheV) (hD : env.diskUsage = .ok v.diskV)
    (hL : env.loadAvrgs = .ok v.loadV) (hM : env.memory = .ok v.memV)
    (hMy : env.mysqlStatus = .ok v.mysqlV) (hN : env.networkTraffic = .ok v.netV)
    (hNg : env.nginxStatus = .ok v.nginxV) (hP : env.processes = .ok v.procV)
    (hR : env.rabbitmq = .ok v.rabbitV) (hMo : env.mongodb = .ok v.mongoV)
    (hC : env.couchdb = .ok v.couchV)
    (hgp : getPlugins env.pluginsEnv st = (.ok v.pluginsV, st2))
    (hIo : env.ioStats = .ok v.ioV) (hCp : env.cpuStats = .ok v.cpuV)
    (hGa : env.gangliaData = .ok v.gangliaV) (hDd : env.datadogData = .ok v.datadogV)
    (hCa : env.cassandraData = .ok v.cassandraV)
    (hl : loadOk v.loadV = true) (hm : memOk v.memV = true) (hcpu : cpuOk v.cpuV = true)
    (hap : apacheOk v.apacheV = true) (hmy : mysqlOk v.mysqlV = true)
    (hng : nginxOk v.nginxV = true)
    (hh : env.gethostname = .error .socketError)
    (hAS : anySnap env.resourceChecks = false)
    (he : env.emitterExc = Option.none) :
    ∃ pd, doChecksRun env st false ss =
        ⟨.ok (), some (.dict pd), some env.cfg.checkFreq, st2⟩ ∧
      hasKeyB pd K.internalHostname = false := by
  refine ⟨finalPayloadNoHost env v ss,
    doChecksRun_noHost env st st2 ss v hA hD hL hM hMy hN hNg hP hR hMo hC hgp
      hIo hCp hGa hDd hCa hl hm hcpu hap hmy hng hh hAS he,
    hasKeyB_finalPayloadNoHost_hostname env v ss hcpu⟩

/-- Claim C7 witness: the concrete non-first-run cycle with a failed
hostname lookup completes, schedules the next cycle and omits the field. -/
theorem c7_hostname_omitted_witness :
    ∃ pd, doChecksRun { stdEnv with gethostname := .error .socketError } st0 false
        (.pyBool false) = ⟨.ok (), some (.dict pd), some (.pyInt 60), st0⟩ ∧
      hasKeyB pd K.internalHostname = false := by
  obtain ⟨pd, h0, h1⟩ :=
    c7_hostname_omitted { stdEnv with gethostname := .error .socketError } st0 st0
      (.pyBool false) stdVals
      rfl rfl rfl rfl rfl rfl rfl rfl rfl rfl rfl rfl rfl rfl rfl rfl rfl
      rfl rfl rfl rfl rfl rfl rfl rfl rfl
  exact ⟨pd, h0, h1⟩

/-- Claim C8: a resource check contributes an entry under its RESOURCE_KEY
in the resources block exactly when its popped snapshot is present, the
entry holding the snapshot timestamp, data and format version plus the
format description exactly when describe_format_if_needed returned one;
and a single meta block carrying the API key and the resolved hostname is
attached exactly when at least one resource check contributed. -/
theorem c8_resources (env : Env) (st st2 : ChecksState) (fr : Bool) (ss : PyVal)
    (v : Vals) (hn : String)
    (hA : env.apacheStatus = .ok v.apacheV) (hD : env.diskUsage = .ok v.diskV)
    (hL : env.loadAvrgs = .ok v.loadV) (hM : env.memory = .ok v.memV)
    (hMy : env.mysqlStatus = .ok v.mysqlV) (hN : env.networkTraffic = .ok v.netV)
    (hNg : env.nginxStatus = .ok v.nginxV) (hP : env.processes = .ok v.procV)
    (hR : env.rabbitmq = .ok v.rabbitV) (hMo : env.mongodb = .ok v.mongoV)
    (hC : env.couchdb = .ok v.couchV)
    (hgp : getPlugins env.pluginsEnv st = (.ok v.pluginsV, st2))
    (hIo : env.ioStats = .ok v.ioV) (hCp : env.cpuStats = .ok v.cpuV)
    (hGa : env.gangliaData = .ok v.gangliaV) (hDd : env.datadogData = .ok v.datadogV)
    (hCa : env.cassandraData = .ok v.cassandraV)
    (hl : loadOk v.loadV = true) (hm : memOk v.memV = true) (hcpu : cpuOk v.cpuV = true)
    (hap : apacheOk v.apacheV = true) (hmy : mysqlOk v.mysqlV = true)
    (hng : nginxOk v.nginxV = true) (hh : env.gethostname = .ok hn)
    (he : env.emitterExc = Option.none)
    (hpair : List.Pairwise (fun a b => ¬ a.resourceKey = b.resourceKey) env.resourceChecks)
    (hmeta : ∀ rc ∈ env.resourceChecks, ¬ rc.resourceKey = K.meta) :
    ∃ pd R, doChecksRun env st fr ss =
        ⟨.ok (), some (.dict pd), some env.cfg.checkFreq, st2⟩ ∧
      dictLookup pd K.resources = some (.dict R) ∧
      (∀ rc ∈ env.resourceChecks,
        dictLookup R rc.resourceKey = Option.map (fun s => resValue s.1 s.2 rc) rc.snap) ∧
      (∀ ts data rc, ∃ rv, resValue ts data rc = .dict rv ∧
        dictLookup rv K.ts = some ts ∧ dictLookup rv K.dataKey = some data ∧
        dictLookup rv K.format_version = some rc.formatVersion ∧
        hasKeyB rv K.format_description = rc.formatDesc.isSome) ∧
      hasKeyB R K.meta = anySnap env.resourceChecks ∧
      (anySnap env.resourceChecks = true ↔
        ∃ rc ∈ env.resourceChecks, rc.snap.isSome = true) ∧
      (anySnap env.resourceChecks = true →
        dictLookup R K.meta = some (metaVal env.cfg (.str hn))) := by
  have hbm : dictLookup (resourcesPure env.resourceChecks []) K.meta = Option.none := by
    rw [lookup_resourcesPure_frame _ _ _ hmeta]
    rfl
  refine ⟨finalPayload env v hn fr ss,
    if anySnap env.resourceChecks then
      dictSet (resourcesPure env.resourceChecks []) K.meta (metaVal env.cfg (.str hn))
    else resourcesPure env.resourceChecks [],
    doChecksRun_ok env st st2 fr ss v hn hA hD hL hM hMy hN hNg hP hR hMo hC hgp
      hIo hCp hGa hDd hCa hl hm hcpu hap hmy hng hh he,
    lookup_final_resources env v hn fr ss, ?_, ?_, ?_, anySnap_iff env.resourceChecks, ?_⟩
  · intro rc hmem
    have hbase := lookup_resourcesPure_char env.resourceChecks [] hpair rc hmem rfl
    rcases Bool.eq_false_or_eq_true (anySnap env.resourceChecks) with hAS | hAS <;>
      rw [hAS]
    · rw [if_pos rfl, lookup_dictSet_ne _ _ _ _ fun h2 => hmeta rc hmem h2.symm, hbase]
    · rw [if_neg (by simp), hbase]
  · intro ts data rc
    exact resValue_fields ts data rc
  · rcases Bool.eq_false_or_eq_true (anySnap env.resourceChecks) with hAS | hAS <;>
      rw [hAS]
    · rw [if_pos rfl]
      simp [hasKeyB, lookup_dictSet_self]
    · rw [if_neg (by simp)]
      simp only [hasKeyB, hbm, Option.isSome_none]
  · intro hAS
    rw [hAS, if_pos rfl, lookup_dictSet_self]

/-- Claim C8 witness: a cycle with one contributing resource check and one
silent one: the contributing check gets its entry, the silent one none,
and the meta block is present. -/
theorem c8_resources_witness :
    ∃ pd R, doChecksRun { stdEnv with
        resourceChecks := [⟨K.one, some (.pyInt 1, .pyInt 2), Option.none, .pyInt 3⟩,
          ⟨K.five, Option.none, Option.none, .pyInt 3⟩] } st0 false (.pyBool false) =
        ⟨.ok (), some (.dict pd), some (.pyInt 60), st0⟩ ∧
      dictLookup pd K.resources = some (.dict R) ∧
      hasKeyB R K.meta = true := by
  obtain ⟨pd, R, h0, h1, _, _, h4, _, _⟩ :=
    c8_resources { stdEnv with
        resourceChecks := [⟨K.one, some (.pyInt 1, .pyInt 2), Option.none, .pyInt 3⟩,
          ⟨K.five, Option.none, Option.none, .pyInt 3⟩] } st0 st0 false (.pyBool false)
      stdVals K.host
      rfl rfl rfl rfl rfl rfl rfl rfl rfl rfl rfl rfl rfl rfl rfl rfl rfl
      rfl rfl rfl rfl rfl rfl rfl rfl
      (by simp [List.pairwise_cons]) (by intro rc hm; fin_cases hm <;> simp)
  exact ⟨pd, R, h0, h1, h4.trans rfl⟩

/-- Claim C9: on a first run the payload carries systemStats equal to the
caller-supplied argument and the events dictionary holds, under the System
key, exactly one startup record with the api key, host, timestamp and the
agent startup event type; on a non-first run neither the systemStats field
nor the System entry is present. -/
theorem c9_firstRun (env : Env) (st st2 : ChecksState) (ss : PyVal)
    (v : Vals) (hn : String)
    (hA : env.apacheStatus = .ok v.apacheV) (hD : env.diskUsage = .ok v.diskV)
    (hL : env.loadAvrgs = .ok v.loadV) (hM : env.memory = .ok v.memV)
    (hMy : env.mysqlStatus = .ok v.mysqlV) (hN : env.networkTraffic = .ok v.netV)
    (hNg : env.nginxStatus = .ok v.nginxV) (hP : env.processes = .ok v.procV)
    (hR : env.rabbitmq = .ok v.rabbitV) (hMo : env.mongodb = .ok v.mongoV)
    (hC : env.couchdb = .ok v.couchV)
    (hgp : getPlugins env.pluginsEnv st = (.ok v.pluginsV, st2))
    (hIo : env.ioStats = .ok v.ioV) (hCp : env.cpuStats = .ok v.cpuV)
    (hGa : env.gangliaData = .ok v.gangliaV) (hDd : env.datadogData = .ok v.datadogV)
    (hCa : env.cassandraData = .ok v.cassandraV)
    (hl : loadOk v.loadV = true) (hm : memOk v.memV = true) (hcpu : cpuOk v.cpuV = true)
    (hap : apacheOk v.apacheV = true) (hmy : mysqlOk v.mysqlV = true)
    (hng : nginxOk v.nginxV = true) (hh : env.gethostname = .ok hn)
    (he : env.emitterExc = Option.none)
    (hsys : ∀ ec ∈ env.eventChecks, ¬ ec.key = K.SystemKey) :
    (∃ pd ed, doChecksRun env st true ss =
        ⟨.ok (), some (.dict pd), some env.cfg.checkFreq, st2⟩ ∧
      dictLookup pd K.systemStats = some ss ∧
      dictLookup pd K.events = some (.dict ed) ∧
      dictLookup ed K.SystemKey = some (startupRecord env.cfg (.str hn) env.startupTs) ∧
      startupRecord env.cfg (.str hn) env.startupTs =
        .list [.dict [(K.api_key, env.cfg.apiKey), (K.host, .str hn),
          (K.timestamp, .pyInt env.startupTs), (K.event_type, .str K.agentStartup)]]) ∧
    (∃ pd ed, doChecksRun env st false ss =
        ⟨.ok (), some (.dict pd), some env.cfg.checkFreq, st2⟩ ∧
      dictLookup pd K.systemStats = Option.none ∧
      dictLookup pd K.events = some (.dict ed) ∧
      dictLookup ed K.SystemKey = Option.none) := by
  constructor
  · refine ⟨finalPayload env v hn true ss,
      dictSet (eventsPure env.eventChecks []) K.SystemKey
        (startupRecord env.cfg (.str hn) env.startupTs),
      doChecksRun_ok env st st2 true ss v hn hA hD hL hM hMy hN hNg hP hR hMo hC hgp
        hIo hCp hGa hDd hCa hl hm hcpu hap hmy hng hh he, ?_, ?_,
      lookup_dictSet_self _ _ _, rfl⟩
    · rw [lookup_final_systemStats env v hn true ss hcpu]
      rfl
    · rw [lookup_final_events env v hn true ss]
      rfl
  · refine ⟨finalPayload env v hn false ss, eventsPure env.eventChecks [],
      doChecksRun_ok env st st2 false ss v hn hA hD hL hM hMy hN hNg hP hR hMo hC hgp
        hIo hCp hGa hDd hCa hl hm hcpu hap hmy hng hh he, ?_, ?_, ?_⟩
    · rw [lookup_final_systemStats env v hn false ss hcpu]
      rfl
    · rw [lookup_final_events env v hn false ss]
      rfl
    · rw [lookup_eventsPure_frame _ _ _ hsys]
      rfl

/-- Claim C9 witness: the first-run and non-first-run cycles on the
standard environment. -/
theorem c9_firstRun_witness :
    (∃ pd ed, doChecksRun stdEnv st0 true (.pyInt 9) =
        ⟨.ok (), some (.dict pd), some (.pyInt 60), st0⟩ ∧
      dictLookup pd K.systemStats = some (.pyInt 9) ∧
      dictLookup pd K.events = some (.dict ed) ∧
      dictLookup ed K.SystemKey = some (startupRecord stdCfg (.str K.host) 42)) ∧
    (∃ pd ed, doChecksRun stdEnv st0 false (.pyInt 9) =
        ⟨.ok (), some (.dict pd), some (.pyInt 60), st0⟩ ∧
      dictLookup pd K.systemStats = Option.none ∧
      dictLookup pd K.events = some (.dict ed) ∧
      dictLookup ed K.SystemKey = Option.none) := by
  obtain ⟨⟨pd1, ed1, h1, h2, h3, h4, h5⟩, ⟨pd2, ed2, g1, g2, g3, g4⟩⟩ :=
    c9_firstRun stdEnv st0 st0 (.pyInt 9) stdVals K.host
      rfl rfl rfl rfl rfl rfl rfl rfl rfl rfl rfl rfl rfl rfl rfl rfl rfl
      rfl rfl rfl rfl rfl rfl rfl rfl (by intro ec hm; simp [stdEnv] at hm)
  exact ⟨⟨pd1, ed1, h1, h2, h3, h4⟩, ⟨pd2, ed2, g1, g2, g3, g4⟩⟩

/-
  Machinery for claim C10: every payload that reaches the emitter carries
  dictionary-valued events and resources fields, whatever the probe
  outcomes were.
-/

/-- The payload invariant: events and resources are dictionary-valued. -/
def InvER (d : PyDict) : Prop :=
  (∃ ed, dictLookup d K.events = some (.dict ed)) ∧
  (∃ rd, dictLookup d K.resources = some (.dict rd))

/-- A cpuStats result that does not collide with the events and resources
keys (the merge block copies every key of a dictionary result). -/
def cpuNoClash : PyVal → Bool
  | .dict cd => !hasKeyB cd K.events && !hasKeyB cd K.resources
  | _ => true

/-- Lift of cpuNoClash to the probe call outcome. -/
def cpuExcOk : Except Exc PyVal → Bool
  | .ok c => cpuNoClash c
  | .error _ => true

theorem InvER_dictSet_ne (d : PyDict) (k : String) (v : PyVal)
    (h1 : ¬ k = K.events) (h2 : ¬ k = K.resources) (h : InvER d) :
    InvER (dictSet d k v) := by
  obtain ⟨⟨ed, he⟩, ⟨rd, hr⟩⟩ := h
  exact ⟨⟨ed, by rw [lookup_dictSet_ne _ _ _ _ h1, he]⟩,
    ⟨rd, by rw [lookup_dictSet_ne _ _ _ _ h2, hr]⟩⟩

theorem InvER_setIfNeFalse (k : String) (v : PyVal) (d : PyDict)
    (h1 : ¬ k = K.events) (h2 : ¬ k = K.resources) (h : InvER d) :
    InvER (setIfNeFalse k v d) := by
  unfold setIfNeFalse
  split
  · exact InvER_dictSet_ne d k v h1 h2 h
  · exact h

theorem InvER_setIfNotAbsent (k : String) (v : PyVal) (d : PyDict)
    (h1 : ¬ k = K.events) (h2 : ¬ k = K.resources) (h : InvER d) :
    InvER (setIfNotAbsent k v d) := by
  unfold setIfNotAbsent
  split
  · exact h
  · exact InvER_dictSet_ne d k v h1 h2 h

theorem InvER_ite_dictSet (b : Bool) (d : PyDict) (k : String) (v : PyVal)
    (h1 : ¬ k = K.events) (h2 : ¬ k = K.resources) (h : InvER d) :
    InvER (if b then dictSet d k v else d) := by
  split
  · exact InvER_dictSet_ne d k v h1 h2 h
  · exact h

theorem mandatoryStage_inv (env : Env) (v : Vals) (d0 : PyDict)
    (h : mandatoryStage env v = .ok d0) : InvER d0 := by
  unfold mandatoryStage at h
  obtain ⟨x1, e1, h⟩ := ebind_ok _ _ _ h
  obtain ⟨x2, e2, h⟩ := ebind_ok _ _ _ h
  obtain ⟨x3, e3, h⟩ := ebind_ok _ _ _ h
  obtain ⟨x4, e4, h⟩ := ebind_ok _ _ _ h
  obtain ⟨x5, e5, h⟩ := ebind_ok _ _ _ h
  obtain ⟨x6, e6, h⟩ := ebind_ok _ _ _ h
  obtain ⟨x7, e7, h⟩ := ebind_ok _ _ _ h
  obtain ⟨x8, e8, h⟩ := ebind_ok _ _ _ h
  simp only [Except.ok.injEq] at h
  subst h
  exact ⟨⟨[], by simp [dictLookup]⟩, ⟨[], by simp [dictLookup]⟩⟩

theorem cpuStage_inv (c : PyVal) (d d1 : PyDict) (hok : cpuStage c d = .ok d1)
    (hc : cpuNoClash c = true) (h : InvER d) : InvER d1 := by
  unfold cpuStage at hok
  split at hok
  · simp only [Except.ok.injEq] at hok
    subst hok
    exact h
  · cases c with
    | dict cd =>
        simp only [Except.ok.injEq] at hok
        subst hok
        simp only [cpuNoClash, Bool.and_eq_true, Bool.not_eq_true'] at hc
        obtain ⟨⟨ed, he⟩, ⟨rd, hr⟩⟩ := h
        exact ⟨⟨ed, by rw [dictLookup_dictUpdate_of_not_mem _ _ _ hc.1, he]⟩,
          ⟨rd, by rw [dictLookup_dictUpdate_of_not_mem _ _ _ hc.2, hr]⟩⟩
    | pyNone => simp at hok
    | pyBool b => simp at hok
    | pyInt n => simp at hok
    | str s => simp at hok
    | list vs => simp at hok

theorem apacheStage_inv (a : PyVal) (d d2 : PyDict) (hok : apacheStage a d = .ok d2)
    (h : InvER d) : InvER d2 := by
  unfold apacheStage at hok
  split at hok
  · obtain ⟨x1, e1, hok⟩ := ebind_ok _ _ _ hok
    obtain ⟨x2, e2, hok⟩ := ebind_ok _ _ _ hok
    obtain ⟨x3, e3, hok⟩ := ebind_ok _ _ _ hok
    simp only [Except.ok.injEq] at hok
    subst hok
    exact InvER_dictSet_ne _ _ _ (by decide) (by decide)
      (InvER_dictSet_ne _ _ _ (by decide) (by decide)
        (InvER_dictSet_ne _ _ _ (by decide) (by decide) h))
  · simp only [Except.ok.injEq] at hok
    subst hok
    exact h

theorem mysqlStage_inv (m : PyVal) (d d2 : PyDict) (hok : mysqlStage m d = .ok d2)
    (h : InvER d) : InvER d2 := by
  unfold mysqlStage at hok
  split at hok
  · obtain ⟨x1, e1, hok⟩ := ebind_ok _ _ _ hok
    obtain ⟨x2, e2, hok⟩ := ebind_ok _ _ _ hok
    obtain ⟨x3, e3, hok⟩ := ebind_ok _ _ _ hok
    obtain ⟨x4, e4, hok⟩ := ebind_ok _ _ _ hok
    obtain ⟨x5, e5, hok⟩ := ebind_ok _ _ _ hok
    obtain ⟨x6, e6, hok⟩ := ebind_ok _ _ _ hok
    obtain ⟨x7, e7, hok⟩ := ebind_ok _ _ _ hok
    obtain ⟨x8, e8, hok⟩ := ebind_ok _ _ _ hok
    simp only [Except.ok.injEq] at hok
    subst hok
    have base : InvER (dictSet (dictSet (dictSet (dictSet (dictSet (dictSet (dictSet d
        K.mysqlConnections x1) K.mysqlCreatedTmpDiskTables x2) K.mysqlMaxUsedConnections x3)
        K.mysqlOpenFiles x4) K.mysqlSlowQueries x5) K.mysqlTableLocksWaited x6)
        K.mysqlThreadsConnected x7) :=
      InvER_dictSet_ne _ _ _ (by decide) (by decide)
        (InvER_dictSet_ne _ _ _ (by decide) (by decide)
          (InvER_dictSet_ne _ _ _ (by decide) (by decide)
            (InvER_dictSet_ne _ _ _ (by decide) (by decide)
              (InvER_dictSet_ne _ _ _ (by decide) (by decide)
                (InvER_dictSet_ne _ _ _ (by decide) (by decide)
                  (InvER_dictSet_ne _ _ _ (by decide) (by decide) h))))))
    split
    · exact base
    · exact InvER_dictSet_ne _ _ _ (by decide) (by decide) base
  · simp only [Except.ok.injEq] at hok
    subst hok
    exact h

theorem nginxStage_inv (n : PyVal) (d d2 : PyDict) (hok : nginxStage n d = .ok d2)
    (h : InvER d) : InvER d2 := by
  unfold nginxStage at hok
  split at hok
  · obtain ⟨x1, e1, hok⟩ := ebind_ok _ _ _ hok
    obtain ⟨x2, e2, hok⟩ := ebind_ok _ _ _ hok
    simp only [Except.ok.injEq] at hok
    subst hok
    exact InvER_dictSet_ne _ _ _ (by decide) (by decide)
      (InvER_dictSet_ne _ _ _ (by decide) (by decide) h)
  · simp only [Except.ok.injEq] at hok
    subst hok
    exact h

theorem hostStage_inv (hst : Except Exc String) (d d2 : PyDict)
    (hok : hostStage hst d = .ok d2) (h : InvER d) : InvER d2 := by
  unfold hostStage at hok
  split at hok
  · simp only [Except.ok.injEq] at hok
    subst hok
    exact InvER_dictSet_ne _ _ _ (by decide) (by decide) h
  · simp only [Except.ok.injEq] at hok
    subst hok
    exact h
  · simp at hok

theorem eventsLoop_inv (evs : List EventCheck) (d d2 : PyDict)
    (hok : eventsLoop evs d = .ok d2) (h : InvER d) : InvER d2 := by
  obtain ⟨⟨ed, he⟩, ⟨rd, hr⟩⟩ := h
  rw [eventsLoop_ok evs d ed he] at hok
  simp only [Except.ok.injEq] at hok
  subst hok
  exact ⟨⟨_, lookup_dictSet_self _ _ _⟩,
    ⟨rd, by rw [lookup_dictSet_ne _ _ _ _ (by decide), hr]⟩⟩

theorem resourcesLoop_inv (rcs : List ResCheck) (d : PyDict) (b : Bool)
    (dr : PyDict × Bool) (hok : resourcesLoop rcs d b = .ok dr) (h : InvER d) :
    InvER dr.1 := by
  obtain ⟨⟨ed, he⟩, ⟨rd, hr⟩⟩ := h
  rw [resourcesLoop_ok rcs d rd b hr] at hok
  simp only [Except.ok.injEq] at hok
  subst hok
  exact ⟨⟨ed, by rw [lookup_dictSet_ne _ _ _ _ (by decide), he]⟩,
    ⟨_, lookup_dictSet_self _ _ _⟩⟩

theorem metaStage_inv (env : Env) (b : Bool) (d d2 : PyDict)
    (hok : metaStage env b d = .ok d2) (h : InvER d) : InvER d2 := by
  unfold metaStage at hok
  split at hok
  · obtain ⟨hv, hg, hok⟩ := ebind_ok _ _ _ hok
    unfold setInSub at hok
    split at hok
    · simp at hok
    · simp only [Except.ok.injEq] at hok
      subst hok
      obtain ⟨⟨ed, he⟩, _⟩ := h
      exact ⟨⟨ed, by rw [lookup_dictSet_ne _ _ _ _ (by decide), he]⟩,
        ⟨_, lookup_dictSet_self _ _ _⟩⟩
    · simp at hok
  · simp only [Except.ok.injEq] at hok
    subst hok
    exact h

theorem startupStage_inv (env : Env) (fr : Bool) (d d2 : PyDict)
    (hok : startupStage env fr d = .ok d2) (h : InvER d) : InvER d2 := by
  unfold startupStage at hok
  split at hok
  · obtain ⟨hv, hg, hok⟩ := ebind_ok _ _ _ hok
    unfold setInSub at hok
    split at hok
    · simp at hok
    · simp only [Except.ok.injEq] at hok
      subst hok
      obtain ⟨_, ⟨rd, hr⟩⟩ := h
      exact ⟨⟨_, lookup_dictSet_self _ _ _⟩,
        ⟨rd, by rw [lookup_dictSet_ne _ _ _ _ (by decide), hr]⟩⟩
    · simp at hok
  · simp only [Except.ok.injEq] at hok
    subst hok
    exact h

theorem assemblePre_inv (env : Env) (v : Vals) (fr : Bool) (ss : PyVal) (d13 : PyDict)
    (hok : assemblePre env v fr ss = .ok d13) (hc : cpuNoClash v.cpuV = true) :
    InvER d13 := by
  unfold assemblePre at hok
  obtain ⟨d0, h0, hok⟩ := ebind_ok _ _ _ hok
  obtain ⟨d1, h1, hok⟩ := ebind_ok _ _ _ hok
  obtain ⟨d5, h5, hok⟩ := ebind_ok _ _ _ hok
  obtain ⟨d6, h6, hok⟩ := ebind_ok _ _ _ hok
  obtain ⟨d7, h7, hok⟩ := ebind_ok _ _ _ hok
  simp only [Except.ok.injEq] at hok
  subst hok
  have i1 := cpuStage_inv _ _ _ h1 hc (mandatoryStage_inv env v d0 h0)
  have i4 : InvER (setIfNotAbsent K.cassandra v.cassandraV
      (setIfNotAbsent K.datadog v.datadogV (setIfNotAbsent K.ganglia v.gangliaV d1))) :=
    InvER_setIfNotAbsent _ _ _ (by decide) (by decide)
      (InvER_setIfNotAbsent _ _ _ (by decide) (by decide)
        (InvER_setIfNotAbsent _ _ _ (by decide) (by decide) i1))
  have i7 := nginxStage_inv _ _ _ h7 (mysqlStage_inv _ _ _ h6 (apacheStage_inv _ _ _ h5 i4))
  apply InvER_ite_dictSet _ _ _ _ (by decide) (by decide)
  exact InvER_setIfNeFalse _ _ _ (by decide) (by decide)
    (InvER_setIfNeFalse _ _ _ (by decide) (by decide)
      (InvER_setIfNeFalse _ _ _ (by decide) (by decide)
        (InvER_setIfNeFalse _ _ _ (by decide) (by decide)
          (InvER_setIfNeFalse _ _ _ (by decide) (by decide) i7))))

theorem assemble_inv (env : Env) (v : Vals) (fr : Bool) (ss : PyVal) (pd : PyDict)
    (hok : assemble env v fr ss = .ok pd) (hc : cpuNoClash v.cpuV = true) : InvER pd := by
  unfold assemble at hok
  obtain ⟨d13, hpre, hok⟩ := ebind_ok _ _ _ hok
  obtain ⟨d14, hhost, hok⟩ := ebind_ok _ _ _ hok
  obtain ⟨d16, hev, hok⟩ := ebind_ok _ _ _ hok
  obtain ⟨dr, hres, hok⟩ := ebind_ok _ _ _ hok
  obtain ⟨d17, hmeta, hok⟩ := ebind_ok _ _ _ hok
  exact startupStage_inv _ _ _ _ hok
    (metaStage_inv _ _ _ _ hmeta
      (resourcesLoop_inv _ _ _ _ hres
        (eventsLoop_inv _ _ _ hev
          (InvER_dictSet_ne _ _ _ (by decide) (by decide)
            (hostStage_inv _ _ _ hhost
              (assemblePre_inv env v fr ss d13 hpre hc))))))

/-- Claim C10: every payload doChecks hands to the emitter contains the
events and resources keys bound to dictionary values, whatever subset of
probes contributed this cycle — they are initialized to empty dictionaries
in the mandatory literal and only ever extended (assuming the cpuStats
merge, whose keys are copied wholesale, does not itself carry an events or
resources key). -/
theorem c10_events_resources_present (env : Env) (st : ChecksState) (fr : Bool)
    (ss : PyVal) (pd : PyDict)
    (hc : cpuExcOk env.cpuStats = true)
    (hemit : (doChecksRun env st fr ss).emitted = some (.dict pd)) :
    (∃ ed, dictLookup pd K.events = some (.dict ed)) ∧
    (∃ rd, dictLookup pd K.resources = some (.dict rd)) := by
  unfold doChecksRun at hemit
  rcases hAs : assembleOf env st fr ss with ⟨res, stq⟩
  rw [hAs] at hemit
  cases res with
  | error e => simp at hemit
  | ok pd0 =>
      have hpd : pd0 = pd := by
        cases hEm : env.emitterExc <;> rw [hEm] at hemit <;> simpa using hemit
      subst hpd
      unfold assembleOf at hAs
      cases h1 : seqProbes1 env with
      | error e =>
          rw [h1] at hAs
          simp at hAs
      | ok t =>
          obtain ⟨a, dk, l, m, my, nt, ng, pr, rb, mo, co⟩ := t
          rw [h1] at hAs
          rcases h2 : getPlugins env.pluginsEnv st with ⟨r2, stp⟩
          rw [h2] at hAs
          cases r2 with
          | error e => simp at hAs
          | ok pv =>
              cases h3 : seqProbes2 env with
              | error e =>
                  rw [h3] at hAs
                  simp at hAs
              | ok t2 =>
                  obtain ⟨io, cp, ga, dd, ca⟩ := t2
                  rw [h3] at hAs
                  simp only [Prod.mk.injEq] at hAs
                  unfold seqProbes2 at h3
                  obtain ⟨io2, hio, h3⟩ := ebind_ok _ _ _ h3
                  obtain ⟨cp2, hcp, h3⟩ := ebind_ok _ _ _ h3
                  obtain ⟨ga2, hga, h3⟩ := ebind_ok _ _ _ h3
                  obtain ⟨dd2, hdd, h3⟩ := ebind_ok _ _ _ h3
                  obtain ⟨ca2, hca, h3⟩ := ebind_ok _ _ _ h3
                  simp only [Except.ok.injEq, Prod.mk.injEq] at h3
                  obtain ⟨g1, g2, g3, g4, g5⟩ := h3
                  subst g1
                  subst g2
                  subst g3
                  subst g4
                  subst g5
                  rw [hcp] at hc
                  simp only [cpuExcOk] at hc
                  exact assemble_inv env
                    ⟨a, dk, l, m, my, nt, ng, pr, rb, mo, co, pv, io2, cp2, ga2, dd2, ca2⟩
                    fr ss pd0 hAs.1 hc

/-- Claim C10 witness: a concrete cycle whose payload carries dictionary
valued events and resources fields. -/
theorem c10_events_resources_present_witness :
    (∃ ed, dictLookup (pdOf (doChecksRun stdEnv st0 false (.pyBool false))) K.events =
      some (.dict ed)) ∧
    (∃ rd, dictLookup (pdOf (doChecksRun stdEnv st0 false (.pyBool false))) K.resources =
      some (.dict rd)) :=
  c10_events_resources_present stdEnv st0 false (.pyBool false) _ rfl rfl

end DdAgent
